import Mathlib

/-!
HealthPal REST API: the treatment funding ledger and its neighbours.

A shallow embedding of `src/controllers/treatmentController.js` (handlers
`createTreatment`, `getTreatments`, `donate` and `getTransparencyReport`) over the
Sequelize models `Treatment`, `Donation` and `User`, followed by the handlers
`bookConsultation` and `updateConsultationStatus` (consultationController),
`getChatTranscript` (mentalHealthController), `fulfillRequest` (medicationController)
and `register` and `login` (authController), each over the tables it touches.

Modelling conventions.

* A table is a list of rows in insertion order. `findByPk` returns the first row
  with the given primary key; `instance.save()` is the SQL `UPDATE ... WHERE id = pk`.
* Request bodies carry the JSON types of the Swagger schema: a number field is
  `Option JsNumber` (`none` = absent or `null`), a string field is `Option String`.
  Where a handler treats an absent key and `null` differently (a destructuring
  default, an assignment of `undefined`) the field is a `Field`; the password, which
  the handlers test for truthiness and hand to bcrypt, is a `Password` and may be a
  value that is not a string. JavaScript truthiness is `truthyNum`, `truthyId`,
  `truthyStr`, `truthyPassword`.
* Amounts are JavaScript numbers, `JsNumber`: the rationals that an IEEE-754 binary64
  holds. `parseFloat` of a number is that number, `+` rounds the exact sum to the
  nearest double (ties to even), `<=` and `>=` compare the values. `NaN`, the
  infinities and overflow are outside the model. The store returns a number as it was
  written: the rounding of a DECIMAL(10,2) column to its scale is outside the model.
* Every handler runs against an `Env`: the clock, and whether the store rejects the
  insert or the update of this call (constraint or range violation, lost connection).
  A rejected write throws, and the handler's `catch` answers 500. Reads succeed.
* A query without an `order` clause returns the rows in table order.
* A handler is atomic in `donate`; `DonateTask` splits it at its three `await`s, where
  the event loop may run another request.
* `bcrypt`, `jsonwebtoken` and the `isEmail` validator are libraries outside the
  repository: they are the parameters `Library` of `register` and `login`.
-/

namespace HealthPal

/-! ## JavaScript numbers -/

/-- Rounding of a rational to the nearest integer, a tie going to the even one. -/
def roundHalfEven (r : ℚ) : ℤ :=
  if r - ⌊r⌋ < 1 / 2 then ⌊r⌋
  else if 1 / 2 < r - ⌊r⌋ then ⌊r⌋ + 1
  else if ⌊r⌋ % 2 = 0 then ⌊r⌋ else ⌊r⌋ + 1

/-- The binary exponent of the binade of a positive rational, not below that of the
subnormal doubles. -/
def binade (q : ℚ) : ℤ := max (Int.log 2 q) (-1022)

/-- The spacing of the doubles in the binade of a positive rational (53 bits). -/
def ulp (q : ℚ) : ℚ := (2 : ℚ) ^ (binade q - 52)

/-- The double nearest to a positive rational. -/
def roundPositive (q : ℚ) : ℚ := roundHalfEven (q / ulp q) * ulp q

/-- The IEEE-754 binary64 value nearest to a rational (round to nearest, ties to even).
The exponent has no upper bound here: overflow to `Infinity` is outside the model. -/
def roundDouble (q : ℚ) : ℚ :=
  if 0 < q then roundPositive q else if q < 0 then -roundPositive (-q) else 0

/-- A JavaScript number: a rational that an IEEE-754 double holds exactly, that is, a
value of `roundDouble`. `NaN` and the infinities are outside the model. -/
structure JsNumber where
  val : ℚ
  isDouble : ∃ q, roundDouble q = val

instance : DecidableEq JsNumber := fun a b =>
  decidable_of_iff (a.val = b.val)
    ⟨fun h => by cases a; cases b; cases h; rfl, fun h => by rw [h]⟩

instance : Repr JsNumber := ⟨fun a n => reprPrec a.val n⟩

/-- The number a decimal literal denotes once parsed (`JSON.parse`, `parseFloat` of the
text): the nearest double. -/
def JsNumber.ofRat (q : ℚ) : JsNumber := ⟨roundDouble q, q, rfl⟩

instance (n : Nat) : OfNat JsNumber n := ⟨JsNumber.ofRat n⟩

/-- JavaScript `+` on numbers: the double nearest to the exact sum. -/
def JsNumber.add (a b : JsNumber) : JsNumber := JsNumber.ofRat (a.val + b.val)

instance : Add JsNumber := ⟨JsNumber.add⟩

/-- JavaScript unary `-`. -/
def JsNumber.neg (a : JsNumber) : JsNumber := JsNumber.ofRat (-a.val)

instance : Neg JsNumber := ⟨JsNumber.neg⟩

/-- JavaScript `<=` and `>=` on numbers compare the values. -/
instance : LE JsNumber := ⟨fun a b => a.val ≤ b.val⟩

/-- JavaScript `<` and `>` on numbers compare the values. -/
instance : LT JsNumber := ⟨fun a b => a.val < b.val⟩

instance (a b : JsNumber) : Decidable (a ≤ b) := inferInstanceAs (Decidable (a.val ≤ b.val))

instance (a b : JsNumber) : Decidable (a < b) := inferInstanceAs (Decidable (a.val < b.val))

/-! ## Rows, requests and responses -/

/-- Row of the `users` table (`models/User.js`). -/
structure User where
  id : Int
  name : String
  email : String
  phone : Option String
  password : String
  role : String
  language : String
  verified : Bool
deriving DecidableEq, Repr

/-- Column `status` of `treatments`: `ENUM('active', 'funded', 'completed')`. -/
inductive Status where
  | active
  | funded
  | completed
deriving DecidableEq, Repr

/-- Row of the `treatments` table (`models/Treatment.js`). -/
structure Treatment where
  id : Int
  patient_id : Int
  title : String
  description : String
  category : String
  goal_amount : JsNumber
  funded_amount : JsNumber
  status : Status
  consent_given : Bool
deriving DecidableEq, Repr

/-- A Donation instance, one row of the `donations` table (`models/Donation.js`); with
`timestamps: true` the creation time is the attribute `createdAt`. -/
structure Donation where
  id : Int
  donor_id : Int
  treatment_id : Int
  amount : JsNumber
  receipt_url : Option String
  createdAt : Nat
deriving DecidableEq, Repr

/-- The persistent store: the three tables and the two auto-increment counters. -/
structure Store where
  users : List User
  treatments : List Treatment
  donations : List Donation
  nextTreatmentId : Int
  nextDonationId : Int
deriving DecidableEq, Repr

/-- What the world does during one request. -/
structure Env where
  now : Nat
  createFails : Bool
  saveFails : Bool
deriving DecidableEq, Repr

/-- The `Patient` include of `getTreatments`: `attributes: ['name', 'language']`. -/
structure PatientPublic where
  name : String
  language : String
deriving DecidableEq, Repr

/-- One element of the `treatments` array answered by `getTreatments`: the selected
`attributes` and the included `Patient` (`null` when no user row matches). -/
structure TreatmentPublic where
  id : Int
  title : String
  description : String
  category : String
  goal_amount : JsNumber
  funded_amount : JsNumber
  status : Status
  Patient : Option PatientPublic
deriving DecidableEq, Repr

/-- The object under `treatment` in the transparency report. -/
structure ReportTreatment where
  id : Int
  title : String
  goal_amount : JsNumber
  funded_amount : JsNumber
deriving DecidableEq, Repr

/-- One element of the `donations` array of the transparency report. -/
structure ReportEntry where
  donor_name : String
  amount : JsNumber
  receipt_url : Option String
  donated_at : Option Nat
deriving DecidableEq, Repr

/-- Row of the `consultations` table (`models/Consultation.js`); `mode` and `status`
are nullable ENUM columns. -/
structure Consultation where
  id : Int
  patient_id : Int
  doctor_id : Int
  scheduled_at : String
  mode : Option String
  status : Option String
  needs_translation : Bool
  transcript : Option String
deriving DecidableEq, Repr

/-- Row of the `therapy_chats` table (`models/TherapyChat.js`). -/
structure TherapyChat where
  id : Int
  user_id : Int
  counselor_id : Option Int
  is_anonymous : Bool
  topic : Option String
  status : String
deriving DecidableEq, Repr

/-- Row of the `chat_messages` table (`models/ChatMessage.js`, `timestamps: true`). -/
structure ChatMessage where
  id : Int
  chat_id : Int
  sender_id : Int
  sender_role : String
  content : String
  is_anonymous : Bool
  created_at : Nat
deriving DecidableEq, Repr

/-- One element of `messages` in a chat transcript:
`attributes: ['id', 'content', 'sender_role', 'created_at']`. -/
structure MessageView where
  id : Int
  content : String
  sender_role : String
  created_at : Nat
deriving DecidableEq, Repr

/-- Row of the `medications` table (`models/Medication.js`); `quantity` is INTEGER. -/
structure Medication where
  id : Int
  name : String
  description : Option String
  quantity : Int
  category : String
  provider_type : String
  provider_id : Int
deriving DecidableEq, Repr

/-- Row of the `requests` table (the model `Request` of `models/Request.js`). -/
structure MedicationRequest where
  id : Int
  requester_id : Int
  medication_id : Int
  status : String
  delivery_address : Option String
deriving DecidableEq, Repr

/-- The object under `user` in the answers of `register` and `login`. -/
structure AccountView where
  id : Int
  name : String
  email : String
  role : String
  language : String
deriving DecidableEq, Repr

/-- A value placed under a key of a JSON response body. -/
inductive Json where
  | str (s : String)
  | treatment (t : Treatment)
  | donation (d : Donation)
  | publicTreatments (l : List TreatmentPublic)
  | summary (t : ReportTreatment)
  | entries (l : List ReportEntry)
  | consultation (c : Consultation)
  | chat (c : TherapyChat)
  | messages (l : List MessageView)
  | account (u : AccountView)
deriving DecidableEq, Repr

/-- An HTTP response: `res.status(code).json(body)`, the body as its list of keys. -/
structure Response where
  status : Nat
  body : List (String × Json)
deriving DecidableEq, Repr

/-- A key of a JSON request body where the handler tells `undefined` from `null`: the
key is absent, holds `null`, or holds a value of the schema's type. -/
inductive Field (α : Type) where
  | absent
  | null
  | value (a : α)
deriving DecidableEq, Repr

/-- A destructuring default `{ key = d } = req.body`: it replaces an absent key only;
`none` is `null`. -/
def Field.withDefault {α : Type} (d : α) : Field α → Option α
  | Field.absent => some d
  | Field.null => none
  | Field.value a => some a

/-- What an attribute holds after the assignment `instance.key = field`, as the answer
shows it: a value, or none after `undefined` and `null`. -/
def Field.assigned {α : Type} : Field α → Option α
  | Field.absent => none
  | Field.null => none
  | Field.value a => some a

/-- The JSON value under the key `password`: absent, `null`, a string, or a value of
another type (number, boolean, array, object) of which only the truthiness matters. -/
inductive Password where
  | absent
  | null
  | text (s : String)
  | other (truthy : Bool)
deriving DecidableEq, Repr

/-- JavaScript truthiness of the password: absent, `null` and `""` are falsy. -/
def truthyPassword : Password → Bool
  | Password.absent => false
  | Password.null => false
  | Password.text s => s != ""
  | Password.other truthy => truthy

/-- JavaScript truthiness of a numeric JSON field: absent, `null` and `0` are falsy. -/
def truthyNum : Option JsNumber → Bool
  | none => false
  | some q => q != 0

/-- JavaScript truthiness of an integer JSON field. -/
def truthyId : Option Int → Bool
  | none => false
  | some k => k != 0

/-- JavaScript truthiness of a string JSON field: absent, `null` and `""` are falsy. -/
def truthyStr : Option String → Bool
  | none => false
  | some s => s != ""

/-- The comparison `amount <= 0` of a numeric JSON field. It is evaluated after `!amount`
in a chain of `||`, so only for a number that is not 0; for an absent or `null` amount
the chain is already true. -/
def leZero : Option JsNumber → Bool
  | none => false
  | some q => decide (q ≤ 0)

/-- `Treatment.findByPk(id)`: the row with that primary key, if any. -/
def Treatment.findByPk (s : Store) (id : Int) : Option Treatment :=
  s.treatments.find? (fun t => t.id == id)

/-- `treatment.save()` after `funded_amount` and `status` were assigned:
`UPDATE treatments SET funded_amount = ?, status = ? WHERE id = ?`. -/
def Treatment.save (s : Store) (id : Int) (funded_amount : JsNumber) (status : Status) : Store :=
  { s with treatments := s.treatments.map (fun t =>
      if t.id = id then { t with funded_amount := funded_amount, status := status } else t) }

/-- `Donation.create({ donor_id, treatment_id, amount, receipt_url })`: the new row
and the store holding it. -/
def Donation.create (s : Store) (now : Nat) (donor_id treatment_id : Int) (amount : JsNumber)
    (receipt_url : Option String) : Donation × Store :=
  let d : Donation :=
    { id := s.nextDonationId, donor_id := donor_id, treatment_id := treatment_id,
      amount := amount, receipt_url := receipt_url, createdAt := now }
  (d, { s with donations := s.donations ++ [d], nextDonationId := s.nextDonationId + 1 })

/-- Values of the column `category` of `treatments`. -/
def categories : List String :=
  ["surgery", "cancer", "dialysis", "rehabilitation", "other"]

/-- `Treatment.create({ patient_id, title, description, category, goal_amount,
consent_given })`: `category` is `allowNull: false` and an ENUM, so a missing or
unknown category is rejected; `funded_amount` and `status` take their defaults. -/
def Treatment.create (s : Store) (patient_id : Int) (title description : String)
    (category : Option String) (goal_amount : JsNumber) (consent_given : Bool) :
    Option (Treatment × Store) :=
  match category with
  | none => none
  | some c =>
    if c ∈ categories then
      let t : Treatment :=
        { id := s.nextTreatmentId, patient_id := patient_id, title := title,
          description := description, category := c, goal_amount := goal_amount,
          funded_amount := 0, status := Status.active, consent_given := consent_given }
      some (t, { s with treatments := s.treatments ++ [t],
                        nextTreatmentId := s.nextTreatmentId + 1 })
    else none

/-- Body of `POST /treatments`. The handler reads the first five keys; a client may
send any others, of which `funded_amount` and `status` are kept here. -/
structure CreateTreatmentBody where
  title : Option String
  description : Option String
  category : Option String
  goal_amount : Option JsNumber
  consent_given : Option Bool
  funded_amount : Option JsNumber
  status : Option String
deriving DecidableEq, Repr

/-- The handler `exports.createTreatment`. -/
def createTreatment (s : Store) (user : User) (body : CreateTreatmentBody) (env : Env) :
    Store × Response :=
  if !truthyStr body.title || !truthyStr body.description || !truthyNum body.goal_amount then
    (s, { status := 400,
          body := [("error", Json.str "Title, description, and goal amount are required")] })
  else
    match body.title, body.description, body.goal_amount with
    | some title, some description, some goal_amount =>
      if env.createFails then
        (s, { status := 500, body := [("error", Json.str "Failed to create treatment request")] })
      else
        match Treatment.create s user.id title description body.category goal_amount
            (body.consent_given.getD false) with
        | none =>
          (s, { status := 500,
                body := [("error", Json.str "Failed to create treatment request")] })
        | some (treatment, s1) =>
          (s1, { status := 201,
                 body := [("message", Json.str "Treatment request created"),
                          ("treatment", Json.treatment treatment)] })
    | _, _, _ =>
      (s, { status := 400,
            body := [("error", Json.str "Title, description, and goal amount are required")] })

/-- Body of `POST /treatments/donations`. -/
structure DonateBody where
  treatment_id : Option Int
  amount : Option JsNumber
  receipt_url : Option String
deriving DecidableEq, Repr

/-- The handler `exports.donate`. `parseFloat` of the stored `funded_amount` and of the
request's `amount` are these numbers, `+` is JavaScript addition of doubles and `>=`
compares the double just computed with the stored `goal_amount`. -/
def donate (s : Store) (user : User) (body : DonateBody) (env : Env) : Store × Response :=
  if !truthyId body.treatment_id || !truthyNum body.amount || leZero body.amount then
    (s, { status := 400,
          body := [("error", Json.str "Valid treatment ID and positive amount required")] })
  else
    match body.treatment_id, body.amount with
    | some treatment_id, some amount =>
      match Treatment.findByPk s treatment_id with
      | none => (s, { status := 404, body := [("error", Json.str "Treatment not found")] })
      | some treatment =>
        if env.createFails then
          (s, { status := 500, body := [("error", Json.str "Donation failed")] })
        else
          let created := Donation.create s env.now user.id treatment_id amount body.receipt_url
          let funded_amount := treatment.funded_amount + amount
          let status :=
            if funded_amount ≥ treatment.goal_amount then Status.funded else treatment.status
          if env.saveFails then
            (created.2, { status := 500, body := [("error", Json.str "Donation failed")] })
          else
            (Treatment.save created.2 treatment.id funded_amount status,
              { status := 201,
                body := [("message", Json.str "Donation successful"),
                         ("donation", Json.donation created.1)] })
    | _, _ =>
      (s, { status := 400,
            body := [("error", Json.str "Valid treatment ID and positive amount required")] })

/-- `User.findByPk(id)`, the row an `include` of `User` joins to. -/
def User.findByPk (s : Store) (id : Int) : Option User :=
  s.users.find? (fun u => u.id == id)

/-- The element of `getTreatments` for one treatment row. -/
def publicView (s : Store) (t : Treatment) : TreatmentPublic :=
  { id := t.id, title := t.title, description := t.description, category := t.category,
    goal_amount := t.goal_amount, funded_amount := t.funded_amount, status := t.status,
    Patient := (User.findByPk s t.patient_id).map
      (fun u => { name := u.name, language := u.language }) }

/-- The handler `exports.getTreatments`:
`Treatment.findAll({ where: { status: 'active' }, attributes, include })`. -/
def getTreatments (s : Store) : Store × Response :=
  let treatments :=
    (s.treatments.filter (fun t => decide (t.status = Status.active))).map (publicView s)
  (s, { status := 200, body := [("treatments", Json.publicTreatments treatments)] })

/-- The element of the report for one Donation row `d`:
`d.Donor ? d.Donor.name : 'Anonymous Donor'`, `parseFloat(d.amount)`,
`d.receipt_url || null`, `d.created_at`. A Donation has no attribute `created_at` (its
timestamp is `createdAt`), so `d.created_at` is `undefined` and the entry carries no
`donated_at`. -/
def reportEntry (s : Store) (d : Donation) : ReportEntry :=
  { donor_name :=
      match User.findByPk s d.donor_id with
      | some donor => donor.name
      | none => "Anonymous Donor",
    amount := d.amount,
    receipt_url := if truthyStr d.receipt_url then d.receipt_url else none,
    donated_at := none }

/-- The handler `exports.getTransparencyReport`; `treatment.Donations` are the Donation
rows of the treatment as the store returns them. -/
def getTransparencyReport (s : Store) (id : Int) : Store × Response :=
  match Treatment.findByPk s id with
  | none => (s, { status := 404, body := [("error", Json.str "Treatment not found")] })
  | some treatment =>
    (s, { status := 200,
          body := [("treatment", Json.summary
                     { id := treatment.id, title := treatment.title,
                       goal_amount := treatment.goal_amount,
                       funded_amount := treatment.funded_amount }),
                   ("donations", Json.entries
                     ((s.donations.filter (fun d => d.treatment_id == treatment.id)).map
                       (reportEntry s)))] })

/-- A request to one of the four handlers of the treatment routes. -/
inductive Request where
  | createTreatment (user : User) (body : CreateTreatmentBody) (env : Env)
  | getTreatments
  | donate (user : User) (body : DonateBody) (env : Env)
  | getTransparencyReport (id : Int)
deriving DecidableEq, Repr

/-- Whether a request is a `donate`. -/
def Request.isDonate : Request → Bool
  | Request.donate _ _ _ => true
  | _ => false

/-- The router: the handler of a request. -/
def handle (s : Store) : Request → Store × Response
  | Request.createTreatment user body env => createTreatment s user body env
  | Request.getTreatments => getTreatments s
  | Request.donate user body env => donate s user body env
  | Request.getTransparencyReport id => getTransparencyReport s id

/-- The store after a sequence of requests handled one after another. -/
def runRequests (s : Store) : List Request → Store
  | [] => s
  | r :: rs => runRequests (handle s r).1 rs

/-! ## `donate` split at its `await`s -/

/-- A `donate` request in flight. Between two of its `await`s (`Treatment.findByPk`,
`Donation.create`, `treatment.save`) the handler holds the values it has read. -/
inductive DonateTask where
  | pending (user : User) (body : DonateBody) (env : Env)
  | loaded (user : User) (body : DonateBody) (env : Env) (treatment_id : Int) (amount : JsNumber)
      (treatment : Treatment)
  | inserted (env : Env) (amount : JsNumber) (treatment : Treatment) (donation : Donation)
  | answered (r : Response)
deriving DecidableEq, Repr

/-- One uninterrupted stretch of `donate`: the code up to and including the next awaited
store operation. -/
def DonateTask.step (s : Store) : DonateTask → Store × DonateTask
  | DonateTask.pending user body env =>
    if !truthyId body.treatment_id || !truthyNum body.amount || leZero body.amount then
      (s, DonateTask.answered
        { status := 400,
          body := [("error", Json.str "Valid treatment ID and positive amount required")] })
    else
      match body.treatment_id, body.amount with
      | some treatment_id, some amount =>
        match Treatment.findByPk s treatment_id with
        | none =>
          (s, DonateTask.answered
            { status := 404, body := [("error", Json.str "Treatment not found")] })
        | some treatment =>
          (s, DonateTask.loaded user body env treatment_id amount treatment)
      | _, _ =>
        (s, DonateTask.answered
        { status := 400,
          body := [("error", Json.str "Valid treatment ID and positive amount required")] })
  | DonateTask.loaded user body env treatment_id amount treatment =>
    if env.createFails then
      (s, DonateTask.answered
        { status := 500, body := [("error", Json.str "Donation failed")] })
    else
      let created := Donation.create s env.now user.id treatment_id amount body.receipt_url
      (created.2, DonateTask.inserted env amount treatment created.1)
  | DonateTask.inserted env amount treatment donation =>
    let funded_amount := treatment.funded_amount + amount
    let status :=
      if funded_amount ≥ treatment.goal_amount then Status.funded else treatment.status
    if env.saveFails then
      (s, DonateTask.answered
        { status := 500, body := [("error", Json.str "Donation failed")] })
    else
      (Treatment.save s treatment.id funded_amount status,
        DonateTask.answered
          { status := 201,
            body := [("message", Json.str "Donation successful"),
                     ("donation", Json.donation donation)] })
  | DonateTask.answered r => (s, DonateTask.answered r)

/-- The requests in flight run as the schedule says: each entry names the task that
runs its next stretch. -/
def interleave (s : Store) (tasks : List DonateTask) : List Nat → Store × List DonateTask
  | [] => (s, tasks)
  | i :: schedule =>
    match tasks.get? i with
    | none => interleave s tasks schedule
    | some task =>
      interleave (task.step s).1 (tasks.set i (task.step s).2) schedule

/-- The answers given so far by the requests in flight. -/
def answers (tasks : List DonateTask) : List (Option Nat) :=
  tasks.map (fun task => match task with
    | DonateTask.answered r => some r.status
    | _ => none)

/-! ## Runs of requests and the ledger -/

/-- One `donate` request together with what the world does while it is handled. -/
structure DonateCall where
  user : User
  body : DonateBody
  env : Env
deriving DecidableEq, Repr

/-- The store after a sequence of `donate` requests handled one after another. -/
def runDonates (s : Store) : List DonateCall → Store
  | [] => s
  | c :: cs => runDonates (donate s c.user c.body c.env).1 cs

/-- The responses of a sequence of `donate` requests handled one after another. -/
def donateResponses (s : Store) : List DonateCall → List Response
  | [] => []
  | c :: cs => (donate s c.user c.body c.env).2 :: donateResponses (donate s c.user c.body c.env).1 cs

/-- The Donation rows of one treatment. -/
def donationsOf (s : Store) (treatment_id : Int) : List Donation :=
  s.donations.filter (fun d => d.treatment_id == treatment_id)

/-- The exact sum of the amounts of the Donation rows of one treatment. -/
def donatedTotal (s : Store) (treatment_id : Int) : ℚ :=
  ((donationsOf s treatment_id).map (fun d => d.amount.val)).sum

/-- The amounts of the Donation rows of one treatment added with JavaScript `+` one
after another, oldest row first, from 0. -/
def donatedRunning (s : Store) (treatment_id : Int) : JsNumber :=
  ((donationsOf s treatment_id).map (fun d => d.amount)).foldl (fun x y => x + y) 0

/-- The ledger equation for one treatment: it exists and its `funded_amount` is the
exact sum of the amounts of its Donation rows. -/
def Ledger (s : Store) (treatment_id : Int) : Prop :=
  (Treatment.findByPk s treatment_id).map (fun t => t.funded_amount.val)
    = some (donatedTotal s treatment_id)

/-- The ledger as `donate` keeps it: the treatment exists and its `funded_amount` is the
running JavaScript sum of the amounts of its Donation rows. -/
def RunningLedger (s : Store) (treatment_id : Int) : Prop :=
  (Treatment.findByPk s treatment_id).map (fun t => t.funded_amount)
    = some (donatedRunning s treatment_id)

instance (s : Store) (treatment_id : Int) : Decidable (RunningLedger s treatment_id) := by
  unfold RunningLedger; infer_instance

instance (s : Store) (treatment_id : Int) : Decidable (Ledger s treatment_id) := by
  unfold Ledger; infer_instance

/-- The next treatment id is unused: no treatment row has it and no Donation row refers
to it (what auto-increment and the foreign key give). -/
def FreshTreatmentId (s : Store) : Prop :=
  (∀ t ∈ s.treatments, t.id ≠ s.nextTreatmentId) ∧
  (∀ d ∈ s.donations, d.treatment_id ≠ s.nextTreatmentId)

instance (s : Store) : Decidable (FreshTreatmentId s) := by
  unfold FreshTreatmentId; infer_instance

/-! ## Consultations -/

/-- The tables read and written by the consultation handlers. -/
structure Clinic where
  users : List User
  consultations : List Consultation
  nextConsultationId : Int
deriving DecidableEq, Repr

/-- `User.findByPk(id)` on the clinic's users; an absent id finds nothing. -/
def Clinic.findUser (s : Clinic) (id : Option Int) : Option User :=
  match id with
  | none => none
  | some k => s.users.find? (fun u => u.id == k)

/-- `Consultation.findByPk(id)`. -/
def Consultation.findByPk (s : Clinic) (id : Int) : Option Consultation :=
  s.consultations.find? (fun c => c.id == id)

/-- Values of the column `mode` of `consultations`. -/
def consultationModes : List String := ["video", "audio", "chat"]

/-- Values of the column `status` of `consultations`. -/
def consultationStatuses : List String := ["scheduled", "completed", "cancelled"]

/-- `Consultation.create({ patient_id, doctor_id, scheduled_at, mode, needs_translation })`:
`scheduled_at` is `allowNull: false` and `mode` is a nullable ENUM, so a missing time or
an unknown mode is rejected and `null` is stored as NULL; `status` takes its default. -/
def Consultation.create (s : Clinic) (patient_id doctor_id : Int)
    (scheduled_at : Option String) (mode : Option String) (needs_translation : Bool) :
    Option (Consultation × Clinic) :=
  match scheduled_at with
  | none => none
  | some time =>
    if mode.all (fun m => decide (m ∈ consultationModes)) then
      let c : Consultation :=
        { id := s.nextConsultationId, patient_id := patient_id, doctor_id := doctor_id,
          scheduled_at := time, mode := mode, status := some "scheduled",
          needs_translation := needs_translation, transcript := none }
      some (c, { s with consultations := s.consultations ++ [c],
                        nextConsultationId := s.nextConsultationId + 1 })
    else none

/-- Body of `POST /consultations`. -/
structure BookBody where
  doctor_id : Option Int
  scheduled_at : Option String
  mode : Field String
deriving DecidableEq, Repr

/-- The handler `exports.bookConsultation`; `mode = 'video'` is a destructuring
default. -/
def bookConsultation (s : Clinic) (user : User) (body : BookBody) (env : Env) :
    Clinic × Response :=
  match s.findUser body.doctor_id, body.doctor_id with
  | some doctor, some doctor_id =>
    if doctor.role ≠ "doctor" then
      (s, { status := 400, body := [("error", Json.str "Valid doctor ID required")] })
    else
      let needs_translation := decide (user.language ≠ doctor.language)
      if env.createFails then
        (s, { status := 500, body := [("error", Json.str "Failed to book consultation")] })
      else
        match Consultation.create s user.id doctor_id body.scheduled_at
            (body.mode.withDefault "video") needs_translation with
        | none =>
          (s, { status := 500, body := [("error", Json.str "Failed to book consultation")] })
        | some (consultation, s1) =>
          (s1, { status := 201,
                 body := [("message", Json.str "Consultation booked successfully"),
                          ("consultation", Json.consultation consultation)] })
  | _, _ => (s, { status := 400, body := [("error", Json.str "Valid doctor ID required")] })

/-- `consultation.save()` after `consultation.status = status`: after the assignment
of `undefined` nothing is written and the row keeps its status, `null` is written as
NULL, and a value outside the ENUM is rejected. -/
def Consultation.save (s : Clinic) (id : Int) (status : Field String) : Option Clinic :=
  match status with
  | Field.absent => some s
  | Field.null =>
    some { s with consultations := s.consultations.map (fun c =>
      if c.id = id then { c with status := none } else c) }
  | Field.value v =>
    if v ∈ consultationStatuses then
      some { s with consultations := s.consultations.map (fun c =>
        if c.id = id then { c with status := some v } else c) }
    else none

/-- The handler `exports.updateConsultationStatus`; `status` is the key of the body. In
the answer the consultation carries the assigned status (no `status` key after
`undefined`, shown as `none`). -/
def updateConsultationStatus (s : Clinic) (user : User) (id : Int) (status : Field String)
    (env : Env) : Clinic × Response :=
  match Consultation.findByPk s id with
  | none => (s, { status := 404, body := [("error", Json.str "Consultation not found")] })
  | some consultation =>
    if user.role = "doctor" ∧ consultation.doctor_id ≠ user.id then
      (s, { status := 403, body := [("error", Json.str "Not your consultation")] })
    else if user.role = "patient" ∧ consultation.patient_id ≠ user.id then
      (s, { status := 403, body := [("error", Json.str "Not your consultation")] })
    else if user.role = "patient" ∧ status ≠ Field.value "cancelled" then
      (s, { status := 400,
            body := [("error", Json.str "Patients can only cancel consultations")] })
    else if env.saveFails then
      (s, { status := 500, body := [("error", Json.str "Failed to update consultation")] })
    else
      match Consultation.save s consultation.id status with
      | none =>
        (s, { status := 500,
              body := [("error", Json.str "Failed to update consultation")] })
      | some s1 =>
        (s1, { status := 200,
               body := [("message", Json.str "Consultation updated"),
                        ("consultation",
                          Json.consultation { consultation with status := status.assigned })] })

/-! ## Therapy chats -/

/-- The tables read by `getChatTranscript`. -/
structure ChatRoom where
  chats : List TherapyChat
  messages : List ChatMessage
deriving DecidableEq, Repr

/-- `TherapyChat.findByPk(id)`. -/
def TherapyChat.findByPk (s : ChatRoom) (id : Int) : Option TherapyChat :=
  s.chats.find? (fun c => c.id == id)

/-- The selected `attributes` of one message row. -/
def messageView (m : ChatMessage) : MessageView :=
  { id := m.id, content := m.content, sender_role := m.sender_role,
    created_at := m.created_at }

/-- `ChatMessage.findAll({ where: { chat_id }, attributes, order: [['created_at', 'ASC']] })`. -/
def ChatMessage.findAll (s : ChatRoom) (chat_id : Int) : List MessageView :=
  ((s.messages.filter (fun m => m.chat_id == chat_id)).insertionSort
    (fun a b => a.created_at ≤ b.created_at)).map messageView

/-- The handler `exports.getChatTranscript`. -/
def getChatTranscript (s : ChatRoom) (user : User) (id : Int) : ChatRoom × Response :=
  match TherapyChat.findByPk s id with
  | none => (s, { status := 404, body := [("error", Json.str "Chat not found")] })
  | some chat =>
    if chat.user_id ≠ user.id ∧ user.role ≠ "doctor" then
      (s, { status := 403, body := [("error", Json.str "Not authorized")] })
    else
      (s, { status := 200,
            body := [("chat", Json.chat chat),
                     ("messages", Json.messages (ChatMessage.findAll s id))] })

/-! ## Medication requests -/

/-- The tables read and written by `fulfillRequest`. -/
structure Pharmacy where
  medications : List Medication
  requests : List MedicationRequest
deriving DecidableEq, Repr

/-- Whether the store rejects the two updates of one `fulfillRequest` call. -/
structure FulfillEnv where
  medicationSaveFails : Bool
  requestSaveFails : Bool
deriving DecidableEq, Repr

/-- `Request.findByPk(id)`. -/
def MedicationRequest.findByPk (s : Pharmacy) (id : Int) : Option MedicationRequest :=
  s.requests.find? (fun r => r.id == id)

/-- `Medication.findByPk(id)`. -/
def Medication.findByPk (s : Pharmacy) (id : Int) : Option Medication :=
  s.medications.find? (fun m => m.id == id)

/-- `medication.save()` after `quantity` was assigned. -/
def Medication.save (s : Pharmacy) (id : Int) (quantity : Int) : Pharmacy :=
  { s with medications := s.medications.map (fun m =>
      if m.id = id then { m with quantity := quantity } else m) }

/-- `request.save()` after `status` was assigned. -/
def MedicationRequest.save (s : Pharmacy) (id : Int) (status : String) : Pharmacy :=
  { s with requests := s.requests.map (fun r =>
      if r.id = id then { r with status := status } else r) }

/-- The handler `exports.fulfillRequest`. When the request's medication row is missing,
`medication.quantity` throws and the `catch` answers 500. -/
def fulfillRequest (s : Pharmacy) (user : User) (id : Int) (env : FulfillEnv) :
    Pharmacy × Response :=
  if user.role ≠ "ngo" ∧ user.role ≠ "admin" then
    (s, { status := 403,
          body := [("error", Json.str "Only NGOs or admins can fulfill requests")] })
  else
    match MedicationRequest.findByPk s id with
    | none => (s, { status := 404, body := [("error", Json.str "Request not found")] })
    | some request =>
      match Medication.findByPk s request.medication_id with
      | none =>
        (s, { status := 500, body := [("error", Json.str "Failed to fulfill request")] })
      | some medication =>
        if medication.quantity ≤ 0 then
          (s, { status := 400, body := [("error", Json.str "Item no longer available")] })
        else if env.medicationSaveFails then
          (s, { status := 500, body := [("error", Json.str "Failed to fulfill request")] })
        else if env.requestSaveFails then
          (Medication.save s medication.id (medication.quantity - 1),
            { status := 500, body := [("error", Json.str "Failed to fulfill request")] })
        else
          (MedicationRequest.save
              (Medication.save s medication.id (medication.quantity - 1))
              request.id "fulfilled",
            { status := 200,
              body := [("message", Json.str "Request fulfilled successfully")] })

/-- The store after `k` calls of `fulfillRequest` for the same request. -/
def fulfillTimes (s : Pharmacy) (user : User) (id : Int) (env : FulfillEnv) :
    Nat → Pharmacy
  | 0 => s
  | k + 1 => fulfillTimes (fulfillRequest s user id env).1 user id env k

/-- The answers of `k` calls of `fulfillRequest` for the same request. -/
def fulfillAnswers (s : Pharmacy) (user : User) (id : Int) (env : FulfillEnv) :
    Nat → List Nat
  | 0 => []
  | k + 1 => (fulfillRequest s user id env).2.status ::
      fulfillAnswers (fulfillRequest s user id env).1 user id env k

/-! ## Accounts -/

/-- The libraries `register` and `login` call: `bcrypt.hash(password, 12)` and
`bcrypt.compare(password, hash)` on a string password, `jwt.sign({ id, role },
JWT_SECRET, options)` and the `isEmail` validator of the model. -/
structure Library where
  hash : String → String
  compare : String → String → Bool
  sign : Int → String → String
  isEmail : String → Bool

/-- The table read and written by `register` and `login`. -/
structure Accounts where
  users : List User
  nextUserId : Int
deriving DecidableEq, Repr

/-- `User.findOne({ where: { email } })`. -/
def User.findOne (s : Accounts) (email : String) : Option User :=
  s.users.find? (fun u => u.email == email)

/-- Values of the column `role` of `users`. -/
def userRoles : List String := ["patient", "doctor", "donor", "ngo", "admin"]

/-- Values of the column `language` of `users`. -/
def userLanguages : List String := ["ar", "en"]

/-- `User.create({ name, email, phone, password, role, language })`: the email must pass
`isEmail`, and `role` and `language` are `allowNull: false` ENUMs, so `null` (here
`none`) and an unknown value are rejected; `verified` takes its default. -/
def User.create (lib : Library) (s : Accounts) (name email : String) (phone : Option String)
    (password : String) (role language : Option String) : Option (User × Accounts) :=
  match role, language with
  | some role, some language =>
    if lib.isEmail email ∧ role ∈ userRoles ∧ language ∈ userLanguages then
      let u : User :=
        { id := s.nextUserId, name := name, email := email, phone := phone,
          password := password, role := role, language := language, verified := false }
      some (u, { s with users := s.users ++ [u], nextUserId := s.nextUserId + 1 })
    else none
  | _, _ => none

/-- The object under `user` in the answers of `register` and `login`. -/
def accountView (u : User) : AccountView :=
  { id := u.id, name := u.name, email := u.email, role := u.role, language := u.language }

/-- Body of `POST /auth/register`. -/
structure RegisterBody where
  name : Option String
  email : Option String
  phone : Option String
  password : Password
  role : Field String
  language : Field String
deriving DecidableEq, Repr

/-- The handler `exports.register`; `role = 'patient'` and `language = 'ar'` are
destructuring defaults. `bcrypt.hash` rejects a password that is not a string, and the
`catch` answers 500. -/
def register (lib : Library) (s : Accounts) (body : RegisterBody) (env : Env) :
    Accounts × Response :=
  if !truthyStr body.name || !truthyStr body.email || !truthyPassword body.password then
    (s, { status := 400,
          body := [("error", Json.str "Name, email, and password are required")] })
  else
    match body.name, body.email with
    | some name, some email =>
      match User.findOne s email with
      | some _ =>
        (s, { status := 409,
              body := [("error", Json.str "User with this email already exists")] })
      | none =>
        match body.password with
        | Password.text password =>
          if env.createFails then
            (s, { status := 500,
                  body := [("error", Json.str "Server error during registration")] })
          else
            match User.create lib s name email body.phone (lib.hash password)
                (body.role.withDefault "patient") (body.language.withDefault "ar") with
            | none =>
              (s, { status := 500,
                    body := [("error", Json.str "Server error during registration")] })
            | some (user, s1) =>
              (s1, { status := 201,
                     body := [("message", Json.str "User registered successfully"),
                              ("user", Json.account (accountView user)),
                              ("token", Json.str (lib.sign user.id user.role))] })
        | _ =>
          (s, { status := 500,
                body := [("error", Json.str "Server error during registration")] })
    | _, _ =>
      (s, { status := 400,
            body := [("error", Json.str "Name, email, and password are required")] })

/-- Body of `POST /auth/login`. -/
structure LoginBody where
  email : Option String
  password : Password
deriving DecidableEq, Repr

/-- The handler `exports.login`. `bcrypt.compare` rejects a password that is not a
string, and the `catch` answers 500. -/
def login (lib : Library) (s : Accounts) (body : LoginBody) : Accounts × Response :=
  if !truthyStr body.email || !truthyPassword body.password then
    (s, { status := 400, body := [("error", Json.str "Email and password are required")] })
  else
    match body.email with
    | some email =>
      match User.findOne s email with
      | none => (s, { status := 401, body := [("error", Json.str "Invalid credentials")] })
      | some user =>
        match body.password with
        | Password.text password =>
          if !lib.compare password user.password then
            (s, { status := 401, body := [("error", Json.str "Invalid credentials")] })
          else
            (s, { status := 200,
                  body := [("message", Json.str "Login successful"),
                           ("user", Json.account (accountView user)),
                           ("token", Json.str (lib.sign user.id user.role))] })
        | _ => (s, { status := 500, body := [("error", Json.str "Server error during login")] })
    | none =>
      (s, { status := 400, body := [("error", Json.str "Email and password are required")] })

/-! ## Auxiliary notions for the statements -/

/-- The treatment row as `donate` writes it back for a donation of `amount`:
`funded_amount` is the double nearest to the sum, and the status is decided on it. -/
def credited (t : Treatment) (amount : JsNumber) : Treatment :=
  { t with funded_amount := t.funded_amount + amount,
           status := if t.funded_amount + amount ≥ t.goal_amount then Status.funded
                     else t.status }

/-- The path a `donate` request takes through the handler. -/
inductive DonatePath (s : Store) (user : User) (body : DonateBody) (env : Env) : Prop where
  | invalid
      (hbad : body.treatment_id = none ∨ body.treatment_id = some 0 ∨ body.amount = none ∨
        ∃ a, body.amount = some a ∧ a ≤ 0)
      (hres : donate s user body env = (s, ⟨400, [("error", Json.str "Valid treatment ID and positive amount required")]⟩))
  | missing (tid : Int) (a : JsNumber)
      (htid : body.treatment_id = some tid) (hamt : body.amount = some a)
      (hnz : tid ≠ 0) (hpos : 0 < a) (hfind : Treatment.findByPk s tid = none)
      (hres : donate s user body env =
        (s, ⟨404, [("error", Json.str "Treatment not found")]⟩))
  | insertFailed (tid : Int) (a : JsNumber) (t : Treatment)
      (htid : body.treatment_id = some tid) (hamt : body.amount = some a)
      (hnz : tid ≠ 0) (hpos : 0 < a) (hfind : Treatment.findByPk s tid = some t)
      (hcreate : env.createFails = true)
      (hres : donate s user body env =
        (s, ⟨500, [("error", Json.str "Donation failed")]⟩))
  | saveFailed (tid : Int) (a : JsNumber) (t : Treatment)
      (htid : body.treatment_id = some tid) (hamt : body.amount = some a)
      (hnz : tid ≠ 0) (hpos : 0 < a) (hfind : Treatment.findByPk s tid = some t)
      (hcreate : env.createFails = false) (hsave : env.saveFails = true)
      (hres : donate s user body env =
        ((Donation.create s env.now user.id tid a body.receipt_url).2,
          ⟨500, [("error", Json.str "Donation failed")]⟩))
  | done (tid : Int) (a : JsNumber) (t : Treatment)
      (htid : body.treatment_id = some tid) (hamt : body.amount = some a)
      (hnz : tid ≠ 0) (hpos : 0 < a) (hfind : Treatment.findByPk s tid = some t)
      (hcreate : env.createFails = false) (hsave : env.saveFails = false)
      (hres : donate s user body env =
        (Treatment.save (Donation.create s env.now user.id tid a body.receipt_url).2 t.id
            (credited t a).funded_amount (credited t a).status,
          ⟨201, [("message", Json.str "Donation successful"),
                 ("donation",
                   Json.donation (Donation.create s env.now user.id tid a body.receipt_url).1)]⟩))

/-- The row that `Treatment.create` builds. -/
def newTreatment (s : Store) (patient_id : Int) (title description category : String)
    (goal_amount : JsNumber) (consent_given : Bool) : Treatment :=
  { id := s.nextTreatmentId, patient_id := patient_id, title := title,
    description := description, category := category, goal_amount := goal_amount,
    funded_amount := 0, status := Status.active, consent_given := consent_given }

/-- The primary key of `treatments`: no two rows share an id. -/
def PrimaryKey (s : Store) : Prop :=
  (s.treatments.map (fun t => t.id)).Nodup

instance (s : Store) : Decidable (PrimaryKey s) := by
  unfold PrimaryKey; infer_instance

/-- The treatments carried by a response body. -/
def Response.treatments (r : Response) : List Treatment :=
  r.body.filterMap (fun kv => match kv.2 with
    | Json.treatment t => some t
    | _ => none)

/-- The keys of a response body. -/
def Response.keys (r : Response) : List String :=
  r.body.map (fun kv => kv.1)

/-! ## Concrete data for the examples -/

/-- A store with no rows. -/
def emptyStore : Store :=
  { users := [], treatments := [], donations := [], nextTreatmentId := 1, nextDonationId := 1 }

/-- A patient. -/
def patient3 : User :=
  { id := 3, name := "P", email := "p@x", phone := none,
    password := "h", role := "patient", language := "ar", verified := true }

/-- A donor. -/
def donor7 : User :=
  { id := 7, name := "D", email := "d@x", phone := none,
    password := "h", role := "donor", language := "en", verified := true }

/-- A treatment as `createTreatment` stores it, goal 100. -/
def knee : Treatment :=
  { id := 1, patient_id := 3, title := "Knee Surgery", description := "x",
    category := "surgery", goal_amount := 100, funded_amount := 0,
    status := Status.active, consent_given := false }

/-- A store holding the one treatment `knee` and no donation. -/
def kneeStore : Store :=
  { users := [patient3, donor7], treatments := [knee], donations := [],
    nextTreatmentId := 2, nextDonationId := 1 }

/-- The request that creates `knee`, with a chosen goal. -/
def kneeBody (goal : JsNumber) : CreateTreatmentBody :=
  { title := some "Knee Surgery", description := some "x", category := some "surgery",
    goal_amount := some goal, consent_given := none, funded_amount := none, status := none }

/-- A `donate` request body without receipt. -/
def give (treatment_id : Int) (amount : JsNumber) : DonateBody :=
  { treatment_id := some treatment_id, amount := some amount, receipt_url := none }

/-- The store accepts every write. -/
def calm : Env := { now := 5, createFails := false, saveFails := false }

/-- The store accepts the insert and rejects the treatment save. -/
def saveDown : Env := { now := 5, createFails := false, saveFails := true }

/-- A Donation row of donor 7 with a receipt. -/
def gift40 : Donation :=
  { id := 1, donor_id := 7, treatment_id := 1, amount := 40,
    receipt_url := some "https://example.com/receipts/d1.pdf", createdAt := 5 }

/-- A later Donation row whose donor has no user row and whose receipt is the empty
string. -/
def gift30 : Donation :=
  { id := 2, donor_id := 99, treatment_id := 1, amount := 30,
    receipt_url := some "", createdAt := 9 }

/-- The treatment `knee` funded with 70 by two donations, returned oldest first. -/
def reportStore : Store :=
  { users := [patient3, donor7],
    treatments := [{ knee with funded_amount := 70 }],
    donations := [gift40, gift30],
    nextTreatmentId := 2, nextDonationId := 3 }

/-- The same rows, the two donations returned newest first. -/
def reportStoreNewestFirst : Store :=
  { reportStore with donations := [gift30, gift40] }

/-- A treatment of goal 0.80 funded with 0.10. -/
def drip : Treatment :=
  { id := 1, patient_id := 3, title := "Infusion", description := "x",
    category := "other", goal_amount := JsNumber.ofRat (4 / 5),
    funded_amount := JsNumber.ofRat (1 / 10), status := Status.active,
    consent_given := false }

/-- A store holding the one treatment `drip`. -/
def dripStore : Store :=
  { users := [patient3, donor7], treatments := [drip], donations := [],
    nextTreatmentId := 2, nextDonationId := 1 }

/-- A second treatment, of another patient. -/
def hip : Treatment :=
  { id := 2, patient_id := 4, title := "Hip Surgery", description := "y",
    category := "surgery", goal_amount := 50, funded_amount := 10,
    status := Status.active, consent_given := true }

/-- A store holding the treatments `knee` and `hip`. -/
def wardStore : Store :=
  { users := [patient3, donor7], treatments := [knee, hip], donations := [],
    nextTreatmentId := 3, nextDonationId := 1 }

/-- A verified doctor who speaks English. -/
def doctor2 : User :=
  { id := 2, name := "Dr A", email := "a@x", phone := none,
    password := "h", role := "doctor", language := "en", verified := true }

/-- A doctor whose account is not verified. -/
def doctor5 : User :=
  { id := 5, name := "Dr B", email := "b@x", phone := none,
    password := "h", role := "doctor", language := "ar", verified := false }

/-- A doctor who is assigned to no chat. -/
def doctor9 : User :=
  { id := 9, name := "Dr C", email := "c@x", phone := none,
    password := "h", role := "doctor", language := "ar", verified := true }

/-- An NGO account. -/
def ngo6 : User :=
  { id := 6, name := "N", email := "n@x", phone := none,
    password := "h", role := "ngo", language := "en", verified := true }

/-- A scheduled consultation of patient 3 with doctor 2. -/
def visit : Consultation :=
  { id := 1, patient_id := 3, doctor_id := 2, scheduled_at := "2025-11-01T10:00:00Z",
    mode := some "video", status := some "scheduled", needs_translation := true,
    transcript := none }

/-- A clinic with one consultation. -/
def clinic : Clinic :=
  { users := [doctor2, patient3, doctor5, donor7], consultations := [visit],
    nextConsultationId := 2 }

/-- A booking request for a doctor, with no mode given. -/
def bookWith (doctor_id : Int) : BookBody :=
  { doctor_id := some doctor_id, scheduled_at := some "2025-12-01T09:00:00Z",
    mode := Field.absent }

/-- A therapy chat of user 3 whose assigned counselor is user 8. -/
def chat1 : TherapyChat :=
  { id := 1, user_id := 3, counselor_id := some 8, is_anonymous := true,
    topic := some "grief", status := "active" }

/-- A chat room whose messages are stored newest first, with one message of another
chat. -/
def chatRoom : ChatRoom :=
  { chats := [chat1],
    messages :=
      [{ id := 12, chat_id := 1, sender_id := 8, sender_role := "counselor",
         content := "How are you?", is_anonymous := true, created_at := 9 },
       { id := 13, chat_id := 2, sender_id := 4, sender_role := "user",
         content := "elsewhere", is_anonymous := true, created_at := 7 },
       { id := 11, chat_id := 1, sender_id := 3, sender_role := "user",
         content := "Hello", is_anonymous := true, created_at := 5 }] }

/-- A medication with three units in stock. -/
def insulin : Medication :=
  { id := 1, name := "Insulin", description := none, quantity := 3,
    category := "medicine", provider_type := "ngo", provider_id := 6 }

/-- A request for insulin that is already fulfilled. -/
def filledRequest : MedicationRequest :=
  { id := 1, requester_id := 3, medication_id := 1, status := "fulfilled",
    delivery_address := none }

/-- A pharmacy with one medication and one request. -/
def pharmacy : Pharmacy :=
  { medications := [insulin], requests := [filledRequest] }

/-- The store accepts both updates of `fulfillRequest`. -/
def steady : FulfillEnv := { medicationSaveFails := false, requestSaveFails := false }

/-- A stand-in for the libraries, good enough to run the handlers on examples. -/
def toyLibrary : Library :=
  { hash := fun p => "hash:" ++ p,
    compare := fun p h => h == "hash:" ++ p,
    sign := fun _ role => "token:" ++ role,
    isEmail := fun e => e.contains '@' }

/-- A registered user, of password "secure123". -/
def ahmad : User :=
  { id := 1, name := "Ahmad", email := "ahmad@example.com", phone := none,
    password := "hash:secure123", role := "patient", language := "ar",
    verified := false }

/-- One registered account. -/
def accounts : Accounts :=
  { users := [ahmad], nextUserId := 2 }

/-- A store whose one treatment is completed and funded to its goal. -/
def completedStore : Store :=
  { users := [patient3, donor7],
    treatments := [{ knee with funded_amount := 100, status := Status.completed }],
    donations := [], nextTreatmentId := 2, nextDonationId := 1 }

/-- A registration request with a chosen password. -/
def signUp (password : String) : RegisterBody :=
  { name := some "Basma", email := some "basma@example.com", phone := none,
    password := Password.text password, role := Field.value "donor",
    language := Field.absent }

/-! ## Rounding to the nearest double -/

theorem roundHalfEven_intCast (n : ℤ) : roundHalfEven (n : ℚ) = n := by
  unfold roundHalfEven
  simp

theorem floor_le_roundHalfEven (r : ℚ) : ⌊r⌋ ≤ roundHalfEven r := by
  unfold roundHalfEven
  split_ifs <;> omega

theorem roundHalfEven_le_floor_succ (r : ℚ) : roundHalfEven r ≤ ⌊r⌋ + 1 := by
  unfold roundHalfEven
  split_ifs <;> omega

theorem roundHalfEven_mono {r s : ℚ} (h : r ≤ s) : roundHalfEven r ≤ roundHalfEven s := by
  have hf : ⌊r⌋ ≤ ⌊s⌋ := Int.floor_mono h
  rcases lt_or_eq_of_le hf with hlt | heq
  · calc roundHalfEven r ≤ ⌊r⌋ + 1 := roundHalfEven_le_floor_succ r
      _ ≤ ⌊s⌋ := hlt
      _ ≤ roundHalfEven s := floor_le_roundHalfEven s
  · unfold roundHalfEven
    rw [heq]
    split_ifs <;> first | omega | (exfalso; linarith)

theorem ulp_pos (q : ℚ) : 0 < ulp q := by
  unfold ulp
  positivity

theorem lt_two_zpow_binade_succ (q : ℚ) : q < (2 : ℚ) ^ (binade q + 1) := by
  have h1 : q < ((2 : ℕ) : ℚ) ^ (Int.log 2 q + 1) := Int.lt_zpow_succ_log_self (by norm_num) q
  have h2 : ((2 : ℕ) : ℚ) ^ (Int.log 2 q + 1) ≤ (2 : ℚ) ^ (binade q + 1) := by
    simp only [Nat.cast_ofNat]
    apply zpow_le_zpow_right₀ (by norm_num)
    unfold binade
    have := le_max_left (Int.log 2 q) (-1022)
    omega
  exact lt_of_lt_of_le h1 h2

theorem two_zpow_binade_le {q : ℚ} (hq : 0 < q) (hn : -1022 < binade q) :
    (2 : ℚ) ^ binade q ≤ q := by
  have hb : binade q = Int.log 2 q := by
    unfold binade at hn ⊢
    rcases le_total (Int.log 2 q) (-1022) with h | h
    · rw [max_eq_right h] at hn; omega
    · exact max_eq_left h
  rw [hb]
  have := Int.zpow_log_le_self (R := ℚ) (b := 2) (by norm_num) hq
  simpa using this

theorem binade_mono {q r : ℚ} (hq : 0 < q) (h : q ≤ r) : binade q ≤ binade r := by
  unfold binade
  exact max_le_max (Int.log_mono_right hq h) (le_refl _)

theorem neg_le_binade (q : ℚ) : -1022 ≤ binade q := le_max_right _ _

/-- The scaled value of a positive rational is below `2 ^ 53`. -/
theorem div_ulp_lt (q : ℚ) : q / ulp q < (2 : ℚ) ^ (53 : ℤ) := by
  rw [div_lt_iff₀ (ulp_pos q)]
  have h := lt_two_zpow_binade_succ q
  have e : (2 : ℚ) ^ (53 : ℤ) * ulp q = (2 : ℚ) ^ (binade q + 1) := by
    unfold ulp
    rw [← zpow_add₀ (by norm_num : (2 : ℚ) ≠ 0)]
    congr 1
    ring
  rw [e]
  exact h

/-- The scaled value of a positive rational of a normal binade is at least `2 ^ 52`. -/
theorem le_div_ulp {q : ℚ} (hq : 0 < q) (hn : -1022 < binade q) :
    (2 : ℚ) ^ (52 : ℤ) ≤ q / ulp q := by
  rw [le_div_iff₀ (ulp_pos q)]
  have h := two_zpow_binade_le hq hn
  have e : (2 : ℚ) ^ (52 : ℤ) * ulp q = (2 : ℚ) ^ binade q := by
    unfold ulp
    rw [← zpow_add₀ (by norm_num : (2 : ℚ) ≠ 0)]
    congr 1
    ring
  rw [e]
  exact h

theorem two_pow_cast (k : ℕ) : (((2 : ℤ) ^ k : ℤ) : ℚ) = (2 : ℚ) ^ (k : ℤ) := by
  push_cast
  rw [zpow_natCast]

theorem roundHalfEven_div_ulp_le (q : ℚ) : roundHalfEven (q / ulp q) ≤ 2 ^ 53 := by
  have h := roundHalfEven_mono (le_of_lt (div_ulp_lt q))
  have e : (2 : ℚ) ^ (53 : ℤ) = (((2 : ℤ) ^ 53 : ℤ) : ℚ) := by norm_num
  rw [e, roundHalfEven_intCast] at h
  exact h

theorem le_roundHalfEven_div_ulp {q : ℚ} (hq : 0 < q) (hn : -1022 < binade q) :
    2 ^ 52 ≤ roundHalfEven (q / ulp q) := by
  have h := roundHalfEven_mono (le_div_ulp hq hn)
  have e : (2 : ℚ) ^ (52 : ℤ) = (((2 : ℤ) ^ 52 : ℤ) : ℚ) := by norm_num
  rw [e, roundHalfEven_intCast] at h
  exact h

theorem roundHalfEven_nonneg {r : ℚ} (h : 0 ≤ r) : 0 ≤ roundHalfEven r := by
  have := roundHalfEven_mono h
  have e : (0 : ℚ) = ((0 : ℤ) : ℚ) := by norm_num
  rw [e, roundHalfEven_intCast] at this
  exact this

theorem roundPositive_nonneg {q : ℚ} (hq : 0 < q) : 0 ≤ roundPositive q := by
  unfold roundPositive
  have h1 : 0 ≤ roundHalfEven (q / ulp q) :=
    roundHalfEven_nonneg (le_of_lt (div_pos hq (ulp_pos q)))
  have h2 : (0 : ℚ) ≤ (roundHalfEven (q / ulp q) : ℚ) := by exact_mod_cast h1
  exact mul_nonneg h2 (le_of_lt (ulp_pos q))

theorem roundPositive_le (q : ℚ) : roundPositive q ≤ (2 : ℚ) ^ (binade q + 1) := by
  unfold roundPositive
  have h1 : (roundHalfEven (q / ulp q) : ℚ) ≤ (2 : ℚ) ^ (53 : ℤ) := by
    have := roundHalfEven_div_ulp_le q
    have e : (2 : ℚ) ^ (53 : ℤ) = (((2 : ℤ) ^ 53 : ℤ) : ℚ) := by norm_num
    rw [e]
    exact_mod_cast this
  have e : (2 : ℚ) ^ (binade q + 1) = (2 : ℚ) ^ (53 : ℤ) * ulp q := by
    unfold ulp
    rw [← zpow_add₀ (by norm_num : (2 : ℚ) ≠ 0)]
    congr 1
    ring
  rw [e]
  exact mul_le_mul_of_nonneg_right h1 (le_of_lt (ulp_pos q))

theorem le_roundPositive {q : ℚ} (hq : 0 < q) (hn : -1022 < binade q) :
    (2 : ℚ) ^ binade q ≤ roundPositive q := by
  unfold roundPositive
  have h1 : (2 : ℚ) ^ (52 : ℤ) ≤ (roundHalfEven (q / ulp q) : ℚ) := by
    have := le_roundHalfEven_div_ulp hq hn
    have e : (2 : ℚ) ^ (52 : ℤ) = (((2 : ℤ) ^ 52 : ℤ) : ℚ) := by norm_num
    rw [e]
    exact_mod_cast this
  have e : (2 : ℚ) ^ binade q = (2 : ℚ) ^ (52 : ℤ) * ulp q := by
    unfold ulp
    rw [← zpow_add₀ (by norm_num : (2 : ℚ) ≠ 0)]
    congr 1
    ring
  rw [e]
  exact mul_le_mul_of_nonneg_right h1 (le_of_lt (ulp_pos q))

theorem roundPositive_mono {q r : ℚ} (hq : 0 < q) (h : q ≤ r) :
    roundPositive q ≤ roundPositive r := by
  have hr : 0 < r := lt_of_lt_of_le hq h
  rcases lt_or_eq_of_le (binade_mono hq h) with hlt | heq
  · have hn : -1022 < binade r := lt_of_le_of_lt (neg_le_binade q) hlt
    calc roundPositive q ≤ (2 : ℚ) ^ (binade q + 1) := roundPositive_le q
      _ ≤ (2 : ℚ) ^ binade r := zpow_le_zpow_right₀ (by norm_num) hlt
      _ ≤ roundPositive r := le_roundPositive hr hn
  · have hu : ulp q = ulp r := by unfold ulp; rw [heq]
    unfold roundPositive
    rw [hu]
    have h1 : q / ulp r ≤ r / ulp r := div_le_div_of_nonneg_right h (le_of_lt (ulp_pos r))
    have h2 := roundHalfEven_mono h1
    have h3 : (roundHalfEven (q / ulp r) : ℚ) ≤ (roundHalfEven (r / ulp r) : ℚ) := by
      exact_mod_cast h2
    exact mul_le_mul_of_nonneg_right h3 (le_of_lt (ulp_pos r))

theorem roundDouble_nonneg {q : ℚ} (h : 0 ≤ q) : 0 ≤ roundDouble q := by
  unfold roundDouble
  split_ifs with h1 h2
  · exact roundPositive_nonneg h1
  · exact absurd h (not_le.mpr h2)
  · exact le_refl _

theorem roundDouble_nonpos {q : ℚ} (h : q ≤ 0) : roundDouble q ≤ 0 := by
  unfold roundDouble
  split_ifs with h1 h2
  · exact absurd h (not_le.mpr h1)
  · have := roundPositive_nonneg (neg_pos.mpr h2)
    linarith
  · exact le_refl _

/-- Rounding to the nearest double is monotone. -/
theorem roundDouble_mono {q r : ℚ} (h : q ≤ r) : roundDouble q ≤ roundDouble r := by
  rcases lt_trichotomy 0 q with hq | hq | hq
  · have hr : 0 < r := lt_of_lt_of_le hq h
    simp only [roundDouble, hq, hr, if_true]
    exact roundPositive_mono hq h
  · subst hq
    have := roundDouble_nonneg h
    simpa [roundDouble] using this
  · rcases le_or_lt 0 r with hr | hr
    · exact le_trans (roundDouble_nonpos (le_of_lt hq)) (roundDouble_nonneg hr)
    · have h1 : ¬ 0 < q := not_lt.mpr (le_of_lt hq)
      have h2 : ¬ 0 < r := not_lt.mpr (le_of_lt hr)
      simp only [roundDouble, h1, h2, hq, hr, if_true, if_false]
      have := roundPositive_mono (neg_pos.mpr hr) (neg_le_neg h)
      linarith

theorem binade_eq_of_bounds {x : ℚ} {e : ℤ} (hx : 0 < x) (he : -1022 ≤ e)
    (hupper : x < (2 : ℚ) ^ (e + 1)) (hlower : -1022 < e → (2 : ℚ) ^ e ≤ x) :
    binade x = e := by
  have h1 : Int.log 2 x < e + 1 := by
    have := (Int.lt_zpow_iff_log_lt (R := ℚ) (b := 2) (x := e + 1) (by norm_num) hx).mp
      (by simpa using hupper)
    exact this
  unfold binade
  rcases lt_or_eq_of_le he with hlt | heq
  · have h2 : e ≤ Int.log 2 x := by
      have := (Int.zpow_le_iff_le_log (R := ℚ) (b := 2) (x := e) (by norm_num) hx).mp
        (by simpa using hlower hlt)
      exact this
    have h3 : Int.log 2 x = e := by omega
    rw [h3]
    exact max_eq_left he
  · have h3 : Int.log 2 x ≤ -1022 := by omega
    rw [max_eq_right h3]
    exact heq

theorem roundPositive_eq (x : ℚ) :
    roundPositive x = (roundHalfEven (x / ulp x) : ℚ) * ulp x := rfl

/-- A positive value of `roundPositive` is rounded to itself. -/
theorem roundPositive_fix {q : ℚ} (hq : 0 < q) (hx : 0 < roundPositive q) :
    roundPositive (roundPositive q) = roundPositive q := by
  have hu := ulp_pos q
  have hne : ulp q ≠ 0 := ne_of_gt hu
  have hn53 := roundHalfEven_div_ulp_le q
  have hxe : roundPositive q = (roundHalfEven (q / ulp q) : ℚ) * ulp q := rfl
  have htwo : (2 : ℚ) ≠ 0 := by norm_num
  rcases lt_or_eq_of_le hn53 with hlt | heq
  · -- the rounded value stays in the binade of `q`
    have hb : binade (roundPositive q) = binade q := by
      apply binade_eq_of_bounds hx (neg_le_binade q)
      · have h1 : (roundHalfEven (q / ulp q) : ℚ) < (2 : ℚ) ^ (53 : ℤ) := by
          have e : (2 : ℚ) ^ (53 : ℤ) = (((2 : ℤ) ^ 53 : ℤ) : ℚ) := by norm_num
          rw [e]
          exact_mod_cast hlt
        have e : (2 : ℚ) ^ (binade q + 1) = (2 : ℚ) ^ (53 : ℤ) * ulp q := by
          unfold ulp
          rw [← zpow_add₀ htwo]
          congr 1
          ring
        rw [e, hxe]
        exact mul_lt_mul_of_pos_right h1 hu
      · intro hn
        exact le_roundPositive hq hn
    have hulp : ulp (roundPositive q) = ulp q := by unfold ulp; rw [hb]
    have hdiv : roundPositive q / ulp q = (roundHalfEven (q / ulp q) : ℚ) := by
      rw [hxe]
      field_simp
    rw [roundPositive_eq (roundPositive q), hulp, hdiv, roundHalfEven_intCast]
    exact hxe.symm
  · -- the rounded value is the power of two that opens the next binade
    have hval : roundPositive q = (2 : ℚ) ^ (binade q + 1) := by
      rw [hxe, heq]
      unfold ulp
      have e : (((2 : ℤ) ^ 53 : ℤ) : ℚ) = (2 : ℚ) ^ (53 : ℤ) := by norm_num
      rw [e, ← zpow_add₀ htwo]
      congr 1
      ring
    have hb : binade (roundPositive q) = binade q + 1 := by
      rw [hval]
      unfold binade
      have hlog : Int.log 2 ((2 : ℚ) ^ (max (Int.log 2 q) (-1022) + 1))
          = max (Int.log 2 q) (-1022) + 1 := by
        have := Int.log_zpow (R := ℚ) (b := 2) (by norm_num) (max (Int.log 2 q) (-1022) + 1)
        simpa using this
      rw [hlog]
      have := le_max_right (Int.log 2 q) (-1022)
      exact max_eq_left (by omega)
    have hulp : ulp (roundPositive q) = (2 : ℚ) ^ (binade q + 1 - 52) := by
      unfold ulp; rw [hb]
    have hdiv : roundPositive q / ulp (roundPositive q) = (((2 : ℤ) ^ 52 : ℤ) : ℚ) := by
      rw [hulp, hval, ← zpow_sub₀ htwo]
      have e : (((2 : ℤ) ^ 52 : ℤ) : ℚ) = (2 : ℚ) ^ (52 : ℤ) := by norm_num
      rw [e]
      congr 1
      ring
    rw [roundPositive_eq (roundPositive q), hdiv, roundHalfEven_intCast, hulp, hval]
    have e : (((2 : ℤ) ^ 52 : ℤ) : ℚ) = (2 : ℚ) ^ (52 : ℤ) := by norm_num
    rw [e, ← zpow_add₀ htwo]
    congr 1
    ring

/-- Every value of `roundDouble` is a double: rounding it again changes nothing. -/
theorem roundDouble_idem (q : ℚ) : roundDouble (roundDouble q) = roundDouble q := by
  rcases lt_trichotomy 0 q with hq | hq | hq
  · have h0 := roundPositive_nonneg hq
    have e : roundDouble q = roundPositive q := by simp [roundDouble, hq]
    rw [e]
    rcases lt_or_eq_of_le h0 with hpos | hzero
    · simp only [roundDouble, hpos, if_true]
      exact roundPositive_fix hq hpos
    · rw [← hzero]
      simp [roundDouble]
  · subst hq
    simp [roundDouble]
  · have hq' : 0 < -q := neg_pos.mpr hq
    have h0 := roundPositive_nonneg hq'
    have e : roundDouble q = -roundPositive (-q) := by
      simp [roundDouble, hq, not_lt.mpr (le_of_lt hq)]
    rw [e]
    rcases lt_or_eq_of_le h0 with hpos | hzero
    · have h1 : -roundPositive (-q) < 0 := by linarith
      have h2 : ¬ 0 < -roundPositive (-q) := not_lt.mpr (le_of_lt h1)
      simp only [roundDouble, h1, h2, if_true, if_false, neg_neg]
      rw [roundPositive_fix hq' hpos]
    · rw [← hzero]
      simp [roundDouble]

/-- Adding a non-negative double to a double never gives less. -/
theorem le_roundDouble_add {x y : ℚ} (hx : roundDouble x = x) (hy : 0 ≤ y) :
    x ≤ roundDouble (x + y) := by
  have := roundDouble_mono (show x ≤ x + y by linarith)
  rwa [hx] at this

/-- A positive rational that is a whole multiple of its spacing is a double. -/
theorem roundPositive_of_int_mul {q : ℚ} (k : ℤ) (h : q / ulp q = k) : roundPositive q = q := by
  rw [roundPositive_eq, h, roundHalfEven_intCast, ← h]
  exact div_mul_cancel₀ q (ne_of_gt (ulp_pos q))

/-- Whole numbers up to `2 ^ 53` are doubles. -/
theorem roundDouble_natCast (n : ℕ) (h : n ≤ 2 ^ 53) : roundDouble (n : ℚ) = n := by
  rcases Nat.eq_zero_or_pos n with h0 | hpos
  · subst h0; simp [roundDouble]
  have hq : (0 : ℚ) < n := by exact_mod_cast hpos
  have e : roundDouble (n : ℚ) = roundPositive n := by simp [roundDouble, hq]
  rw [e]
  have hlog : Int.log 2 (n : ℚ) = (Nat.log 2 n : ℤ) := Int.log_natCast 2 n
  have hb : binade (n : ℚ) = (Nat.log 2 n : ℤ) := by
    unfold binade
    rw [hlog]
    exact max_eq_left (by omega)
  have hle : Nat.log 2 n ≤ 53 := by
    have := Nat.log_mono_right (b := 2) h
    rwa [Nat.log_pow (by norm_num)] at this
  have htwo : (2 : ℚ) ≠ 0 := by norm_num
  rcases Nat.lt_or_ge (Nat.log 2 n) 53 with hlt | hge
  · -- the spacing is `2 ^ -(52 - e)`, a whole multiple of which every whole number is
    apply roundPositive_of_int_mul ((n : ℤ) * 2 ^ (52 - Nat.log 2 n))
    unfold ulp
    rw [hb]
    have hk : ((Nat.log 2 n : ℤ) - 52) = -((52 - Nat.log 2 n : ℕ) : ℤ) := by omega
    rw [hk, zpow_neg, zpow_natCast, div_inv_eq_mul]
    push_cast
    rfl
  · have h53 : Nat.log 2 n = 53 := le_antisymm hle hge
    have hn : n = 2 ^ 53 := by
      apply le_antisymm h
      have := Nat.pow_log_le_self 2 (Nat.pos_iff_ne_zero.mp hpos)
      rwa [h53] at this
    apply roundPositive_of_int_mul (2 ^ 52)
    unfold ulp
    rw [hb, h53, hn]
    norm_num

/-! ## JavaScript numbers are doubles -/

theorem JsNumber.ext {a b : JsNumber} (h : a.val = b.val) : a = b := by
  cases a; cases b; cases h; rfl

theorem JsNumber.le_def (a b : JsNumber) : a ≤ b ↔ a.val ≤ b.val := Iff.rfl

theorem JsNumber.lt_def (a b : JsNumber) : a < b ↔ a.val < b.val := Iff.rfl

theorem JsNumber.val_zero : (0 : JsNumber).val = 0 := by
  show roundDouble ((0 : ℕ) : ℚ) = 0
  simp [roundDouble]

theorem JsNumber.val_ofRat (q : ℚ) : (JsNumber.ofRat q).val = roundDouble q := rfl

theorem JsNumber.val_add (a b : JsNumber) : (a + b).val = roundDouble (a.val + b.val) := rfl

/-- The value of a JavaScript number is a double. -/
theorem JsNumber.roundDouble_val (a : JsNumber) : roundDouble a.val = a.val := by
  obtain ⟨q, hq⟩ := a.isDouble
  rw [← hq]
  exact roundDouble_idem q

theorem JsNumber.not_le {a b : JsNumber} : ¬ a ≤ b ↔ b < a := by
  rw [JsNumber.le_def, JsNumber.lt_def]
  exact ⟨lt_of_not_ge, not_le_of_lt⟩

theorem JsNumber.not_lt {a b : JsNumber} : ¬ a < b ↔ b ≤ a := by
  rw [JsNumber.le_def, JsNumber.lt_def]
  exact ⟨le_of_not_lt, not_lt_of_le⟩

theorem JsNumber.ne_of_gt {a b : JsNumber} (h : b < a) : a ≠ b := by
  intro e
  rw [e, JsNumber.lt_def] at h
  exact lt_irrefl _ h

theorem JsNumber.le_of_lt {a b : JsNumber} (h : a < b) : a ≤ b := by
  rw [JsNumber.lt_def] at h
  rw [JsNumber.le_def]
  exact h.le

theorem JsNumber.le_refl (a : JsNumber) : a ≤ a := by
  rw [JsNumber.le_def]

theorem JsNumber.le_trans {a b c : JsNumber} (hab : a ≤ b) (hbc : b ≤ c) : a ≤ c := by
  rw [JsNumber.le_def] at *
  exact hab.trans hbc

/-- JavaScript `+` of a number that is not negative never gives less. -/
theorem JsNumber.le_add (a : JsNumber) {b : JsNumber} (hb : 0 ≤ b) : a ≤ a + b := by
  rw [JsNumber.le_def, JsNumber.val_add]
  rw [JsNumber.le_def, JsNumber.val_zero] at hb
  exact le_roundDouble_add a.roundDouble_val hb

/-- JavaScript `+` is exact on whole numbers up to `2 ^ 53`. -/
theorem JsNumber.val_add_natCast (a b : JsNumber) (m n : ℕ) (ha : a.val = m) (hb : b.val = n)
    (h : m + n ≤ 2 ^ 53) : (a + b).val = ((m + n : ℕ) : ℚ) := by
  rw [JsNumber.val_add, ha, hb, ← Nat.cast_add]
  exact roundDouble_natCast (m + n) h

/-- Whole numbers added in turn by JavaScript `+` give their exact sum, up to `2 ^ 53`. -/
theorem JsNumber.foldl_add_whole (ns : List ℕ) (x : JsNumber) (k : ℕ) (hx : x.val = k)
    (h : k + ns.sum ≤ 2 ^ 53) :
    ((ns.map (fun n : ℕ => JsNumber.ofRat (n : ℚ))).foldl
      (fun sum amount => JsNumber.ofRat (sum.val + amount.val)) x).val
        = ((k + ns.sum : ℕ) : ℚ) := by
  induction ns generalizing x k with
  | nil => simpa using hx
  | cons n ns ih =>
    simp only [List.sum_cons] at h
    simp only [List.map_cons, List.foldl_cons, List.sum_cons]
    have hn : (JsNumber.ofRat (n : ℚ)).val = n := roundDouble_natCast n (by omega)
    have hstep : (JsNumber.ofRat (x.val + (JsNumber.ofRat (n : ℚ)).val)).val
        = ((k + n : ℕ) : ℚ) := by
      rw [JsNumber.val_ofRat, hx, hn, ← Nat.cast_add]
      exact roundDouble_natCast (k + n) (by omega)
    rw [ih _ (k + n) hstep (by omega)]
    congr 1
    omega

/-! ## How `donate` runs -/

/-- Every `donate` request takes one of the five paths. -/
theorem donate_path (s : Store) (user : User) (body : DonateBody) (env : Env) :
    DonatePath s user body env := by
  obtain ⟨otid, oamt, receipt⟩ := body
  cases otid with
  | none => exact .invalid (Or.inl rfl) (by simp [donate, truthyId])
  | some tid =>
    cases oamt with
    | none => exact .invalid (Or.inr (Or.inr (Or.inl rfl))) (by simp [donate, truthyNum])
    | some a =>
      by_cases hnz : tid = 0
      · subst hnz
        exact .invalid (Or.inr (Or.inl rfl)) (by simp [donate, truthyId])
      · by_cases hpos : 0 < a
        · have hne : a ≠ 0 := JsNumber.ne_of_gt hpos
          have hnle : ¬ a ≤ 0 := JsNumber.not_le.mpr hpos
          have hguard : (!truthyId (some tid) || !truthyNum (some a) || leZero (some a)) = false := by
            simp [truthyId, truthyNum, leZero, hnz, hne, hnle]
          cases hfind : Treatment.findByPk s tid with
          | none =>
            exact .missing tid a rfl rfl hnz hpos hfind (by simp [donate, hguard, hfind])
          | some t =>
            cases hcreate : env.createFails with
            | true =>
              exact .insertFailed tid a t rfl rfl hnz hpos hfind hcreate
                (by simp [donate, hguard, hfind, hcreate])
            | false =>
              cases hsave : env.saveFails with
              | true =>
                exact .saveFailed tid a t rfl rfl hnz hpos hfind hcreate hsave
                  (by simp [donate, hguard, hfind, hcreate, hsave])
              | false =>
                exact .done tid a t rfl rfl hnz hpos hfind hcreate hsave
                  (by simp [donate, hguard, hfind, hcreate, hsave, credited])
        · have hle : a ≤ 0 := JsNumber.not_lt.mp hpos
          exact .invalid (Or.inr (Or.inr (Or.inr ⟨a, rfl, hle⟩)))
            (by simp [donate, leZero, hle])

/-! ## Reads after the writes of `donate` -/

theorem findByPk_id {s : Store} {k : Int} {t : Treatment}
    (h : Treatment.findByPk s k = some t) : t.id = k := by
  have := List.find?_some h
  simpa using this

theorem findByPk_mem {s : Store} {k : Int} {t : Treatment}
    (h : Treatment.findByPk s k = some t) : t ∈ s.treatments :=
  List.mem_of_find?_eq_some h

theorem findByPk_insert (s : Store) (now : Nat) (u tid : Int) (a : JsNumber) (r : Option String)
    (k : Int) :
    Treatment.findByPk (Donation.create s now u tid a r).2 k = Treatment.findByPk s k := rfl

theorem findByPk_save (s : Store) (id : Int) (f : JsNumber) (st : Status) (k : Int) :
    Treatment.findByPk (Treatment.save s id f st) k =
      (Treatment.findByPk s k).map (fun t =>
        if t.id = id then { t with funded_amount := f, status := st } else t) := by
  unfold Treatment.findByPk Treatment.save
  simp only [List.find?_map]
  congr 1
  have hp : ((fun t : Treatment => t.id == k) ∘ fun t : Treatment =>
      if t.id = id then { t with funded_amount := f, status := st } else t)
      = fun t : Treatment => t.id == k := by
    funext t
    simp only [Function.comp]
    split <;> rfl
  rw [hp]

theorem donationsOf_save (s : Store) (id : Int) (f : JsNumber) (st : Status) (k : Int) :
    donationsOf (Treatment.save s id f st) k = donationsOf s k := rfl

theorem donationsOf_insert (s : Store) (now : Nat) (u tid : Int) (a : JsNumber) (r : Option String)
    (k : Int) :
    donationsOf (Donation.create s now u tid a r).2 k =
      donationsOf s k ++ (if tid = k then [(Donation.create s now u tid a r).1] else []) := by
  unfold donationsOf Donation.create
  by_cases h : tid = k <;> simp [List.filter_append, List.filter_cons, h]

theorem donatedRunning_save (s : Store) (id : Int) (f : JsNumber) (st : Status) (k : Int) :
    donatedRunning (Treatment.save s id f st) k = donatedRunning s k := rfl

theorem donatedRunning_insert (s : Store) (now : Nat) (u tid : Int) (a : JsNumber)
    (r : Option String) (k : Int) :
    donatedRunning (Donation.create s now u tid a r).2 k =
      if tid = k then donatedRunning s k + a else donatedRunning s k := by
  unfold donatedRunning
  rw [donationsOf_insert]
  by_cases h : tid = k <;> simp [h, Donation.create, List.foldl_append]

/-- The target row after a completed `donate`. -/
theorem findByPk_done (s : Store) (now : Nat) (u tid : Int) (a : JsNumber) (r : Option String)
    (t : Treatment) (hfind : Treatment.findByPk s tid = some t) :
    Treatment.findByPk
      (Treatment.save (Donation.create s now u tid a r).2 t.id
        (credited t a).funded_amount (credited t a).status) tid = some (credited t a) := by
  rw [findByPk_save, findByPk_insert, hfind]
  simp [credited]

/-- Every other row after a completed `donate`. -/
theorem findByPk_done_other (s : Store) (now : Nat) (u tid : Int) (a : JsNumber) (r : Option String)
    (t : Treatment) (hfind : Treatment.findByPk s tid = some t) (k : Int) (hk : k ≠ tid) :
    Treatment.findByPk
      (Treatment.save (Donation.create s now u tid a r).2 t.id
        (credited t a).funded_amount (credited t a).status) k = Treatment.findByPk s k := by
  rw [findByPk_save, findByPk_insert]
  cases h : Treatment.findByPk s k with
  | none => rfl
  | some t0 =>
    have h0 := findByPk_id h
    have h1 := findByPk_id hfind
    have : t0.id ≠ t.id := by rw [h0, h1]; exact hk
    simp [this]

/-! ## How `createTreatment` runs -/

/-- An accepted `createTreatment`: what the request held and what was written. -/
theorem createTreatment_created (s : Store) (user : User) (body : CreateTreatmentBody)
    (env : Env) (h : (createTreatment s user body env).2.status = 201) :
    ∃ title description category goal,
      body.title = some title ∧ body.description = some description ∧
      body.category = some category ∧ body.goal_amount = some goal ∧
      title ≠ "" ∧ description ≠ "" ∧ goal ≠ 0 ∧ category ∈ categories ∧
      createTreatment s user body env =
        ({ s with
            treatments := s.treatments ++
              [newTreatment s user.id title description category goal
                (body.consent_given.getD false)],
            nextTreatmentId := s.nextTreatmentId + 1 },
          ⟨201, [("message", Json.str "Treatment request created"),
                 ("treatment", Json.treatment
                   (newTreatment s user.id title description category goal
                     (body.consent_given.getD false)))]⟩) := by
  obtain ⟨otitle, odesc, ocat, ogoal, oconsent, ofunded, ostatus⟩ := body
  cases otitle with
  | none => simp [createTreatment, truthyStr] at h
  | some title =>
    cases odesc with
    | none => simp [createTreatment, truthyStr] at h
    | some description =>
      cases ogoal with
      | none => simp [createTreatment, truthyNum] at h
      | some goal =>
        by_cases h1 : title = ""
        · simp [createTreatment, truthyStr, h1] at h
        by_cases h2 : description = ""
        · simp [createTreatment, truthyStr, h2] at h
        by_cases h3 : goal = 0
        · simp [createTreatment, truthyNum, h3] at h
        cases hc : env.createFails with
        | true => simp [createTreatment, truthyStr, truthyNum, h1, h2, h3, hc] at h
        | false =>
          cases ocat with
          | none =>
            simp [createTreatment, truthyStr, truthyNum, h1, h2, h3, hc, Treatment.create] at h
          | some category =>
            by_cases h4 : category ∈ categories
            · refine ⟨title, description, category, goal, rfl, rfl, rfl, rfl, h1, h2, h3, h4, ?_⟩
              simp [createTreatment, truthyStr, truthyNum, h1, h2, h3, hc, Treatment.create, h4,
                newTreatment]
            · simp [createTreatment, truthyStr, truthyNum, h1, h2, h3, hc, Treatment.create,
                h4] at h

/-! ## The ledger along a run -/

theorem ledger_donate (s : Store) (user : User) (body : DonateBody) (env : Env) (k : Int)
    (hsave : env.saveFails = false) (h : RunningLedger s k) :
    RunningLedger (donate s user body env).1 k := by
  cases donate_path s user body env with
  | invalid _ hres => rw [hres]; exact h
  | missing tid a _ _ _ _ _ hres => rw [hres]; exact h
  | insertFailed tid a t _ _ _ _ _ _ hres => rw [hres]; exact h
  | saveFailed tid a t _ _ _ _ _ _ hs _ => rw [hsave] at hs; cases hs
  | done tid a t _ _ _ _ hfind _ _ hres =>
    rw [hres]
    unfold RunningLedger at h ⊢
    rw [donatedRunning_save, donatedRunning_insert]
    by_cases hk : tid = k
    · subst hk
      rw [findByPk_done s env.now user.id tid a body.receipt_url t hfind]
      rw [hfind] at h
      simp only [Option.map_some', Option.some.injEq] at h
      simp [credited, h]
    · rw [findByPk_done_other s env.now user.id tid a body.receipt_url t hfind k (Ne.symm hk)]
      simp [hk, h]

theorem ledger_runDonates (calls : List DonateCall) (s : Store) (k : Int)
    (hsave : ∀ c ∈ calls, c.env.saveFails = false) (h : RunningLedger s k) :
    RunningLedger (runDonates s calls) k := by
  induction calls generalizing s with
  | nil => exact h
  | cons c cs ih =>
    simp only [runDonates]
    apply ih
    · intro c1 hc1; exact hsave c1 (List.mem_cons_of_mem _ hc1)
    · exact ledger_donate s c.user c.body c.env k (hsave c (List.mem_cons_self _ _)) h

/-- Reading back the row written by an accepted `createTreatment`, when its id was unused. -/
theorem findByPk_append_new (s : Store) (t : Treatment) (next : Int)
    (hfresh : ∀ t0 ∈ s.treatments, t0.id ≠ t.id) :
    Treatment.findByPk { s with treatments := s.treatments ++ [t], nextTreatmentId := next } t.id
      = some t := by
  unfold Treatment.findByPk
  simp only [List.find?_append]
  have hnone : s.treatments.find? (fun t0 => t0.id == t.id) = none := by
    rw [List.find?_eq_none]
    intro t0 h0
    simpa using hfresh t0 h0
  rw [hnone]
  simp

/-! ## Runs of accepted donations -/

/-- A `donate` whose request is valid, whose treatment exists and whose writes are
accepted. -/
theorem donate_done (s : Store) (user : User) (body : DonateBody) (env : Env)
    (tid : Int) (a : JsNumber) (t : Treatment)
    (htid : body.treatment_id = some tid) (hamt : body.amount = some a)
    (hnz : tid ≠ 0) (hpos : 0 < a) (hfind : Treatment.findByPk s tid = some t)
    (hcreate : env.createFails = false) (hsave : env.saveFails = false) :
    (donate s user body env).2.status = 201 ∧
    Treatment.findByPk (donate s user body env).1 tid = some (credited t a) ∧
    (donationsOf (donate s user body env).1 tid).map (fun d => d.amount) =
      (donationsOf s tid).map (fun d => d.amount) ++ [a] := by
  have hsome : ∀ tid1 a1 t1, body.treatment_id = some tid1 → body.amount = some a1 →
      Treatment.findByPk s tid1 = some t1 → tid1 = tid ∧ a1 = a ∧ t1 = t := by
    intro tid1 a1 t1 h1 h2 h3
    rw [htid] at h1
    rw [hamt] at h2
    have e1 : tid = tid1 := Option.some.inj h1
    have e2 : a = a1 := Option.some.inj h2
    subst e1
    subst e2
    rw [hfind] at h3
    exact ⟨rfl, rfl, (Option.some.inj h3).symm⟩
  cases donate_path s user body env with
  | invalid hbad _ =>
    rcases hbad with h | h | h | ⟨a1, h, hle⟩
    · rw [htid] at h; cases h
    · rw [htid] at h; exact (hnz (Option.some.inj h)).elim
    · rw [hamt] at h; cases h
    · rw [hamt] at h
      have e : a = a1 := Option.some.inj h
      subst e
      exact absurd hpos (JsNumber.not_lt.mpr hle)
  | missing tid1 a1 h1 _ _ _ h2 _ =>
    rw [htid] at h1
    have e : tid = tid1 := Option.some.inj h1
    subst e
    rw [hfind] at h2
    cases h2
  | insertFailed tid1 a1 t1 _ _ _ _ _ hc _ => rw [hcreate] at hc; cases hc
  | saveFailed tid1 a1 t1 _ _ _ _ _ _ hs _ => rw [hsave] at hs; cases hs
  | done tid1 a1 t1 h1 h2 _ _ h3 _ _ hres =>
    obtain ⟨e1, e2, e3⟩ := hsome tid1 a1 t1 h1 h2 h3
    subst e1
    subst e2
    subst e3
    rw [hres]
    refine ⟨rfl, findByPk_done s env.now user.id tid1 a1 body.receipt_url t1 h3, ?_⟩
    rw [donationsOf_save, donationsOf_insert]
    simp [Donation.create]

/-- A run of accepted donations to one treatment: every call answers 201, the row is
credited with each amount in turn, and one Donation row per call is added. -/
theorem runDonates_calm (calls : List DonateCall) (s : Store) (tid : Int) (t : Treatment)
    (amounts : List JsNumber)
    (hfind : Treatment.findByPk s tid = some t) (hnz : tid ≠ 0)
    (hamounts : calls.map (fun c => c.body.amount) = amounts.map some)
    (hpos : ∀ a ∈ amounts, 0 < a)
    (htarget : ∀ c ∈ calls, c.body.treatment_id = some tid)
    (hcalm : ∀ c ∈ calls, c.env.createFails = false ∧ c.env.saveFails = false) :
    (donateResponses s calls).map (fun r => r.status) = calls.map (fun _ => 201) ∧
    Treatment.findByPk (runDonates s calls) tid = some (amounts.foldl credited t) ∧
    (donationsOf (runDonates s calls) tid).map (fun d => d.amount) =
      (donationsOf s tid).map (fun d => d.amount) ++ amounts := by
  induction calls generalizing s t amounts with
  | nil =>
    cases amounts with
    | nil => simp [donateResponses, runDonates, hfind]
    | cons a as => simp at hamounts
  | cons c cs ih =>
    cases amounts with
    | nil => simp at hamounts
    | cons a as =>
      simp only [List.map_cons, List.cons.injEq] at hamounts
      obtain ⟨hstep1, hstep2, hstep3⟩ := donate_done s c.user c.body c.env tid a t
        (htarget c (List.mem_cons_self _ _)) hamounts.1 hnz
        (hpos a (List.mem_cons_self _ _)) hfind
        (hcalm c (List.mem_cons_self _ _)).1 (hcalm c (List.mem_cons_self _ _)).2
      obtain ⟨h1, h2, h3⟩ := ih (donate s c.user c.body c.env).1 (credited t a) as hstep2
        hamounts.2 (fun x hx => hpos x (List.mem_cons_of_mem _ hx))
        (fun x hx => htarget x (List.mem_cons_of_mem _ hx))
        (fun x hx => hcalm x (List.mem_cons_of_mem _ hx))
      refine ⟨?_, ?_, ?_⟩
      · simp only [donateResponses, List.map_cons, hstep1, h1]
      · simpa only [runDonates, List.foldl_cons] using h2
      · simp only [runDonates]
        rw [h3, hstep3, List.append_assoc, List.singleton_append]

/-- The orders in which the amounts 40, 40 and 30 can arrive. -/
theorem orders_40_40_30 (l : List (Option JsNumber))
    (h : l.Perm [some 40, some 40, some 30]) :
    l = [some 40, some 40, some 30] ∨ l = [some 40, some 30, some 40] ∨
      l = [some 30, some 40, some 40] := by
  have hmem : l ∈ List.permutations [(some 40 : Option JsNumber), some 40, some 30] :=
    List.mem_permutations.mpr h
  have hall : List.permutations [(some 40 : Option JsNumber), some 40, some 30] =
      [[some 40, some 40, some 30], [some 40, some 40, some 30], [some 30, some 40, some 40],
       [some 40, some 30, some 40], [some 30, some 40, some 40], [some 40, some 30, some 40]] := by
    decide!
  rw [hall] at hmem
  simp only [List.mem_cons, List.mem_singleton, List.not_mem_nil, or_false] at hmem
  tauto

/-- The scenario of C8 for one given order of the three amounts. -/
theorem scenario_in_order (s : Store) (t : Treatment) (calls : List DonateCall)
    (amounts : List JsNumber)
    (hfind : Treatment.findByPk s t.id = some t) (hid : t.id ≠ 0)
    (hgoal : t.goal_amount = 100) (hfunded : t.funded_amount = 0)
    (hstatus : t.status = Status.active) (hnone : donationsOf s t.id = [])
    (horder : amounts = [40, 40, 30] ∨ amounts = [40, 30, 40] ∨ amounts = [30, 40, 40])
    (hamounts : calls.map (fun c => c.body.amount) = amounts.map some)
    (htarget : ∀ c ∈ calls, c.body.treatment_id = some t.id)
    (hcalm : ∀ c ∈ calls, c.env.createFails = false ∧ c.env.saveFails = false) :
    (donateResponses s calls).map (fun r => r.status) = [201, 201, 201] ∧
    (∃ t1, Treatment.findByPk (runDonates s calls) t.id = some t1 ∧
      t1.funded_amount = 110 ∧ t1.status = Status.funded) ∧
    (donationsOf (runDonates s calls) t.id).length = 3 ∧
    donatedTotal (runDonates s calls) t.id = 110 ∧
    (∃ t2, Treatment.findByPk (runDonates s (calls.take 2)) t.id = some t2 ∧
      t2.status = Status.active) := by
  have hpos : ∀ a ∈ amounts, 0 < a := by
    rcases horder with h | h | h <;> subst h <;> intro a ha <;>
      simp only [List.mem_cons, List.mem_singleton, List.not_mem_nil, or_false] at ha <;>
      rcases ha with h | h | h <;> subst h <;> decide!
  have hlen : calls.length = 3 := by
    have := congrArg List.length hamounts
    rcases horder with h | h | h <;> subst h <;> simpa using this
  obtain ⟨h1, h2, h3⟩ := runDonates_calm calls s t.id t amounts hfind hid hamounts hpos
    htarget hcalm
  obtain ⟨-, k2, -⟩ := runDonates_calm (calls.take 2) s t.id t (amounts.take 2) hfind hid
    (by rw [List.map_take, hamounts, List.map_take])
    (fun a ha => hpos a (List.mem_of_mem_take ha))
    (fun c hc => htarget c (List.mem_of_mem_take hc))
    (fun c hc => hcalm c (List.mem_of_mem_take hc))
  have hrows : (donationsOf (runDonates s calls) t.id).length = 3 := by
    have := congrArg List.length h3
    rw [hnone] at this
    rcases horder with h | h | h <;> subst h <;> simpa using this
  have htotal : donatedTotal (runDonates s calls) t.id = 110 := by
    have hv : (donationsOf (runDonates s calls) t.id).map (fun d => d.amount.val) =
        ((donationsOf (runDonates s calls) t.id).map (fun d => d.amount)).map JsNumber.val := by
      rw [List.map_map]
      rfl
    unfold donatedTotal
    rw [hv, h3, hnone]
    rcases horder with h | h | h <;> subst h <;> decide!
  refine ⟨?_, ⟨_, h2, ?_, ?_⟩, hrows, htotal, ⟨_, k2, ?_⟩⟩
  · rw [h1]
    obtain ⟨c1, c2, c3, hc⟩ := List.length_eq_three.mp hlen
    subst hc
    rfl
  · rcases horder with h | h | h <;> subst h <;>
      simp only [List.foldl_cons, List.foldl_nil, credited, hfunded] <;> decide!
  · rcases horder with h | h | h <;> subst h <;>
      simp only [List.foldl_cons, List.foldl_nil, credited, hfunded, hgoal, hstatus] <;>
      decide!
  · rcases horder with h | h | h <;> subst h <;>
      simp only [List.take, List.foldl_cons, List.foldl_nil, credited, hfunded, hgoal,
        hstatus] <;> decide!

/-! ## The claims -/

/-- C1, the claim as stated fails: after an accepted `createTreatment`, a `donate` of 10
whose treatment save is rejected (answer 500) leaves its Donation row behind, and the
next `donate` of 5 succeeds with `funded_amount` 5 against Donation rows summing to 15. -/
theorem ledger_broken_after_failed_save :
    (createTreatment emptyStore patient3 (kneeBody 100) calm).2.status = 201 ∧
    (donateResponses (createTreatment emptyStore patient3 (kneeBody 100) calm).1
      [⟨donor7, give 1 10, saveDown⟩, ⟨donor7, give 1 5, calm⟩]).map (fun r => r.status)
        = [500, 201] ∧
    (Treatment.findByPk (runDonates (createTreatment emptyStore patient3 (kneeBody 100) calm).1
      [⟨donor7, give 1 10, saveDown⟩, ⟨donor7, give 1 5, calm⟩]) 1).map
        (fun t => t.funded_amount) = some 5 ∧
    donatedTotal (runDonates (createTreatment emptyStore patient3 (kneeBody 100) calm).1
      [⟨donor7, give 1 10, saveDown⟩, ⟨donor7, give 1 5, calm⟩]) 1 = 15 ∧
    ¬ Ledger (runDonates (createTreatment emptyStore patient3 (kneeBody 100) calm).1
      [⟨donor7, give 1 10, saveDown⟩, ⟨donor7, give 1 5, calm⟩]) 1 := by
  decide!

/-- C1 (amended): starting from a treatment just created by `createTreatment` under an
unused id (funded_amount 0, no donations) and applying any finite sequence of `donate`
calls one after another in none of which the treatment save is rejected, the treatment's
funded_amount after the sequence (so after every call of it, successful or not) is the
amounts of all Donation rows whose treatment_id is that treatment added one after
another, oldest first, with JavaScript `+`, each partial sum rounded to the nearest
double. -/
theorem ledger_after_donations (s0 : Store) (user : User) (body : CreateTreatmentBody)
    (env : Env) (calls : List DonateCall)
    (hfresh : FreshTreatmentId s0)
    (hcreated : (createTreatment s0 user body env).2.status = 201)
    (hsave : ∀ c ∈ calls, c.env.saveFails = false) :
    RunningLedger (runDonates (createTreatment s0 user body env).1 calls)
      s0.nextTreatmentId := by
  obtain ⟨title, description, category, goal, -, -, -, -, -, -, -, -, hres⟩ :=
    createTreatment_created s0 user body env hcreated
  apply ledger_runDonates calls _ _ hsave
  rw [hres]
  unfold RunningLedger
  have hnew := findByPk_append_new s0
    (newTreatment s0 user.id title description category goal (body.consent_given.getD false))
    (s0.nextTreatmentId + 1) hfresh.1
  have hid : (newTreatment s0 user.id title description category goal
      (body.consent_given.getD false)).id = s0.nextTreatmentId := rfl
  rw [hid] at hnew
  rw [hnew]
  have hnone : donationsOf { s0 with
      treatments := s0.treatments ++
        [newTreatment s0 user.id title description category goal
          (body.consent_given.getD false)],
      nextTreatmentId := s0.nextTreatmentId + 1 } s0.nextTreatmentId = [] := by
    unfold donationsOf
    rw [List.filter_eq_nil_iff]
    intro d hd
    simpa using hfresh.2 d hd
  rw [donatedRunning, hnone]
  simp [newTreatment]

/-- C1 (amended), at a concrete run with an unknown treatment id and a negative amount
among the calls: after the donations 0.1 and 0.7 the funded_amount is the running sum
0.7999999999999999 of the two rows, not their exact sum. -/
theorem ledger_after_donations_witness :
    FreshTreatmentId emptyStore ∧
    RunningLedger (runDonates (createTreatment emptyStore patient3 (kneeBody 100) calm).1
      [⟨donor7, give 1 (JsNumber.ofRat (1 / 10)), calm⟩, ⟨donor7, give 9 5, calm⟩,
       ⟨donor7, give 1 (-2), calm⟩, ⟨donor7, give 1 (JsNumber.ofRat (7 / 10)), calm⟩]) 1 ∧
    ¬ Ledger (runDonates (createTreatment emptyStore patient3 (kneeBody 100) calm).1
      [⟨donor7, give 1 (JsNumber.ofRat (1 / 10)), calm⟩, ⟨donor7, give 9 5, calm⟩,
       ⟨donor7, give 1 (-2), calm⟩, ⟨donor7, give 1 (JsNumber.ofRat (7 / 10)), calm⟩]) 1 :=
  ⟨by decide, ledger_after_donations emptyStore patient3 (kneeBody 100) calm
    [⟨donor7, give 1 (JsNumber.ofRat (1 / 10)), calm⟩, ⟨donor7, give 9 5, calm⟩,
     ⟨donor7, give 1 (-2), calm⟩, ⟨donor7, give 1 (JsNumber.ofRat (7 / 10)), calm⟩]
    (by decide) (by decide!) (by decide), by decide!⟩

/-- C2, the claim as stated fails: for a treatment of goal 0.8 funded with 0.1, a
successful `donate` of 0.7 stores the funded_amount 0.7999999999999999, which is less
than the previous value plus the amount and less than the number 0.8, and leaves the
status active. -/
theorem donate_stores_a_rounded_sum :
    (donate dripStore donor7 (give 1 (JsNumber.ofRat (7 / 10))) calm).2.status = 201 ∧
    ∃ t, Treatment.findByPk
        (donate dripStore donor7 (give 1 (JsNumber.ofRat (7 / 10))) calm).1 1 = some t ∧
      t.funded_amount.val = 7205759403792793 / 9007199254740992 ∧
      t.funded_amount.val < drip.funded_amount.val + (JsNumber.ofRat (7 / 10)).val ∧
      t.funded_amount < JsNumber.ofRat (1 / 10 + 7 / 10) ∧
      t.goal_amount = JsNumber.ofRat (4 / 5) ∧
      t.status = Status.active :=
  ⟨by decide!,
    { drip with funded_amount := JsNumber.ofRat (1 / 10) + JsNumber.ofRat (7 / 10) },
    by decide!, by decide!, by decide!, by decide!, by decide!, by decide!⟩

/-- C2 (amended): for every existing treatment and every positive amount, a successful
`donate` sets the treatment's funded_amount to the double nearest to its previous value
plus the amount (JavaScript `+`), and its status to funded when this new funded_amount
is at least goal_amount, leaving the status as it was otherwise (and every other column
as it was). -/
theorem donate_credits_treatment (s : Store) (user : User) (body : DonateBody) (env : Env)
    (tid : Int) (a : JsNumber) (t : Treatment)
    (htid : body.treatment_id = some tid) (hamt : body.amount = some a) (hpos : 0 < a)
    (hfind : Treatment.findByPk s tid = some t)
    (hok : (donate s user body env).2.status = 201) :
    Treatment.findByPk (donate s user body env).1 tid =
      some { t with
        funded_amount := JsNumber.ofRat (t.funded_amount.val + a.val),
        status := if JsNumber.ofRat (t.funded_amount.val + a.val) ≥ t.goal_amount
                  then Status.funded else t.status } := by
  have _ := hpos
  cases donate_path s user body env with
  | invalid _ hres => rw [hres] at hok; simp at hok
  | missing tid1 a1 _ _ _ _ _ hres => rw [hres] at hok; simp at hok
  | insertFailed tid1 a1 t1 _ _ _ _ _ _ hres => rw [hres] at hok; simp at hok
  | saveFailed tid1 a1 t1 _ _ _ _ _ _ _ hres => rw [hres] at hok; simp at hok
  | done tid1 a1 t1 htid1 hamt1 _ _ hfind1 _ _ hres =>
    rw [htid] at htid1
    rw [hamt] at hamt1
    have e1 : tid = tid1 := Option.some.inj htid1
    have e2 : a = a1 := Option.some.inj hamt1
    subst e1
    subst e2
    rw [hfind] at hfind1
    have e3 : t = t1 := Option.some.inj hfind1
    subst e3
    rw [hres]
    exact findByPk_done s env.now user.id tid a body.receipt_url t hfind

/-- C2 (amended) at a donation of 40 to `knee`. -/
theorem donate_credits_treatment_witness :
    (donate kneeStore donor7 (give 1 40) calm).2.status = 201 ∧
    Treatment.findByPk (donate kneeStore donor7 (give 1 40) calm).1 1 =
      some { knee with
        funded_amount := JsNumber.ofRat (knee.funded_amount.val + (40 : JsNumber).val),
        status := if JsNumber.ofRat (knee.funded_amount.val + (40 : JsNumber).val)
                      ≥ knee.goal_amount then Status.funded
                  else knee.status } :=
  ⟨by decide!, donate_credits_treatment kneeStore donor7 (give 1 40) calm 1 40 knee rfl rfl
    (by decide!) (by decide!) (by decide!)⟩

/-- C3, the code at the failing input: `createTreatment` accepts the negative
goal_amount -5, and the treatment it stores has status active although its funded_amount
(0) is at least its goal_amount; it is still so after a rejected `donate`, where the
claim demands the status funded exactly when funded_amount is at least goal_amount. -/
theorem active_with_goal_reached_at_creation :
    (createTreatment emptyStore patient3 (kneeBody (-5)) calm).2.status = 201 ∧
    (donateResponses (createTreatment emptyStore patient3 (kneeBody (-5)) calm).1
      [⟨donor7, give 1 (-1), calm⟩]).map (fun r => r.status) = [400] ∧
    ∃ t, Treatment.findByPk (runDonates
          (createTreatment emptyStore patient3 (kneeBody (-5)) calm).1
          [⟨donor7, give 1 (-1), calm⟩]) 1 = some t ∧
      t.status = Status.active ∧ t.goal_amount = -5 ∧ t.funded_amount = 0 ∧
      t.goal_amount ≤ t.funded_amount ∧
      ¬ (t.status = Status.funded ↔ t.goal_amount ≤ t.funded_amount) :=
  ⟨by decide!, by decide!, { knee with goal_amount := -5 }, by decide!, by decide!,
    by decide!, by decide!, by decide!, by decide!⟩

/-- C4: for every store state (its treatment ids pairwise distinct) and every `donate`
request, whatever its outcome, the treatments after the call are the treatments before
it row by row, each with a funded_amount greater than or equal to its funded_amount
before the call, and non-negative if it was non-negative. -/
theorem funded_amount_never_decreases (s : Store) (user : User) (body : DonateBody)
    (env : Env) (hpk : PrimaryKey s) :
    List.Forall₂
      (fun t t1 : Treatment => t1.id = t.id ∧ t.funded_amount ≤ t1.funded_amount ∧
        (0 ≤ t.funded_amount → 0 ≤ t1.funded_amount))
      s.treatments (donate s user body env).1.treatments := by
  have hsame : ∀ l : List Treatment, List.Forall₂
      (fun t t1 : Treatment => t1.id = t.id ∧ t.funded_amount ≤ t1.funded_amount ∧
        (0 ≤ t.funded_amount → 0 ≤ t1.funded_amount)) l l := by
    intro l
    rw [List.forall₂_same]
    intro t _
    exact ⟨rfl, JsNumber.le_refl _, fun h => h⟩
  cases donate_path s user body env with
  | invalid _ hres => rw [hres]; exact hsame _
  | missing tid a _ _ _ _ _ hres => rw [hres]; exact hsame _
  | insertFailed tid a t _ _ _ _ _ _ hres => rw [hres]; exact hsame _
  | saveFailed tid a t _ _ _ _ _ _ _ hres => rw [hres]; exact hsame _
  | done tid a t _ _ _ hpos hfind _ _ hres =>
    rw [hres]
    show List.Forall₂ _ s.treatments (s.treatments.map _)
    rw [List.forall₂_map_right_iff, List.forall₂_same]
    intro x hx
    by_cases hid : x.id = t.id
    · have hxt : x = t :=
        List.inj_on_of_nodup_map hpk hx (findByPk_mem hfind) hid
      rw [if_pos hid, hxt]
      refine ⟨rfl, ?_, fun h0 => ?_⟩
      · simp only [credited]
        exact JsNumber.le_add _ (JsNumber.le_of_lt hpos)
      · simp only [credited]
        exact JsNumber.le_trans h0 (JsNumber.le_add _ (JsNumber.le_of_lt hpos))
    · rw [if_neg hid]
      exact ⟨rfl, JsNumber.le_refl _, fun h => h⟩

/-- C4 at a donation of 40 to `knee`. -/
theorem funded_amount_never_decreases_witness :
    PrimaryKey kneeStore ∧
    List.Forall₂
      (fun t t1 : Treatment => t1.id = t.id ∧ t.funded_amount ≤ t1.funded_amount ∧
        (0 ≤ t.funded_amount → 0 ≤ t1.funded_amount))
      kneeStore.treatments (donate kneeStore donor7 (give 1 40) calm).1.treatments :=
  ⟨by decide, funded_amount_never_decreases kneeStore donor7 (give 1 40) calm (by decide)⟩

/-- C5: for every `donate` request whose amount is zero or negative, `donate` answers 400
with the validation error and returns the store as it was: no Donation row is created
and every treatment is left unchanged. -/
theorem donate_rejects_nonpositive_amount (s : Store) (user : User) (body : DonateBody)
    (env : Env) (a : JsNumber) (hamt : body.amount = some a) (hle : a ≤ 0) :
    donate s user body env =
      (s, ⟨400, [("error", Json.str "Valid treatment ID and positive amount required")]⟩) := by
  have hno : ∀ a1 : JsNumber, body.amount = some a1 → 0 < a1 → False := by
    intro a1 h1 hpos
    rw [hamt] at h1
    have e : a = a1 := Option.some.inj h1
    subst e
    exact absurd hpos (JsNumber.not_lt.mpr hle)
  cases donate_path s user body env with
  | invalid _ hres => exact hres
  | missing tid a1 _ h1 _ hpos _ _ => exact (hno a1 h1 hpos).elim
  | insertFailed tid a1 t _ h1 _ hpos _ _ _ => exact (hno a1 h1 hpos).elim
  | saveFailed tid a1 t _ h1 _ hpos _ _ _ _ => exact (hno a1 h1 hpos).elim
  | done tid a1 t _ h1 _ hpos _ _ _ _ => exact (hno a1 h1 hpos).elim

/-- C5 at the amount -25. -/
theorem donate_rejects_nonpositive_amount_witness :
    (give 1 (-25)).amount = some (-25) ∧ (-25 : JsNumber) ≤ 0 ∧
    donate kneeStore donor7 (give 1 (-25)) calm =
      (kneeStore,
        ⟨400, [("error", Json.str "Valid treatment ID and positive amount required")]⟩) :=
  ⟨rfl, by decide!,
    donate_rejects_nonpositive_amount kneeStore donor7 (give 1 (-25)) calm (-25) rfl
      (by decide!)⟩

/-- C6, the claim as stated fails: a request with the positive amount 10 and
treatment_id 0, which references no treatment, is answered 400, not 404. -/
theorem donate_zero_id_is_400 :
    Treatment.findByPk kneeStore 0 = none ∧
    (give 0 10).amount = some 10 ∧
    donate kneeStore donor7 (give 0 10) calm =
      (kneeStore,
        ⟨400, [("error", Json.str "Valid treatment ID and positive amount required")]⟩) := by
  decide!

/-- C6 (amended): for every `donate` request with a positive amount whose treatment_id
is present and not 0 and references no existing treatment, `donate` answers 404 with
the not-found error and returns the store as it was: no Donation row is created and no
treatment is changed. -/
theorem donate_unknown_treatment (s : Store) (user : User) (body : DonateBody) (env : Env)
    (tid : Int) (a : JsNumber) (htid : body.treatment_id = some tid) (hnz : tid ≠ 0)
    (hamt : body.amount = some a) (hpos : 0 < a)
    (hfind : Treatment.findByPk s tid = none) :
    donate s user body env = (s, ⟨404, [("error", Json.str "Treatment not found")]⟩) := by
  have hsome : ∀ tid1 t, body.treatment_id = some tid1 →
      Treatment.findByPk s tid1 = some t → False := by
    intro tid1 t h1 h2
    rw [htid] at h1
    have e : tid = tid1 := Option.some.inj h1
    subst e
    rw [hfind] at h2
    cases h2
  cases donate_path s user body env with
  | invalid hbad _ =>
    rcases hbad with h | h | h | ⟨a1, h, hle⟩
    · rw [htid] at h; cases h
    · rw [htid] at h; exact (hnz (Option.some.inj h)).elim
    · rw [hamt] at h; cases h
    · rw [hamt] at h
      have e : a = a1 := Option.some.inj h
      subst e
      exact absurd hpos (JsNumber.not_lt.mpr hle)
  | missing tid1 a1 _ _ _ _ _ hres => exact hres
  | insertFailed tid1 a1 t h1 _ _ _ h2 _ _ => exact (hsome tid1 t h1 h2).elim
  | saveFailed tid1 a1 t h1 _ _ _ h2 _ _ _ => exact (hsome tid1 t h1 h2).elim
  | done tid1 a1 t h1 _ _ _ h2 _ _ _ => exact (hsome tid1 t h1 h2).elim

/-- C6 (amended) at the treatment id 999 and the amount 10. -/
theorem donate_unknown_treatment_witness :
    Treatment.findByPk kneeStore 999 = none ∧
    donate kneeStore donor7 (give 999 10) calm =
      (kneeStore, ⟨404, [("error", Json.str "Treatment not found")]⟩) :=
  ⟨by decide!, donate_unknown_treatment kneeStore donor7 (give 999 10) calm 999 10 rfl
    (by decide) rfl (by decide!) (by decide!)⟩

/-- C7, the claim as stated fails: when the treatment save is rejected after the
Donation insert, `donate` answers 500 and the store holds the new Donation row while the
treatment is as it was (funded_amount 0). -/
theorem donation_row_kept_when_save_fails :
    (donate kneeStore donor7 (give 1 40) saveDown).2.status = 500 ∧
    (donate kneeStore donor7 (give 1 40) saveDown).1.donations =
      [{ id := 1, donor_id := 7, treatment_id := 1, amount := 40, receipt_url := none,
         createdAt := 5 }] ∧
    (donate kneeStore donor7 (give 1 40) saveDown).1.treatments = kneeStore.treatments ∧
    kneeStore.donations = [] := by
  decide!

/-- C7 (amended): `donate` makes two separate writes, the Donation insert and then the
treatment save. For every `donate` call one of three things holds: nothing is
persisted (the store is as it was and the answer is 400, 404 or, when the insert is
rejected, 500); or the answer is 201 and both the new Donation row and the treatment's
updated funded_amount and status are persisted; or the treatment save was rejected after
the Donation insert, the answer is 500, the new Donation row is in the store and the
treatments are as they were. -/
theorem donate_persists (s : Store) (user : User) (body : DonateBody) (env : Env) :
    ((donate s user body env).1 = s ∧
      ((donate s user body env).2.status = 400 ∨ (donate s user body env).2.status = 404 ∨
        ((donate s user body env).2.status = 500 ∧ env.createFails = true))) ∨
    ((donate s user body env).2.status = 201 ∧
      ∃ tid a t, body.treatment_id = some tid ∧ body.amount = some a ∧
        Treatment.findByPk s tid = some t ∧
        (donate s user body env).1.donations = s.donations ++
          [{ id := s.nextDonationId, donor_id := user.id, treatment_id := tid, amount := a,
             receipt_url := body.receipt_url, createdAt := env.now }] ∧
        Treatment.findByPk (donate s user body env).1 tid = some (credited t a)) ∨
    ((donate s user body env).2.status = 500 ∧ env.createFails = false ∧
      env.saveFails = true ∧
      ∃ tid a, body.treatment_id = some tid ∧ body.amount = some a ∧
        (donate s user body env).1.donations = s.donations ++
          [{ id := s.nextDonationId, donor_id := user.id, treatment_id := tid, amount := a,
             receipt_url := body.receipt_url, createdAt := env.now }] ∧
        (donate s user body env).1.treatments = s.treatments) := by
  cases donate_path s user body env with
  | invalid _ hres => rw [hres]; exact Or.inl ⟨rfl, Or.inl rfl⟩
  | missing tid a _ _ _ _ _ hres => rw [hres]; exact Or.inl ⟨rfl, Or.inr (Or.inl rfl)⟩
  | insertFailed tid a t _ _ _ _ _ hc hres =>
    rw [hres]; exact Or.inl ⟨rfl, Or.inr (Or.inr ⟨rfl, hc⟩)⟩
  | saveFailed tid a t htid hamt _ _ _ hc hs hres =>
    rw [hres]
    exact Or.inr (Or.inr ⟨rfl, hc, hs, tid, a, htid, hamt, rfl, rfl⟩)
  | done tid a t htid hamt _ _ hfind _ _ hres =>
    rw [hres]
    exact Or.inr (Or.inl ⟨rfl, tid, a, t, htid, hamt, hfind, rfl,
      findByPk_done s env.now user.id tid a body.receipt_url t hfind⟩)

/-- C8: for a treatment with goal_amount 100.00, funded_amount 0, status active and no
Donation rows, three `donate` calls of 40.00, 40.00 and 30.00 whose writes the store
accepts, applied in any order, all succeed (201) and leave funded_amount 110.00, status
funded and exactly three Donation rows for the treatment, whose amounts sum to 110.00;
after only the first two of them the status is still active. -/
theorem scenario_40_40_30 (s : Store) (t : Treatment) (calls : List DonateCall)
    (hfind : Treatment.findByPk s t.id = some t) (hid : t.id ≠ 0)
    (hgoal : t.goal_amount = 100) (hfunded : t.funded_amount = 0)
    (hstatus : t.status = Status.active) (hnone : donationsOf s t.id = [])
    (hamounts : (calls.map (fun c => c.body.amount)).Perm [some 40, some 40, some 30])
    (htarget : ∀ c ∈ calls, c.body.treatment_id = some t.id)
    (hcalm : ∀ c ∈ calls, c.env.createFails = false ∧ c.env.saveFails = false) :
    (donateResponses s calls).map (fun r => r.status) = [201, 201, 201] ∧
    (∃ t1, Treatment.findByPk (runDonates s calls) t.id = some t1 ∧
      t1.funded_amount = 110 ∧ t1.status = Status.funded) ∧
    (donationsOf (runDonates s calls) t.id).length = 3 ∧
    donatedTotal (runDonates s calls) t.id = 110 ∧
    (∃ t2, Treatment.findByPk (runDonates s (calls.take 2)) t.id = some t2 ∧
      t2.status = Status.active) := by
  rcases orders_40_40_30 _ hamounts with h | h | h
  · exact scenario_in_order s t calls [40, 40, 30] hfind hid hgoal hfunded hstatus hnone
      (Or.inl rfl) (by rw [h]; rfl) htarget hcalm
  · exact scenario_in_order s t calls [40, 30, 40] hfind hid hgoal hfunded hstatus hnone
      (Or.inr (Or.inl rfl)) (by rw [h]; rfl) htarget hcalm
  · exact scenario_in_order s t calls [30, 40, 40] hfind hid hgoal hfunded hstatus hnone
      (Or.inr (Or.inr rfl)) (by rw [h]; rfl) htarget hcalm

/-- C8 at the order 40, 30, 40 on `knee`. -/
theorem scenario_40_40_30_witness :
    Treatment.findByPk kneeStore knee.id = some knee ∧
    donationsOf kneeStore knee.id = [] ∧
    (donateResponses kneeStore
      [⟨donor7, give 1 40, calm⟩, ⟨donor7, give 1 30, calm⟩, ⟨donor7, give 1 40, calm⟩]).map
        (fun r => r.status) = [201, 201, 201] ∧
    (∃ t1, Treatment.findByPk (runDonates kneeStore
        [⟨donor7, give 1 40, calm⟩, ⟨donor7, give 1 30, calm⟩, ⟨donor7, give 1 40, calm⟩])
        knee.id = some t1 ∧ t1.funded_amount = 110 ∧ t1.status = Status.funded) ∧
    (donationsOf (runDonates kneeStore
        [⟨donor7, give 1 40, calm⟩, ⟨donor7, give 1 30, calm⟩, ⟨donor7, give 1 40, calm⟩])
        knee.id).length = 3 ∧
    donatedTotal (runDonates kneeStore
        [⟨donor7, give 1 40, calm⟩, ⟨donor7, give 1 30, calm⟩, ⟨donor7, give 1 40, calm⟩])
        knee.id = 110 ∧
    (∃ t2, Treatment.findByPk (runDonates kneeStore
        ([⟨donor7, give 1 40, calm⟩, ⟨donor7, give 1 30, calm⟩,
          ⟨donor7, give 1 40, calm⟩].take 2)) knee.id = some t2 ∧
      t2.status = Status.active) :=
  ⟨by decide!, by decide!,
    scenario_40_40_30 kneeStore knee
      [⟨donor7, give 1 40, calm⟩, ⟨donor7, give 1 30, calm⟩, ⟨donor7, give 1 40, calm⟩]
      (by decide!) (by decide) rfl rfl rfl (by decide!)
      (by
        have h : ([⟨donor7, give 1 40, calm⟩, ⟨donor7, give 1 30, calm⟩,
            ⟨donor7, give 1 40, calm⟩] : List DonateCall).map (fun c => c.body.amount) =
            [some 40, some 30, some 40] := rfl
        rw [h]
        exact (List.Perm.swap (some (40 : JsNumber)) (some 30) []).cons (some 40))
      (by decide) (by decide)⟩

/-- C9, the claim as stated fails: the answer to a successful `donate` holds the keys
`message` and `donation` and carries no treatment. -/
theorem donate_response_has_no_treatment :
    (donate kneeStore donor7 (give 1 40) calm).2.status = 201 ∧
    (donate kneeStore donor7 (give 1 40) calm).2.keys = ["message", "donation"] ∧
    (donate kneeStore donor7 (give 1 40) calm).2.treatments = [] ∧
    (Treatment.findByPk (donate kneeStore donor7 (give 1 40) calm).1 1).isSome = true := by
  decide!

/-- C9 (amended): for every successful `donate` call, the result returned to the caller
is the message 'Donation successful' and the created Donation, which is the row just
added to the store (the caller as donor, the request's treatment_id, amount and
receipt_url); it does not contain the treatment. -/
theorem donate_response (s : Store) (user : User) (body : DonateBody) (env : Env)
    (hok : (donate s user body env).2.status = 201) :
    ∃ tid a d, body.treatment_id = some tid ∧ body.amount = some a ∧
      d = { id := s.nextDonationId, donor_id := user.id, treatment_id := tid, amount := a,
            receipt_url := body.receipt_url, createdAt := env.now } ∧
      (donate s user body env).1.donations = s.donations ++ [d] ∧
      (donate s user body env).2.body =
        [("message", Json.str "Donation successful"), ("donation", Json.donation d)] ∧
      (donate s user body env).2.treatments = [] := by
  cases donate_path s user body env with
  | invalid _ hres => rw [hres] at hok; simp at hok
  | missing tid1 a1 _ _ _ _ _ hres => rw [hres] at hok; simp at hok
  | insertFailed tid1 a1 t1 _ _ _ _ _ _ hres => rw [hres] at hok; simp at hok
  | saveFailed tid1 a1 t1 _ _ _ _ _ _ _ hres => rw [hres] at hok; simp at hok
  | done tid a t htid hamt _ _ _ _ _ hres =>
    rw [hres]
    exact ⟨tid, a, _, htid, hamt, rfl, rfl, rfl, rfl⟩

/-- C9 (amended) at a donation of 40 to `knee`. -/
theorem donate_response_witness :
    (donate kneeStore donor7 (give 1 40) calm).2.status = 201 ∧
    ∃ tid a d, (give 1 40).treatment_id = some tid ∧ (give 1 40).amount = some a ∧
      d = { id := kneeStore.nextDonationId, donor_id := donor7.id, treatment_id := tid,
            amount := a, receipt_url := (give 1 40).receipt_url, createdAt := calm.now } ∧
      (donate kneeStore donor7 (give 1 40) calm).1.donations = kneeStore.donations ++ [d] ∧
      (donate kneeStore donor7 (give 1 40) calm).2.body =
        [("message", Json.str "Donation successful"), ("donation", Json.donation d)] ∧
      (donate kneeStore donor7 (give 1 40) calm).2.treatments = [] :=
  ⟨by decide!, donate_response kneeStore donor7 (give 1 40) calm (by decide!)⟩

/-- C10: for every accepted `createTreatment` request, the treatment added to the store
(and returned) has funded_amount 0, status active, patient_id equal to the caller's id,
and the title, description, category and goal_amount of the request; nothing else in the
store changes but the id counter; and the keys funded_amount and status of the request
body have no effect on the result. -/
theorem createTreatment_stores_request (s : Store) (user : User)
    (body : CreateTreatmentBody) (env : Env)
    (hcreated : (createTreatment s user body env).2.status = 201) :
    (∃ t, (createTreatment s user body env).1 =
          { s with treatments := s.treatments ++ [t],
                   nextTreatmentId := s.nextTreatmentId + 1 } ∧
        (createTreatment s user body env).2.body =
          [("message", Json.str "Treatment request created"),
           ("treatment", Json.treatment t)] ∧
        t.id = s.nextTreatmentId ∧
        t.funded_amount = 0 ∧ t.status = Status.active ∧ t.patient_id = user.id ∧
        some t.title = body.title ∧ some t.description = body.description ∧
        some t.category = body.category ∧ some t.goal_amount = body.goal_amount ∧
        t.consent_given = body.consent_given.getD false) ∧
    ∀ (funded : Option JsNumber) (status : Option String),
      createTreatment s user { body with funded_amount := funded, status := status } env =
        createTreatment s user body env := by
  obtain ⟨title, description, category, goal, h1, h2, h3, h4, -, -, -, -, hres⟩ :=
    createTreatment_created s user body env hcreated
  refine ⟨⟨_, congrArg Prod.fst hres, ?_, rfl, rfl, rfl, rfl, h1.symm, h2.symm, h3.symm,
    h4.symm, rfl⟩, fun _ _ => rfl⟩
  rw [hres]

/-- C10 at a request that also sends funded_amount 999 and status funded. -/
theorem createTreatment_stores_request_witness :
    (createTreatment emptyStore patient3
      { kneeBody 100 with funded_amount := some 999, status := some "funded" } calm).2.status
        = 201 ∧
    ((∃ t, (createTreatment emptyStore patient3
          { kneeBody 100 with funded_amount := some 999, status := some "funded" } calm).1 =
          { emptyStore with treatments := emptyStore.treatments ++ [t],
                            nextTreatmentId := emptyStore.nextTreatmentId + 1 } ∧
        (createTreatment emptyStore patient3
          { kneeBody 100 with funded_amount := some 999, status := some "funded" } calm).2.body =
          [("message", Json.str "Treatment request created"),
           ("treatment", Json.treatment t)] ∧
        t.id = emptyStore.nextTreatmentId ∧
        t.funded_amount = 0 ∧ t.status = Status.active ∧ t.patient_id = patient3.id ∧
        some t.title = (kneeBody 100).title ∧ some t.description = (kneeBody 100).description ∧
        some t.category = (kneeBody 100).category ∧
        some t.goal_amount = (kneeBody 100).goal_amount ∧
        t.consent_given = (kneeBody 100).consent_given.getD false) ∧
    ∀ (funded : Option JsNumber) (status : Option String),
      createTreatment emptyStore patient3
        { kneeBody 100 with funded_amount := funded, status := status } calm =
        createTreatment emptyStore patient3
          { kneeBody 100 with funded_amount := some 999, status := some "funded" } calm) :=
  ⟨by decide!, createTreatment_stores_request emptyStore patient3
    { kneeBody 100 with funded_amount := some 999, status := some "funded" } calm
    (by decide!)⟩

/-! ## Validation in `createTreatment` -/

/-- What the guard of `createTreatment` rejects: a missing or empty title, a missing or
empty description, a missing or zero goal_amount, and nothing else. -/
theorem createTreatment_rejects_iff (s : Store) (user : User) (body : CreateTreatmentBody)
    (env : Env) :
    (body.title = none ∨ body.title = some "" ∨ body.description = none ∨
      body.description = some "" ∨ body.goal_amount = none ∨ body.goal_amount = some 0) ↔
    createTreatment s user body env =
      (s, ⟨400, [("error", Json.str "Title, description, and goal amount are required")]⟩) := by
  obtain ⟨otitle, odesc, ocat, ogoal, oconsent, ofunded, ostatus⟩ := body
  cases otitle with
  | none => simp [createTreatment, truthyStr]
  | some title =>
    cases odesc with
    | none => simp [createTreatment, truthyStr]
    | some description =>
      cases ogoal with
      | none => simp [createTreatment, truthyNum]
      | some goal =>
        by_cases h1 : title = ""
        · simp [createTreatment, truthyStr, h1]
        by_cases h2 : description = ""
        · simp [createTreatment, truthyStr, h2]
        by_cases h3 : goal = 0
        · simp [createTreatment, truthyNum, h3]
        have hstatus : (createTreatment s user ⟨some title, some description, ocat, some goal,
            oconsent, ofunded, ostatus⟩ env).2.status ≠ 400 := by
          cases hc : env.createFails with
          | true => simp [createTreatment, truthyStr, truthyNum, h1, h2, h3, hc]
          | false =>
            cases hcr : Treatment.create s user.id title description ocat goal
                (oconsent.getD false) with
            | none => simp [createTreatment, truthyStr, truthyNum, h1, h2, h3, hc, hcr]
            | some p => simp [createTreatment, truthyStr, truthyNum, h1, h2, h3, hc, hcr]
        constructor
        · intro h
          simp [h1, h2, h3] at h
        · intro h
          rw [h] at hstatus
          exact absurd rfl hstatus

/-! ## The read handlers -/

/-- The joined user row after the users are rewritten with their ids kept. -/
theorem findUser_map (s : Store) (g : User → User) (hid : ∀ u, (g u).id = u.id) (k : Int) :
    User.findByPk { s with users := s.users.map g } k = (User.findByPk s k).map g := by
  unfold User.findByPk
  simp only [List.find?_map]
  have hp : ((fun u : User => u.id == k) ∘ g) = fun u : User => u.id == k := by
    funext u
    simp only [Function.comp, hid]
  rw [hp]

/-- The public view of a treatment reads only the name and the language of a user. -/
theorem publicView_map (s : Store) (g : User → User)
    (hg : ∀ u, (g u).id = u.id ∧ (g u).name = u.name ∧ (g u).language = u.language)
    (t : Treatment) :
    publicView { s with users := s.users.map g } t = publicView s t := by
  unfold publicView
  rw [findUser_map s g (fun u => (hg u).1)]
  cases User.findByPk s t.patient_id with
  | none => rfl
  | some u => simp [(hg u).2.1, (hg u).2.2]

/-- The store that `Treatment.create` returns holds one more treatment row. -/
theorem create_store (s : Store) (patient_id : Int) (title description : String)
    (category : Option String) (goal : JsNumber) (consent : Bool) (t : Treatment) (s1 : Store)
    (h : Treatment.create s patient_id title description category goal consent = some (t, s1)) :
    s1 = { s with treatments := s.treatments ++ [t],
                  nextTreatmentId := s.nextTreatmentId + 1 } := by
  unfold Treatment.create at h
  cases category with
  | none => simp at h
  | some c =>
    by_cases hc : c ∈ categories
    · simp only [hc, if_true, Option.some.injEq, Prod.mk.injEq] at h
      rw [← h.1, ← h.2]
    · simp [hc] at h

/-- The store after `createTreatment`: as it was, or with one treatment row added. -/
theorem createTreatment_store (s : Store) (user : User) (body : CreateTreatmentBody)
    (env : Env) :
    (createTreatment s user body env).1 = s ∨
    ∃ t, (createTreatment s user body env).1 =
      { s with treatments := s.treatments ++ [t],
               nextTreatmentId := s.nextTreatmentId + 1 } := by
  unfold createTreatment
  split
  · exact Or.inl rfl
  · split
    · split
      · exact Or.inl rfl
      · split
        · exact Or.inl rfl
        · rename_i treatment s1 heq
          exact Or.inr ⟨treatment, create_store _ _ _ _ _ _ _ _ _ heq⟩
    · exact Or.inl rfl

/-- What a request other than `donate` leaves in place: the users, the Donation rows and
every treatment row that could be read by its key. -/
theorem handle_keeps_report_inputs (s : Store) (r : Request) (id : Int) (t : Treatment)
    (hr : r.isDonate = false) (hfind : Treatment.findByPk s id = some t) :
    (handle s r).1.users = s.users ∧ (handle s r).1.donations = s.donations ∧
    Treatment.findByPk (handle s r).1 id = some t := by
  cases r with
  | createTreatment user body env =>
    simp only [handle]
    rcases createTreatment_store s user body env with h | ⟨t1, h⟩
    · rw [h]; exact ⟨rfl, rfl, hfind⟩
    · rw [h]
      refine ⟨rfl, rfl, ?_⟩
      unfold Treatment.findByPk at hfind ⊢
      rw [List.find?_append, hfind]
      rfl
  | getTreatments => exact ⟨rfl, rfl, hfind⟩
  | donate user body env => simp [Request.isDonate] at hr
  | getTransparencyReport k =>
    simp only [handle]
    unfold getTransparencyReport
    split <;> exact ⟨rfl, rfl, hfind⟩

/-- The report is a function of the users, the Donation rows and the treatment read. -/
theorem report_congr (s s1 : Store) (id : Int)
    (husers : s1.users = s.users) (hdonations : s1.donations = s.donations)
    (hfind : Treatment.findByPk s1 id = Treatment.findByPk s id) :
    (getTransparencyReport s1 id).2 = (getTransparencyReport s id).2 := by
  have hentry : reportEntry s1 = reportEntry s := by
    funext d
    simp [reportEntry, User.findByPk, husers]
  unfold getTransparencyReport
  rw [hfind]
  cases Treatment.findByPk s id with
  | none => rfl
  | some t => simp only [hdonations, hentry]

/-! ## `donate` and its stretches -/

/-- A request that runs its three stretches without any other request in between does
what `donate` does. -/
theorem alone_is_donate (s : Store) (user : User) (body : DonateBody) (env : Env) :
    interleave s [DonateTask.pending user body env] [0, 0, 0] =
      ((donate s user body env).1, [DonateTask.answered (donate s user body env).2]) := by
  obtain ⟨otid, oamt, receipt⟩ := body
  cases otid with
  | none => simp [interleave, DonateTask.step, donate, truthyId]
  | some tid =>
    cases oamt with
    | none => simp [interleave, DonateTask.step, donate, truthyNum]
    | some a =>
      by_cases hnz : tid = 0
      · subst hnz
        simp [interleave, DonateTask.step, donate, truthyId]
      · by_cases hpos : 0 < a
        · have hne : a ≠ 0 := JsNumber.ne_of_gt hpos
          have hnle : ¬ a ≤ 0 := JsNumber.not_le.mpr hpos
          have hguard : (!truthyId (some tid) || !truthyNum (some a) || leZero (some a))
              = false := by
            simp [truthyId, truthyNum, leZero, hnz, hne, hnle]
          cases hfind : Treatment.findByPk s tid with
          | none => simp [interleave, DonateTask.step, donate, hguard, hfind]
          | some t =>
            cases hcreate : env.createFails with
            | true => simp [interleave, DonateTask.step, donate, hguard, hfind, hcreate]
            | false =>
              cases hsave : env.saveFails with
              | true =>
                simp [interleave, DonateTask.step, donate, hguard, hfind, hcreate, hsave]
              | false =>
                simp [interleave, DonateTask.step, donate, hguard, hfind, hcreate, hsave]
        · have hle : a ≤ 0 := JsNumber.not_lt.mp hpos
          simp [interleave, DonateTask.step, donate, leZero, hle]

/-! ## The claims, continued -/

/-- C11, the code at the failing input: a `createTreatment` request with title,
description and category and the negative goal_amount -5 is answered 201 and a
treatment with goal_amount -5 is stored, where the claim demands 400 and no treatment. -/
theorem createTreatment_accepts_negative_goal :
    createTreatment emptyStore patient3 (kneeBody (-5)) calm =
      ({ emptyStore with treatments := [{ knee with goal_amount := -5 }],
                         nextTreatmentId := 2 },
        ⟨201, [("message", Json.str "Treatment request created"),
               ("treatment", Json.treatment { knee with goal_amount := -5 })]⟩) := by
  decide!

/-- C12: for every store state, `getTreatments` changes nothing and answers 200 with one
element per treatment whose status is active, in table order, and none for any other
treatment; an element holds the treatment's id, title, description, category,
goal_amount, funded_amount and status and, as `Patient`, the name and language of the
patient's user row; the answer is the same whatever the email, phone, password, role
and verified flag of the users are. -/
theorem getTreatments_lists_active (s : Store) :
    (getTreatments s).1 = s ∧
    (∃ l, (getTreatments s).2 = ⟨200, [("treatments", Json.publicTreatments l)]⟩ ∧
      List.Forall₂
        (fun (t : Treatment) (e : TreatmentPublic) =>
          e.id = t.id ∧ e.title = t.title ∧ e.description = t.description ∧
          e.category = t.category ∧ e.goal_amount = t.goal_amount ∧
          e.funded_amount = t.funded_amount ∧ e.status = t.status ∧
          e.status = Status.active ∧
          e.Patient = (User.findByPk s t.patient_id).map
            (fun u => { name := u.name, language := u.language }))
        (s.treatments.filter (fun t => decide (t.status = Status.active))) l) ∧
    (∀ g : User → User,
      (∀ u, (g u).id = u.id ∧ (g u).name = u.name ∧ (g u).language = u.language) →
      (getTreatments { s with users := s.users.map g }).2 = (getTreatments s).2) := by
  refine ⟨rfl, ⟨_, rfl, ?_⟩, ?_⟩
  · rw [List.forall₂_map_right_iff, List.forall₂_same]
    intro t ht
    have hactive : t.status = Status.active := by
      simpa using (List.mem_filter.mp ht).2
    exact ⟨rfl, rfl, rfl, rfl, rfl, rfl, rfl, hactive, rfl⟩
  · intro g hg
    unfold getTreatments
    simp only [Response.mk.injEq, List.cons.injEq, Prod.mk.injEq, Json.publicTreatments.injEq,
      true_and, and_true]
    apply List.map_congr_left
    intro t _
    exact publicView_map s g hg t

/-- C13: for every id that references no existing treatment, `getTransparencyReport`
answers 404 with the not-found error and no report, and changes nothing; for every id of
an existing treatment it answers 200 with a report (the keys `treatment` and
`donations`). -/
theorem report_found_or_404 (s : Store) (id : Int) :
    (Treatment.findByPk s id = none →
      getTransparencyReport s id =
        (s, ⟨404, [("error", Json.str "Treatment not found")]⟩)) ∧
    (∀ t, Treatment.findByPk s id = some t →
      (getTransparencyReport s id).1 = s ∧
      (getTransparencyReport s id).2.status = 200 ∧
      (getTransparencyReport s id).2.keys = ["treatment", "donations"]) := by
  constructor
  · intro h
    simp [getTransparencyReport, h]
  · intro t h
    simp [getTransparencyReport, h, Response.keys]

/-- C13 at the store `kneeStore`: id 999 is answered 404, id 1 is answered 200. -/
theorem report_found_or_404_witness :
    getTransparencyReport kneeStore 999 =
        (kneeStore, ⟨404, [("error", Json.str "Treatment not found")]⟩) ∧
    (getTransparencyReport kneeStore 1).2.status = 200 :=
  ⟨(report_found_or_404 kneeStore 999).1 (by decide!),
    ((report_found_or_404 kneeStore 1).2 knee (by decide!)).2.1⟩

/-- What the report holds: for every existing treatment, the treatment's id, title,
goal_amount and funded_amount, and exactly one entry per Donation row of that treatment,
in the order the store returns them; the entry's donor_name is the name of the donor's
user row when there is one and "Anonymous Donor" otherwise, its amount is the donation's
amount, its receipt_url is the donation's receipt when that is a non-empty string and
null otherwise, and it has no donated_at, whatever the creation time of the row. -/
theorem report_entries (s : Store) (id : Int) (t : Treatment)
    (hfind : Treatment.findByPk s id = some t) :
    ∃ l, (getTransparencyReport s id).2 =
        ⟨200, [("treatment", Json.summary
                 { id := t.id, title := t.title, goal_amount := t.goal_amount,
                   funded_amount := t.funded_amount }),
               ("donations", Json.entries l)]⟩ ∧
      t.id = id ∧
      List.Forall₂
        (fun (d : Donation) (e : ReportEntry) =>
          (∀ u, User.findByPk s d.donor_id = some u → e.donor_name = u.name) ∧
          (User.findByPk s d.donor_id = none → e.donor_name = "Anonymous Donor") ∧
          e.amount = d.amount ∧
          (∀ r, d.receipt_url = some r → r ≠ "" → e.receipt_url = some r) ∧
          (d.receipt_url = none ∨ d.receipt_url = some "" → e.receipt_url = none) ∧
          e.donated_at = none)
        (donationsOf s id) l := by
  have hid := findByPk_id hfind
  refine ⟨(donationsOf s id).map (reportEntry s), ?_, hid, ?_⟩
  · simp [getTransparencyReport, hfind, donationsOf, hid]
  · rw [List.forall₂_map_right_iff, List.forall₂_same]
    intro d _
    refine ⟨?_, ?_, rfl, ?_, ?_, rfl⟩
    · intro u hu
      simp [reportEntry, hu]
    · intro hu
      simp [reportEntry, hu]
    · intro r hr hne
      simp [reportEntry, hr, truthyStr, hne]
    · rintro (hr | hr) <;> simp [reportEntry, hr, truthyStr]

/-- C14, the code at the failing input: for the treatment of `reportStore`, whose two
Donation rows were created at the times 5 and 9, the report holds the treatment's id,
title, goal_amount and funded_amount and one entry per row with donor name, amount and
receipt, and no entry has a donated_at, where the claim demands the creation timestamp. -/
theorem report_entries_lack_donated_at :
    Treatment.findByPk reportStore 1 = some { knee with funded_amount := 70 } ∧
    (donationsOf reportStore 1).map (fun d => d.createdAt) = [5, 9] ∧
    (getTransparencyReport reportStore 1).2 =
      ⟨200, [("treatment", Json.summary
               { id := 1, title := "Knee Surgery", goal_amount := 100, funded_amount := 70 }),
             ("donations", Json.entries
               [{ donor_name := "D", amount := 40,
                  receipt_url := some "https://example.com/receipts/d1.pdf",
                  donated_at := none },
                { donor_name := "Anonymous Donor", amount := 30, receipt_url := none,
                  donated_at := none }])]⟩ := by
  decide!

/-- C15, the code at the failing input: the report lists the entries in the order the
store returns the Donation rows. On two stores that hold the same rows, the donations
returned oldest first in one and newest first in the other, the two reports differ, and
the second lists the donation of 30 made at time 9 before the donation of 40 made at
time 5. -/
theorem report_follows_store_order :
    reportStoreNewestFirst.users = reportStore.users ∧
    reportStoreNewestFirst.treatments = reportStore.treatments ∧
    reportStoreNewestFirst.donations = reportStore.donations.reverse ∧
    reportStore.donations.map (fun d => (d.amount, d.createdAt)) = [(40, 5), (30, 9)] ∧
    (getTransparencyReport reportStore 1).2.body.lookup "donations" =
      some (Json.entries
        [{ donor_name := "D", amount := 40,
           receipt_url := some "https://example.com/receipts/d1.pdf", donated_at := none },
         { donor_name := "Anonymous Donor", amount := 30, receipt_url := none,
           donated_at := none }]) ∧
    (getTransparencyReport reportStoreNewestFirst 1).2.body.lookup "donations" =
      some (Json.entries
        [{ donor_name := "Anonymous Donor", amount := 30, receipt_url := none,
           donated_at := none },
         { donor_name := "D", amount := 40,
           receipt_url := some "https://example.com/receipts/d1.pdf", donated_at := none }]) ∧
    (getTransparencyReport reportStoreNewestFirst 1).2 ≠
      (getTransparencyReport reportStore 1).2 := by
  decide!

/-- C16: `getTransparencyReport` returns the store as it was (no Treatment and no
Donation changes), and for an existing treatment a second call, made after any requests
to `createTreatment`, `getTreatments` and `getTransparencyReport` but no `donate`,
returns the same answer as the first: the same goal_amount, funded_amount and donation
entries. -/
theorem report_repeatable (s : Store) (id : Int) (t : Treatment) (between : List Request)
    (hfind : Treatment.findByPk s id = some t)
    (hno : ∀ r ∈ between, r.isDonate = false) :
    (getTransparencyReport s id).1 = s ∧
    (getTransparencyReport (runRequests (getTransparencyReport s id).1 between) id).2 =
      (getTransparencyReport s id).2 := by
  have hfirst : (getTransparencyReport s id).1 = s := by
    unfold getTransparencyReport
    split <;> rfl
  refine ⟨hfirst, ?_⟩
  rw [hfirst]
  have hrun : ∀ (rs : List Request) (s1 : Store), (∀ r ∈ rs, r.isDonate = false) →
      s1.users = s.users → s1.donations = s.donations →
      Treatment.findByPk s1 id = some t →
      (runRequests s1 rs).users = s.users ∧ (runRequests s1 rs).donations = s.donations ∧
        Treatment.findByPk (runRequests s1 rs) id = some t := by
    intro rs
    induction rs with
    | nil => intro s1 _ h1 h2 h3; exact ⟨h1, h2, h3⟩
    | cons r rs ih =>
      intro s1 hrs h1 h2 h3
      obtain ⟨k1, k2, k3⟩ := handle_keeps_report_inputs s1 r id t
        (hrs r (List.mem_cons_self _ _)) h3
      exact ih (handle s1 r).1 (fun x hx => hrs x (List.mem_cons_of_mem _ hx))
        (k1.trans h1) (k2.trans h2) k3
  obtain ⟨h1, h2, h3⟩ := hrun between s hno rfl rfl hfind
  exact report_congr s _ id h1 h2 (h3.trans hfind.symm)

/-- C16 at the store `reportStore`, with a `createTreatment`, a `getTreatments` and a
report of another id between the two calls. -/
theorem report_repeatable_witness :
    Treatment.findByPk reportStore 1 = some { knee with funded_amount := 70 } ∧
    (getTransparencyReport reportStore 1).1 = reportStore ∧
    (getTransparencyReport (runRequests (getTransparencyReport reportStore 1).1
      [Request.createTreatment patient3 (kneeBody 50) calm, Request.getTreatments,
       Request.getTransparencyReport 2]) 1).2 = (getTransparencyReport reportStore 1).2 :=
  ⟨by decide!, report_repeatable reportStore 1 { knee with funded_amount := 70 }
    [Request.createTreatment patient3 (kneeBody 50) calm, Request.getTreatments,
     Request.getTransparencyReport 2] (by decide!) (by decide)⟩

/-- C17: Donation rows are only ever appended. For every store state and every request
to `createTreatment`, `getTreatments`, `donate` or `getTransparencyReport`, the Donation
rows after the call are the rows before it, unchanged and in place, followed by at most
one new row; and a successful `donate` adds exactly one new row, carrying the caller's id
as donor_id and the request's treatment_id, amount and receipt_url. -/
theorem donations_append_only (s : Store) (r : Request) :
    (∃ added, (handle s r).1.donations = s.donations ++ added ∧ added.length ≤ 1) ∧
    (∀ user body env, r = Request.donate user body env → (handle s r).2.status = 201 →
      ∃ treatment_id amount, body.treatment_id = some treatment_id ∧
        body.amount = some amount ∧
        (handle s r).1.donations = s.donations ++
          [{ id := s.nextDonationId, donor_id := user.id, treatment_id := treatment_id,
             amount := amount, receipt_url := body.receipt_url, createdAt := env.now }]) := by
  cases r with
  | createTreatment user body env =>
    refine ⟨⟨[], ?_, by simp⟩, fun _ _ _ h => by cases h⟩
    simp only [handle, List.append_nil]
    rcases createTreatment_store s user body env with h | ⟨t1, h⟩ <;> rw [h]
  | getTreatments =>
    exact ⟨⟨[], by simp [handle, getTreatments], by simp⟩, fun _ _ _ h => by cases h⟩
  | getTransparencyReport k =>
    refine ⟨⟨[], ?_, by simp⟩, fun _ _ _ h => by cases h⟩
    simp only [handle, List.append_nil]
    unfold getTransparencyReport
    split <;> rfl
  | donate user body env =>
    simp only [handle]
    cases donate_path s user body env with
    | invalid _ hres =>
      rw [hres]
      exact ⟨⟨[], by simp, by simp⟩, fun _ _ _ _ h => by simp at h⟩
    | missing tid a _ _ _ _ _ hres =>
      rw [hres]
      exact ⟨⟨[], by simp, by simp⟩, fun _ _ _ _ h => by simp at h⟩
    | insertFailed tid a t _ _ _ _ _ _ hres =>
      rw [hres]
      exact ⟨⟨[], by simp, by simp⟩, fun _ _ _ _ h => by simp at h⟩
    | saveFailed tid a t _ _ _ _ _ _ _ hres =>
      rw [hres]
      exact ⟨⟨_, rfl, by simp⟩, fun _ _ _ _ h => by simp at h⟩
    | done tid a t htid hamt _ _ _ _ _ hres =>
      rw [hres]
      refine ⟨⟨_, rfl, by simp⟩, ?_⟩
      intro user1 body1 env1 hreq _
      injection hreq with e1 e2 e3
      subst e1
      subst e2
      subst e3
      exact ⟨tid, a, htid, hamt, rfl⟩

/-- C18: for every successful `donate` call, the treatments after the call are the
treatments before it row by row, each with its id, patient_id, title, description,
category, goal_amount and consent_given unchanged, and every treatment other than the
target unchanged in every column. -/
theorem donate_keeps_other_columns (s : Store) (user : User) (body : DonateBody) (env : Env)
    (tid : Int) (htid : body.treatment_id = some tid)
    (hok : (donate s user body env).2.status = 201) :
    List.Forall₂
      (fun t t1 : Treatment =>
        t1.id = t.id ∧ t1.patient_id = t.patient_id ∧ t1.title = t.title ∧
        t1.description = t.description ∧ t1.category = t.category ∧
        t1.goal_amount = t.goal_amount ∧ t1.consent_given = t.consent_given ∧
        (t.id ≠ tid → t1 = t))
      s.treatments (donate s user body env).1.treatments := by
  cases donate_path s user body env with
  | invalid _ hres => rw [hres] at hok; simp at hok
  | missing tid1 a1 _ _ _ _ _ hres => rw [hres] at hok; simp at hok
  | insertFailed tid1 a1 t1 _ _ _ _ _ _ hres => rw [hres] at hok; simp at hok
  | saveFailed tid1 a1 t1 _ _ _ _ _ _ _ hres => rw [hres] at hok; simp at hok
  | done tid1 a1 target htid1 _ _ _ hfind _ _ hres =>
    rw [htid] at htid1
    have e1 : tid = tid1 := Option.some.inj htid1
    subst e1
    have hkey := findByPk_id hfind
    rw [hres]
    show List.Forall₂ _ s.treatments (s.treatments.map _)
    rw [List.forall₂_map_right_iff, List.forall₂_same]
    intro x _
    by_cases hid : x.id = target.id
    · rw [if_pos hid]
      refine ⟨rfl, rfl, rfl, rfl, rfl, rfl, rfl, fun hne => ?_⟩
      rw [hid, hkey] at hne
      exact absurd rfl hne
    · rw [if_neg hid]
      exact ⟨rfl, rfl, rfl, rfl, rfl, rfl, rfl, fun _ => rfl⟩

/-- C18 at a donation of 40 to `knee` in a store that also holds `hip`. -/
theorem donate_keeps_other_columns_witness :
    (donate wardStore donor7 (give 1 40) calm).2.status = 201 ∧
    List.Forall₂
      (fun t t1 : Treatment =>
        t1.id = t.id ∧ t1.patient_id = t.patient_id ∧ t1.title = t.title ∧
        t1.description = t.description ∧ t1.category = t.category ∧
        t1.goal_amount = t.goal_amount ∧ t1.consent_given = t.consent_given ∧
        (t.id ≠ 1 → t1 = t))
      wardStore.treatments (donate wardStore donor7 (give 1 40) calm).1.treatments :=
  ⟨by decide!, donate_keeps_other_columns wardStore donor7 (give 1 40) calm 1 rfl
    (by decide!)⟩

/-- A run of `donate` calls to one treatment that all answer 201 credits the amounts in
turn. -/
theorem runDonates_accepted (calls : List DonateCall) (s : Store) (tid : Int)
    (t : Treatment)
    (hfind : Treatment.findByPk s tid = some t)
    (htarget : ∀ c ∈ calls, c.body.treatment_id = some tid)
    (hok : ∀ r ∈ donateResponses s calls, r.status = 201) :
    ∃ t1, Treatment.findByPk (runDonates s calls) tid = some t1 ∧
      t1.funded_amount =
        (calls.filterMap (fun c => c.body.amount)).foldl
          (fun sum amount => JsNumber.ofRat (sum.val + amount.val)) t.funded_amount := by
  induction calls generalizing s t with
  | nil => exact ⟨t, hfind, rfl⟩
  | cons c cs ih =>
    have hhead : (donate s c.user c.body c.env).2.status = 201 :=
      hok _ (by simp [donateResponses])
    have htail : ∀ r ∈ donateResponses (donate s c.user c.body c.env).1 cs, r.status = 201 :=
      fun r hr => hok r (by simp [donateResponses, hr])
    have hc := htarget c (List.mem_cons_self _ _)
    cases donate_path s c.user c.body c.env with
    | invalid _ hres => rw [hres] at hhead; simp at hhead
    | missing tid1 a1 _ _ _ _ _ hres => rw [hres] at hhead; simp at hhead
    | insertFailed tid1 a1 t1 _ _ _ _ _ _ hres => rw [hres] at hhead; simp at hhead
    | saveFailed tid1 a1 t1 _ _ _ _ _ _ _ hres => rw [hres] at hhead; simp at hhead
    | done tid1 a1 t1 htid1 hamt1 _ _ hfind1 _ _ hres =>
      rw [hc] at htid1
      have e1 : tid = tid1 := Option.some.inj htid1
      subst e1
      rw [hfind] at hfind1
      have e2 : t = t1 := Option.some.inj hfind1
      subst e2
      have hnext : Treatment.findByPk (donate s c.user c.body c.env).1 tid
          = some (credited t a1) := by
        rw [hres]
        exact findByPk_done s c.env.now c.user.id tid a1 c.body.receipt_url t hfind
      obtain ⟨t2, h2, h3⟩ := ih (donate s c.user c.body c.env).1 (credited t a1) hnext
        (fun x hx => htarget x (List.mem_cons_of_mem _ hx)) htail
      refine ⟨t2, by simpa only [runDonates] using h2, ?_⟩
      rw [h3]
      simp only [List.filterMap_cons, hamt1, List.foldl_cons, credited]
      rfl

/-- The answer of the report for an existing treatment. -/
theorem report_of_found (s : Store) (id : Int) (t : Treatment)
    (hfind : Treatment.findByPk s id = some t) :
    (getTransparencyReport s id).2 =
      ⟨200, [("treatment", Json.summary
               { id := t.id, title := t.title, goal_amount := t.goal_amount,
                 funded_amount := t.funded_amount }),
             ("donations", Json.entries ((donationsOf s id).map (reportEntry s)))]⟩ := by
  have hid := findByPk_id hfind
  simp [getTransparencyReport, hfind, donationsOf, hid]

/-- C19, the claim as stated fails: two `donate` requests of 40 and 30 to the same
treatment (funded_amount 0) whose stretches alternate both read funded_amount 0, both
insert their Donation row, and both save; both answer 201, the rows sum to 70, and the
final funded_amount is 30. -/
theorem lost_update_when_interleaved :
    (Treatment.findByPk kneeStore 1).map (fun t => t.funded_amount) = some 0 ∧
    answers (interleave kneeStore
      [DonateTask.pending donor7 (give 1 40) calm, DonateTask.pending donor7 (give 1 30) calm]
      [0, 1, 0, 1, 0, 1]).2 = [some 201, some 201] ∧
    donatedTotal (interleave kneeStore
      [DonateTask.pending donor7 (give 1 40) calm, DonateTask.pending donor7 (give 1 30) calm]
      [0, 1, 0, 1, 0, 1]).1 1 = 70 ∧
    (Treatment.findByPk (interleave kneeStore
      [DonateTask.pending donor7 (give 1 40) calm, DonateTask.pending donor7 (give 1 30) calm]
      [0, 1, 0, 1, 0, 1]).1 1).map (fun t => t.funded_amount) = some 30 ∧
    (30 : JsNumber) ≠ 0 + (40 + 30) := by
  decide!

/-- C19 (amended): for N successful `donate` calls against the same treatment that are
handled one after another (no call starts before the previous one has answered), the
final funded_amount is the initial funded_amount with the N donation amounts added in
turn by JavaScript `+`, each partial sum rounded to the nearest double. -/
theorem sequential_donations_add_up (calls : List DonateCall) (s : Store) (tid : Int)
    (t : Treatment)
    (hfind : Treatment.findByPk s tid = some t)
    (htarget : ∀ c ∈ calls, c.body.treatment_id = some tid)
    (hok : ∀ r ∈ donateResponses s calls, r.status = 201) :
    ∃ t1, Treatment.findByPk (runDonates s calls) tid = some t1 ∧
      t1.funded_amount =
        (calls.filterMap (fun c => c.body.amount)).foldl
          (fun sum amount => JsNumber.ofRat (sum.val + amount.val)) t.funded_amount :=
  runDonates_accepted calls s tid t hfind htarget hok

/-- C19 (amended) at donations of 0.1 and 0.7 to `knee`, one after the other: the final
funded_amount is 0.7999999999999999. -/
theorem sequential_donations_add_up_witness :
    Treatment.findByPk kneeStore 1 = some knee ∧
    (∃ t1, Treatment.findByPk (runDonates kneeStore
        [⟨donor7, give 1 (JsNumber.ofRat (1 / 10)), calm⟩,
         ⟨donor7, give 1 (JsNumber.ofRat (7 / 10)), calm⟩]) 1 = some t1 ∧
      t1.funded_amount =
        (([⟨donor7, give 1 (JsNumber.ofRat (1 / 10)), calm⟩,
           ⟨donor7, give 1 (JsNumber.ofRat (7 / 10)), calm⟩] : List DonateCall).filterMap
            (fun c => c.body.amount)).foldl
          (fun sum amount => JsNumber.ofRat (sum.val + amount.val)) knee.funded_amount) ∧
    (([JsNumber.ofRat (1 / 10), JsNumber.ofRat (7 / 10)] : List JsNumber).foldl
      (fun sum amount => JsNumber.ofRat (sum.val + amount.val)) knee.funded_amount).val =
        7205759403792793 / 9007199254740992 :=
  ⟨by decide!, sequential_donations_add_up
    [⟨donor7, give 1 (JsNumber.ofRat (1 / 10)), calm⟩,
     ⟨donor7, give 1 (JsNumber.ofRat (7 / 10)), calm⟩] kneeStore 1 knee (by decide!)
    (by decide) (by decide!), by decide!⟩

/-- C20, the claim as stated fails: donations of the two-decimal amounts 0.10 and 0.70
to a new treatment of goal 0.80 both succeed, and the resulting funded_amount, which the
report emits, is 0.7999999999999999: it is less than the exact decimal sum 0.80 and than
the number 0.8 that the goal is, and the status is still active. -/
theorem two_decimal_amounts_drift :
    (createTreatment emptyStore patient3 (kneeBody (JsNumber.ofRat (80 / 100))) calm).2.status
      = 201 ∧
    (donateResponses
      (createTreatment emptyStore patient3 (kneeBody (JsNumber.ofRat (80 / 100))) calm).1
      [⟨donor7, give 1 (JsNumber.ofRat (10 / 100)), calm⟩,
       ⟨donor7, give 1 (JsNumber.ofRat (70 / 100)), calm⟩]).map (fun r => r.status)
        = [201, 201] ∧
    (∃ t, Treatment.findByPk (runDonates
        (createTreatment emptyStore patient3 (kneeBody (JsNumber.ofRat (80 / 100))) calm).1
        [⟨donor7, give 1 (JsNumber.ofRat (10 / 100)), calm⟩,
         ⟨donor7, give 1 (JsNumber.ofRat (70 / 100)), calm⟩]) 1 = some t ∧
      t.funded_amount.val = 7205759403792793 / 9007199254740992 ∧
      t.funded_amount.val < 10 / 100 + 70 / 100 ∧
      t.funded_amount < JsNumber.ofRat (10 / 100 + 70 / 100) ∧
      t.goal_amount = JsNumber.ofRat (80 / 100) ∧
      t.status = Status.active ∧
      (getTransparencyReport (runDonates
        (createTreatment emptyStore patient3 (kneeBody (JsNumber.ofRat (80 / 100))) calm).1
        [⟨donor7, give 1 (JsNumber.ofRat (10 / 100)), calm⟩,
         ⟨donor7, give 1 (JsNumber.ofRat (70 / 100)), calm⟩]) 1).2.body.lookup "treatment" =
        some (Json.summary
          { id := 1, title := "Knee Surgery", goal_amount := t.goal_amount,
            funded_amount := t.funded_amount })) :=
  ⟨by decide!, by decide!,
    { knee with goal_amount := JsNumber.ofRat (80 / 100),
                funded_amount := JsNumber.ofRat (10 / 100) + JsNumber.ofRat (70 / 100) },
    by decide!, by decide!, by decide!, by decide!, by decide!, by decide!, by decide!⟩

/-- C20 (amended): `donate` adds amounts as IEEE-754 doubles, and the sum is exact for
whole-number amounts: for every sequence of successful `donate` calls of whole-number
amounts to a treatment whose funded_amount is a whole number, the total being at most
2^53, the resulting funded_amount equals the exact sum; and `getTransparencyReport`
emits the goal_amount and funded_amount of the treatment and the amount of each of its
Donation rows as the store holds them. -/
theorem whole_amounts_add_exactly (calls : List DonateCall) (s : Store) (tid : Int)
    (t : Treatment) (k : ℕ) (ns : List ℕ)
    (hfind : Treatment.findByPk s tid = some t)
    (htarget : ∀ c ∈ calls, c.body.treatment_id = some tid)
    (hok : ∀ r ∈ donateResponses s calls, r.status = 201)
    (hstart : t.funded_amount.val = k)
    (hamounts : calls.filterMap (fun c => c.body.amount) =
      ns.map (fun n : ℕ => JsNumber.ofRat (n : ℚ)))
    (hbound : k + ns.sum ≤ 2 ^ 53) :
    ∃ t1, Treatment.findByPk (runDonates s calls) tid = some t1 ∧
      t1.funded_amount.val = ((k + ns.sum : ℕ) : ℚ) ∧
      ∃ l, (getTransparencyReport (runDonates s calls) tid).2 =
          ⟨200, [("treatment", Json.summary
                   { id := t1.id, title := t1.title, goal_amount := t1.goal_amount,
                     funded_amount := t1.funded_amount }),
                 ("donations", Json.entries l)]⟩ ∧
        l.map (fun e => e.amount) =
          (donationsOf (runDonates s calls) tid).map (fun d => d.amount) := by
  obtain ⟨t1, h1, h2⟩ := runDonates_accepted calls s tid t hfind htarget hok
  refine ⟨t1, h1, ?_, _, report_of_found _ tid t1 h1, ?_⟩
  · rw [h2, hamounts]
    exact JsNumber.foldl_add_whole ns t.funded_amount k hstart hbound
  · rw [List.map_map]
    rfl

/-- C20 (amended) at donations of 40 and 30 to `knee`: the funded_amount is 70. -/
theorem whole_amounts_add_exactly_witness :
    Treatment.findByPk kneeStore 1 = some knee ∧
    ∃ t1, Treatment.findByPk (runDonates kneeStore
        [⟨donor7, give 1 40, calm⟩, ⟨donor7, give 1 30, calm⟩]) 1 = some t1 ∧
      t1.funded_amount.val = ((0 + [40, 30].sum : ℕ) : ℚ) ∧
      ∃ l, (getTransparencyReport (runDonates kneeStore
            [⟨donor7, give 1 40, calm⟩, ⟨donor7, give 1 30, calm⟩]) 1).2 =
          ⟨200, [("treatment", Json.summary
                   { id := t1.id, title := t1.title, goal_amount := t1.goal_amount,
                     funded_amount := t1.funded_amount }),
                 ("donations", Json.entries l)]⟩ ∧
        l.map (fun e => e.amount) =
          (donationsOf (runDonates kneeStore
            [⟨donor7, give 1 40, calm⟩, ⟨donor7, give 1 30, calm⟩]) 1).map
              (fun d => d.amount) :=
  ⟨by decide!, whole_amounts_add_exactly
    [⟨donor7, give 1 40, calm⟩, ⟨donor7, give 1 30, calm⟩] kneeStore 1 knee 0 [40, 30]
    (by decide!) (by decide) (by decide!) (by decide!) (by decide!) (by norm_num)⟩

/-! ## The consultation handlers -/

theorem findConsultation_id {s : Clinic} {k : Int} {c : Consultation}
    (h : Consultation.findByPk s k = some c) : c.id = k := by
  have := List.find?_some h
  simpa using this

/-- Reading a consultation back after `consultation.save()` wrote a status. -/
theorem findConsultation_saved (s s1 : Clinic) (id : Int) (c : Consultation)
    (v : String) (hfind : Consultation.findByPk s id = some c)
    (hsave : Consultation.save s c.id (Field.value v) = some s1) :
    Consultation.findByPk s1 id = some { c with status := some v } := by
  have hmap : s1.consultations = s.consultations.map (fun x =>
      if x.id = c.id then { x with status := some v } else x) := by
    unfold Consultation.save at hsave
    by_cases hw : v ∈ consultationStatuses
    · simp only [hw, if_true, Option.some.injEq] at hsave
      rw [← hsave]
    · simp [hw] at hsave
  have hp : ((fun x : Consultation => x.id == id) ∘ fun x : Consultation =>
      if x.id = c.id then { x with status := some v } else x)
      = fun x : Consultation => x.id == id := by
    funext x
    simp only [Function.comp]
    split <;> rfl
  unfold Consultation.findByPk at hfind ⊢
  rw [hmap, List.find?_map, hp, hfind]
  simp

/-- What the two ownership guards of `updateConsultationStatus` do: a doctor or a patient
who is not the consultation's doctor, respectively patient, is answered 403 and nothing
is written. -/
theorem update_not_yours (s : Clinic) (user : User) (id : Int) (c : Consultation)
    (status : Field String) (env : Env)
    (hfind : Consultation.findByPk s id = some c)
    (hrole : (user.role = "doctor" ∧ c.doctor_id ≠ user.id) ∨
      (user.role = "patient" ∧ c.patient_id ≠ user.id)) :
    updateConsultationStatus s user id status env =
      (s, ⟨403, [("error", Json.str "Not your consultation")]⟩) := by
  unfold updateConsultationStatus
  rw [hfind]
  rcases hrole with ⟨h1, h2⟩ | ⟨h1, h2⟩
  · simp [h1, h2]
  · simp [h1, h2]

/-! ## The medication handler -/

theorem findMedication_id {s : Pharmacy} {k : Int} {m : Medication}
    (h : Medication.findByPk s k = some m) : m.id = k := by
  have := List.find?_some h
  simpa using this

theorem findRequest_id {s : Pharmacy} {k : Int} {r : MedicationRequest}
    (h : MedicationRequest.findByPk s k = some r) : r.id = k := by
  have := List.find?_some h
  simpa using this

/-- Reading a medication after `medication.save()`. -/
theorem findMedication_save (s : Pharmacy) (id : Int) (q : Int) (k : Int) :
    Medication.findByPk (Medication.save s id q) k =
      (Medication.findByPk s k).map (fun m =>
        if m.id = id then { m with quantity := q } else m) := by
  unfold Medication.findByPk Medication.save
  simp only [List.find?_map]
  congr 1
  have hp : ((fun m : Medication => m.id == k) ∘ fun m : Medication =>
      if m.id = id then { m with quantity := q } else m)
      = fun m : Medication => m.id == k := by
    funext m
    simp only [Function.comp]
    split <;> rfl
  rw [hp]

/-- Reading a request after `request.save()`. -/
theorem findRequest_save (s : Pharmacy) (id : Int) (st : String) (k : Int) :
    MedicationRequest.findByPk (MedicationRequest.save s id st) k =
      (MedicationRequest.findByPk s k).map (fun r =>
        if r.id = id then { r with status := st } else r) := by
  unfold MedicationRequest.findByPk MedicationRequest.save
  simp only [List.find?_map]
  congr 1
  have hp : ((fun r : MedicationRequest => r.id == k) ∘ fun r : MedicationRequest =>
      if r.id = id then { r with status := st } else r)
      = fun r : MedicationRequest => r.id == k := by
    funext r
    simp only [Function.comp]
    split <;> rfl
  rw [hp]

/-- A `fulfillRequest` by an NGO or admin for an existing request whose medication is in
stock, both updates accepted. -/
theorem fulfil_done (s : Pharmacy) (user : User) (id : Int) (env : FulfillEnv)
    (request : MedicationRequest) (medication : Medication)
    (hrole : user.role = "ngo" ∨ user.role = "admin")
    (hreq : MedicationRequest.findByPk s id = some request)
    (hmed : Medication.findByPk s request.medication_id = some medication)
    (hstock : 0 < medication.quantity)
    (h1 : env.medicationSaveFails = false) (h2 : env.requestSaveFails = false) :
    fulfillRequest s user id env =
      (MedicationRequest.save (Medication.save s medication.id (medication.quantity - 1))
          request.id "fulfilled",
        ⟨200, [("message", Json.str "Request fulfilled successfully")]⟩) := by
  have hguard : ¬ (user.role ≠ "ngo" ∧ user.role ≠ "admin") := by
    rcases hrole with h | h <;> simp [h]
  have hq : ¬ medication.quantity ≤ 0 := not_le.mpr hstock
  unfold fulfillRequest
  rw [if_neg hguard, hreq]
  simp only [hmed, hq, h1, h2, if_false]
  rfl

/-- The reads after a completed `fulfillRequest`. -/
theorem fulfil_done_reads (s : Pharmacy) (id : Int)
    (request : MedicationRequest) (medication : Medication)
    (hreq : MedicationRequest.findByPk s id = some request)
    (hmed : Medication.findByPk s request.medication_id = some medication) :
    Medication.findByPk
        (MedicationRequest.save (Medication.save s medication.id (medication.quantity - 1))
          request.id "fulfilled") request.medication_id
      = some { medication with quantity := medication.quantity - 1 } ∧
    (∀ k, k ≠ request.medication_id →
      Medication.findByPk
        (MedicationRequest.save (Medication.save s medication.id (medication.quantity - 1))
          request.id "fulfilled") k = Medication.findByPk s k) ∧
    MedicationRequest.findByPk
        (MedicationRequest.save (Medication.save s medication.id (medication.quantity - 1))
          request.id "fulfilled") id
      = some { request with status := "fulfilled" } := by
  have hmid := findMedication_id hmed
  refine ⟨?_, ?_, ?_⟩
  · show Medication.findByPk (Medication.save s medication.id (medication.quantity - 1))
      request.medication_id = _
    rw [findMedication_save, hmed]
    simp
  · intro k hk
    show Medication.findByPk (Medication.save s medication.id (medication.quantity - 1)) k = _
    rw [findMedication_save]
    cases h : Medication.findByPk s k with
    | none => rfl
    | some m0 =>
      have h0 := findMedication_id h
      have : m0.id ≠ medication.id := by rw [h0, hmid]; exact hk
      simp [this]
  · rw [findRequest_save]
    show (MedicationRequest.findByPk s id).map _ = _
    rw [hreq]
    simp

/-! ## The account handlers -/

/-- The answer of `register` does not depend on the password, as long as it is a string
that is not empty. -/
theorem register_answer_ignores_password (lib : Library) (s : Accounts)
    (body : RegisterBody) (env : Env) (p q : String) (hp : p ≠ "") (hq : q ≠ "") :
    (register lib s { body with password := Password.text p } env).2 =
      (register lib s { body with password := Password.text q } env).2 := by
  obtain ⟨oname, oemail, ophone, opw, orole, olang⟩ := body
  cases oname with
  | none => simp [register, truthyStr]
  | some name =>
    cases oemail with
    | none => simp [register, truthyStr]
    | some email =>
      by_cases h1 : name = ""
      · simp [register, truthyStr, h1]
      by_cases h2 : email = ""
      · simp [register, truthyStr, h2]
      cases hfind : User.findOne s email with
      | some u => simp [register, truthyStr, truthyPassword, h1, h2, hp, hq, hfind]
      | none =>
        cases hc : env.createFails with
        | true => simp [register, truthyStr, truthyPassword, h1, h2, hp, hq, hfind, hc]
        | false =>
          cases hr : orole.withDefault "patient" with
          | none =>
            simp [register, truthyStr, truthyPassword, h1, h2, hp, hq, hfind, hc,
              User.create, hr]
          | some role =>
            cases hl : olang.withDefault "ar" with
            | none =>
              simp [register, truthyStr, truthyPassword, h1, h2, hp, hq, hfind, hc,
                User.create, hr, hl]
            | some language =>
              by_cases hv : lib.isEmail email = true ∧ role ∈ userRoles ∧
                  language ∈ userLanguages
              · simp [register, truthyStr, truthyPassword, h1, h2, hp, hq, hfind, hc,
                  User.create, hr, hl, hv, accountView]
              · simp [register, truthyStr, truthyPassword, h1, h2, hp, hq, hfind, hc,
                  User.create, hr, hl, hv]

/-- A successful `register` answers the message, the account view of the new user and
the token signed for its id and role. -/
theorem register_answer (lib : Library) (s : Accounts) (body : RegisterBody) (env : Env)
    (hok : (register lib s body env).2.status = 201) :
    ∃ u, (register lib s body env).1.users = s.users ++ [u] ∧
      (register lib s body env).2.body =
        [("message", Json.str "User registered successfully"),
         ("user", Json.account (accountView u)),
         ("token", Json.str (lib.sign u.id u.role))] := by
  obtain ⟨oname, oemail, ophone, opw, orole, olang⟩ := body
  cases oname with
  | none => simp [register, truthyStr] at hok
  | some name =>
    cases oemail with
    | none => simp [register, truthyStr] at hok
    | some email =>
      by_cases h1 : name = ""
      · simp [register, truthyStr, h1] at hok
      by_cases h2 : email = ""
      · simp [register, truthyStr, h2] at hok
      cases hfind : User.findOne s email with
      | some u =>
        cases opw with
        | absent => simp [register, truthyStr, truthyPassword, h1, h2, hfind] at hok
        | null => simp [register, truthyStr, truthyPassword, h1, h2, hfind] at hok
        | other truthy =>
          cases truthy <;> simp [register, truthyStr, truthyPassword, h1, h2, hfind] at hok
        | text pw =>
          by_cases h3 : pw = "" <;>
            simp [register, truthyStr, truthyPassword, h1, h2, h3, hfind] at hok
      | none =>
        cases opw with
        | absent => simp [register, truthyStr, truthyPassword, h1, h2, hfind] at hok
        | null => simp [register, truthyStr, truthyPassword, h1, h2, hfind] at hok
        | other truthy =>
          cases truthy <;> simp [register, truthyStr, truthyPassword, h1, h2, hfind] at hok
        | text pw =>
          by_cases h3 : pw = ""
          · simp [register, truthyStr, truthyPassword, h1, h2, h3, hfind] at hok
          cases hc : env.createFails with
          | true => simp [register, truthyStr, truthyPassword, h1, h2, h3, hfind, hc] at hok
          | false =>
            cases hr : orole.withDefault "patient" with
            | none =>
              simp [register, truthyStr, truthyPassword, h1, h2, h3, hfind, hc,
                User.create, hr] at hok
            | some role =>
              cases hl : olang.withDefault "ar" with
              | none =>
                simp [register, truthyStr, truthyPassword, h1, h2, h3, hfind, hc,
                  User.create, hr, hl] at hok
              | some language =>
                by_cases hv : lib.isEmail email = true ∧ role ∈ userRoles ∧
                    language ∈ userLanguages
                · refine ⟨(⟨s.nextUserId, name, email, ophone, lib.hash pw,
                    role, language, false⟩ : User), ?_, ?_⟩
                  · simp [register, truthyStr, truthyPassword, h1, h2, h3, hfind, hc,
                      User.create, hr, hl, hv]
                  · simp [register, truthyStr, truthyPassword, h1, h2, h3, hfind, hc,
                      User.create, hr, hl, hv]
                · simp [register, truthyStr, truthyPassword, h1, h2, h3, hfind, hc,
                    User.create, hr, hl, hv] at hok

/-! ## The claims, concluded -/

/-- C21, the code at the failing input: a caller with role donor who is neither the
patient (3) nor the doctor (2) of consultation 1 sets its status to cancelled and is
answered 200, where the claim demands 403 and an unchanged status. -/
theorem outsider_updates_consultation :
    Consultation.findByPk clinic 1 = some visit ∧
    donor7.role = "donor" ∧ donor7.id ≠ visit.patient_id ∧ donor7.id ≠ visit.doctor_id ∧
    updateConsultationStatus clinic donor7 1 (Field.value "cancelled") calm =
      ({ clinic with consultations := [{ visit with status := some "cancelled" }] },
        ⟨200, [("message", Json.str "Consultation updated"),
               ("consultation",
                 Json.consultation { visit with status := some "cancelled" })]⟩) := by
  decide!

/-- C22: for every consultation and every caller with role patient who is that
consultation's patient, `updateConsultationStatus` answers 400 and changes nothing for
every new status other than cancelled (an absent one included), and for cancelled it
writes the status and answers 200 when the store accepts the write; a caller with role
doctor who is that consultation's doctor sets any of scheduled, completed and cancelled
the same way. -/
theorem patient_cancels_doctor_sets_any (s : Clinic) (user : User) (id : Int)
    (c : Consultation) (status : Field String) (env : Env)
    (hfind : Consultation.findByPk s id = some c) :
    (user.role = "patient" → c.patient_id = user.id → status ≠ Field.value "cancelled" →
      updateConsultationStatus s user id status env =
        (s, ⟨400, [("error", Json.str "Patients can only cancel consultations")]⟩)) ∧
    (user.role = "patient" → c.patient_id = user.id → status = Field.value "cancelled" →
      env.saveFails = false →
      (updateConsultationStatus s user id status env).2.status = 200 ∧
      Consultation.findByPk (updateConsultationStatus s user id status env).1 id =
        some { c with status := some "cancelled" }) ∧
    (user.role = "doctor" → c.doctor_id = user.id →
      ∀ v ∈ consultationStatuses, status = Field.value v → env.saveFails = false →
      (updateConsultationStatus s user id status env).2.status = 200 ∧
      Consultation.findByPk (updateConsultationStatus s user id status env).1 id =
        some { c with status := some v }) := by
  have hwrite : ∀ v ∈ consultationStatuses,
      Consultation.save s c.id (Field.value v) =
        some { s with consultations := s.consultations.map (fun x =>
          if x.id = c.id then { x with status := some v } else x) } := by
    intro v hv
    simp [Consultation.save, hv]
  refine ⟨?_, ?_, ?_⟩
  · intro hrole hown hst
    unfold updateConsultationStatus
    rw [hfind]
    simp [hrole, hown, hst]
  · intro hrole hown hst hsave
    subst hst
    have hw := hwrite "cancelled" (by decide)
    have hres : updateConsultationStatus s user id (Field.value "cancelled") env =
        ({ s with consultations := s.consultations.map (fun x =>
            if x.id = c.id then { x with status := some "cancelled" } else x) },
          ⟨200, [("message", Json.str "Consultation updated"),
                 ("consultation",
                   Json.consultation { c with status := some "cancelled" })]⟩) := by
      unfold updateConsultationStatus
      rw [hfind]
      simp [hrole, hown, hsave, hw, Field.assigned]
    rw [hres]
    exact ⟨rfl, findConsultation_saved s _ id c "cancelled" hfind hw⟩
  · intro hrole hown v hv hst hsave
    subst hst
    have hw := hwrite v hv
    have hres : updateConsultationStatus s user id (Field.value v) env =
        ({ s with consultations := s.consultations.map (fun x =>
            if x.id = c.id then { x with status := some v } else x) },
          ⟨200, [("message", Json.str "Consultation updated"),
                 ("consultation", Json.consultation { c with status := some v })]⟩) := by
      unfold updateConsultationStatus
      rw [hfind]
      simp [hrole, hown, hsave, hw, Field.assigned]
    rw [hres]
    exact ⟨rfl, findConsultation_saved s _ id c v hfind hw⟩

/-- C22 at consultation 1: its patient is refused `completed` and its doctor sets it. -/
theorem patient_cancels_doctor_sets_any_witness :
    Consultation.findByPk clinic 1 = some visit ∧
    updateConsultationStatus clinic patient3 1 (Field.value "completed") calm =
      (clinic, ⟨400, [("error", Json.str "Patients can only cancel consultations")]⟩) ∧
    (updateConsultationStatus clinic doctor2 1 (Field.value "completed") calm).2.status
      = 200 ∧
    Consultation.findByPk
        (updateConsultationStatus clinic doctor2 1 (Field.value "completed") calm).1 1
      = some { visit with status := some "completed" } :=
  ⟨by decide!,
    (patient_cancels_doctor_sets_any clinic patient3 1 visit (Field.value "completed") calm
      (by decide!)).1 rfl rfl (by decide),
    (patient_cancels_doctor_sets_any clinic doctor2 1 visit (Field.value "completed") calm
      (by decide!)).2.2 rfl rfl "completed" (by decide) rfl rfl⟩

/-- C23: for every successful `bookConsultation` call, the doctor of the request exists
and one consultation is created and returned; its needs_translation is true if and only
if the caller's language differs from the doctor's language, its patient_id is the
caller's id, its doctor_id is the requested one, and its mode is video when the request
has no `mode` key, the requested mode when it has one, and NULL when the request sends
`mode: null`. -/
theorem booked_consultation (s : Clinic) (user : User) (body : BookBody) (env : Env)
    (hok : (bookConsultation s user body env).2.status = 201) :
    ∃ c doctor doctor_id,
      body.doctor_id = some doctor_id ∧ s.findUser (some doctor_id) = some doctor ∧
      (bookConsultation s user body env).1 =
        { s with consultations := s.consultations ++ [c],
                 nextConsultationId := s.nextConsultationId + 1 } ∧
      (bookConsultation s user body env).2.body =
        [("message", Json.str "Consultation booked successfully"),
         ("consultation", Json.consultation c)] ∧
      (c.needs_translation = true ↔ user.language ≠ doctor.language) ∧
      c.patient_id = user.id ∧ c.doctor_id = doctor_id ∧
      (body.mode = Field.absent → c.mode = some "video") ∧
      (∀ m, body.mode = Field.value m → c.mode = some m) ∧
      (body.mode = Field.null → c.mode = none) := by
  obtain ⟨odoc, otime, omode⟩ := body
  cases odoc with
  | none => simp [bookConsultation, Clinic.findUser] at hok
  | some did =>
    cases hdoc : s.findUser (some did) with
    | none => simp [bookConsultation, hdoc] at hok
    | some doctor =>
      by_cases hrole : doctor.role = "doctor"
      · cases hc : env.createFails with
        | true => simp [bookConsultation, hdoc, hrole, hc] at hok
        | false =>
          cases otime with
          | none => simp [bookConsultation, hdoc, hrole, hc, Consultation.create] at hok
          | some time =>
            by_cases hmode : (omode.withDefault "video").all
                (fun m => decide (m ∈ consultationModes)) = true
            · have hres : bookConsultation s user ⟨some did, some time, omode⟩ env =
                  ({ s with
                      consultations := s.consultations ++
                        [{ id := s.nextConsultationId, patient_id := user.id,
                           doctor_id := did, scheduled_at := time,
                           mode := omode.withDefault "video", status := some "scheduled",
                           needs_translation := decide (user.language ≠ doctor.language),
                           transcript := none }],
                      nextConsultationId := s.nextConsultationId + 1 },
                    ⟨201, [("message", Json.str "Consultation booked successfully"),
                           ("consultation", Json.consultation
                             { id := s.nextConsultationId, patient_id := user.id,
                               doctor_id := did, scheduled_at := time,
                               mode := omode.withDefault "video",
                               status := some "scheduled",
                               needs_translation :=
                                 decide (user.language ≠ doctor.language),
                               transcript := none })]⟩) := by
                simp only [bookConsultation, hdoc, hrole, hc, Consultation.create, hmode]
                simp
              rw [hres]
              refine ⟨_, doctor, did, rfl, hdoc, rfl, rfl, by simp, rfl, rfl, ?_, ?_, ?_⟩
              · intro h
                simp only at h
                rw [h]
                rfl
              · intro m h
                simp only at h
                rw [h]
                rfl
              · intro h
                simp only at h
                rw [h]
                rfl
            · simp [bookConsultation, hdoc, hrole, hc, Consultation.create, hmode] at hok
      · simp [bookConsultation, hdoc, hrole] at hok

/-- C23 at a booking of patient 3 (Arabic) with doctor 2 (English), no mode given; the
same booking with `mode: null` is stored with no mode. -/
theorem booked_consultation_witness :
    (bookConsultation clinic patient3 (bookWith 2) calm).2.status = 201 ∧
    (∃ c doctor doctor_id,
      (bookWith 2).doctor_id = some doctor_id ∧
      clinic.findUser (some doctor_id) = some doctor ∧
      (bookConsultation clinic patient3 (bookWith 2) calm).1 =
        { clinic with consultations := clinic.consultations ++ [c],
                      nextConsultationId := clinic.nextConsultationId + 1 } ∧
      (bookConsultation clinic patient3 (bookWith 2) calm).2.body =
        [("message", Json.str "Consultation booked successfully"),
         ("consultation", Json.consultation c)] ∧
      (c.needs_translation = true ↔ patient3.language ≠ doctor.language) ∧
      c.patient_id = patient3.id ∧ c.doctor_id = doctor_id ∧
      ((bookWith 2).mode = Field.absent → c.mode = some "video") ∧
      (∀ m, (bookWith 2).mode = Field.value m → c.mode = some m) ∧
      ((bookWith 2).mode = Field.null → c.mode = none)) ∧
    (bookConsultation clinic patient3 { bookWith 2 with mode := Field.null } calm).1.consultations
      = [visit,
         { id := 2, patient_id := 3, doctor_id := 2, scheduled_at := "2025-12-01T09:00:00Z",
           mode := none, status := some "scheduled", needs_translation := true,
           transcript := none }] :=
  ⟨by decide!, booked_consultation clinic patient3 (bookWith 2) calm (by decide!),
    by decide!⟩

/-- C24, the code at the failing input: a booking whose doctor_id references user 5, a
doctor with verified = false, is answered 201 and the consultation is created, where the
claim demands 400 and no consultation. -/
theorem unverified_doctor_is_booked :
    clinic.findUser (some 5) = some doctor5 ∧ doctor5.role = "doctor" ∧
    doctor5.verified = false ∧
    bookConsultation clinic patient3 (bookWith 5) calm =
      ({ clinic with
          consultations := [visit,
            { id := 2, patient_id := 3, doctor_id := 5,
              scheduled_at := "2025-12-01T09:00:00Z", mode := some "video",
              status := some "scheduled", needs_translation := false,
              transcript := none }],
          nextConsultationId := 3 },
        ⟨201, [("message", Json.str "Consultation booked successfully"),
               ("consultation", Json.consultation
                 { id := 2, patient_id := 3, doctor_id := 5,
                   scheduled_at := "2025-12-01T09:00:00Z", mode := some "video",
                   status := some "scheduled", needs_translation := false,
                   transcript := none })]⟩) := by
  decide!

/-- What the guard of `bookConsultation` rejects: a doctor_id that is absent or
references no user, or a user whose role is not doctor, is answered 400 and nothing is
created. -/
theorem booking_needs_a_doctor (s : Clinic) (user : User) (body : BookBody) (env : Env)
    (hno : ∀ doctor, s.findUser body.doctor_id = some doctor → doctor.role ≠ "doctor") :
    bookConsultation s user body env =
      (s, ⟨400, [("error", Json.str "Valid doctor ID required")]⟩) := by
  obtain ⟨odoc, otime, omode⟩ := body
  cases odoc with
  | none => simp [bookConsultation, Clinic.findUser]
  | some did =>
    cases hdoc : s.findUser (some did) with
    | none => simp [bookConsultation, hdoc]
    | some doctor =>
      have := hno doctor hdoc
      simp [bookConsultation, hdoc, this]

/-- C25, the claim as stated fails: a doctor who is neither the user (3) nor the
assigned counselor (8) of chat 1 is answered 200 with the chat's messages. -/
theorem any_doctor_reads_chat :
    TherapyChat.findByPk chatRoom 1 = some chat1 ∧
    chat1.user_id ≠ doctor9.id ∧ chat1.counselor_id ≠ some doctor9.id ∧
    getChatTranscript chatRoom doctor9 1 =
      (chatRoom,
        ⟨200, [("chat", Json.chat chat1),
               ("messages", Json.messages
                 [{ id := 11, content := "Hello", sender_role := "user", created_at := 5 },
                  { id := 12, content := "How are you?", sender_role := "counselor",
                    created_at := 9 }])]⟩) := by
  decide!

/-- C25 (amended): for every existing therapy chat and every authenticated caller who is
neither the chat's user nor of role doctor, `getChatTranscript` answers 403 with the
error alone (no messages); for every other caller (the chat's user, or any doctor,
assigned counselor or not) it answers 200 with the chat and with messages that are
exactly the chat's message rows, each reduced to id, content, sender_role and created_at,
oldest first. -/
theorem transcript_access (s : ChatRoom) (user : User) (id : Int) (chat : TherapyChat)
    (hfind : TherapyChat.findByPk s id = some chat) :
    (chat.user_id ≠ user.id → user.role ≠ "doctor" →
      getChatTranscript s user id = (s, ⟨403, [("error", Json.str "Not authorized")]⟩)) ∧
    (chat.user_id = user.id ∨ user.role = "doctor" →
      ∃ l, getChatTranscript s user id =
          (s, ⟨200, [("chat", Json.chat chat), ("messages", Json.messages l)]⟩) ∧
        l.Perm ((s.messages.filter (fun m => m.chat_id == id)).map messageView) ∧
        l.Sorted (fun a b => a.created_at ≤ b.created_at)) := by
  constructor
  · intro h1 h2
    simp [getChatTranscript, hfind, h1, h2]
  · intro h
    refine ⟨ChatMessage.findAll s id, ?_, ?_, ?_⟩
    · rcases h with h | h <;> simp [getChatTranscript, hfind, h]
    · exact (List.perm_insertionSort _ _).map messageView
    · haveI : IsTotal ChatMessage (fun a b => a.created_at ≤ b.created_at) :=
        ⟨fun a b => le_total a.created_at b.created_at⟩
      haveI : IsTrans ChatMessage (fun a b => a.created_at ≤ b.created_at) :=
        ⟨fun _ _ _ hab hbc => le_trans hab hbc⟩
      have hsorted := List.sorted_insertionSort
        (fun a b : ChatMessage => a.created_at ≤ b.created_at)
        (s.messages.filter (fun m => m.chat_id == id))
      unfold ChatMessage.findAll
      unfold List.Sorted at hsorted ⊢
      rw [List.pairwise_map]
      exact hsorted

/-- C25 (amended) at chat 1: the donor is refused, the chat's user reads the two
messages oldest first. -/
theorem transcript_access_witness :
    TherapyChat.findByPk chatRoom 1 = some chat1 ∧
    getChatTranscript chatRoom donor7 1 =
      (chatRoom, ⟨403, [("error", Json.str "Not authorized")]⟩) ∧
    ∃ l, getChatTranscript chatRoom patient3 1 =
        (chatRoom, ⟨200, [("chat", Json.chat chat1), ("messages", Json.messages l)]⟩) ∧
      l.Perm ((chatRoom.messages.filter (fun m => m.chat_id == 1)).map messageView) ∧
      l.Sorted (fun a b => a.created_at ≤ b.created_at) :=
  ⟨by decide!,
    (transcript_access chatRoom donor7 1 chat1 (by decide!)).1 (by decide) (by decide),
    (transcript_access chatRoom patient3 1 chat1 (by decide!)).2 (Or.inl rfl)⟩

/-- C26: for every store in which every medication's quantity is non-negative,
`fulfillRequest` leaves every medication's quantity non-negative, whatever its outcome.
For a caller it admits (NGO or admin), an existing request and its medication: when the
quantity is 0 or less it answers 400 and changes nothing; otherwise, the store accepting
the two updates, it answers 200, decreases that medication's quantity by exactly 1,
leaves every other medication as it was and sets the request's status to fulfilled. -/
theorem fulfil_keeps_stock_nonnegative (s : Pharmacy) (user : User) (id : Int)
    (env : FulfillEnv) (hnonneg : ∀ m ∈ s.medications, 0 ≤ m.quantity) :
    (∀ m ∈ (fulfillRequest s user id env).1.medications, 0 ≤ m.quantity) ∧
    (∀ request medication, (user.role = "ngo" ∨ user.role = "admin") →
      MedicationRequest.findByPk s id = some request →
      Medication.findByPk s request.medication_id = some medication →
      (medication.quantity ≤ 0 →
        fulfillRequest s user id env =
          (s, ⟨400, [("error", Json.str "Item no longer available")]⟩)) ∧
      (0 < medication.quantity → env.medicationSaveFails = false →
        env.requestSaveFails = false →
        (fulfillRequest s user id env).2.status = 200 ∧
        Medication.findByPk (fulfillRequest s user id env).1 request.medication_id =
          some { medication with quantity := medication.quantity - 1 } ∧
        (∀ k, k ≠ request.medication_id →
          Medication.findByPk (fulfillRequest s user id env).1 k = Medication.findByPk s k) ∧
        MedicationRequest.findByPk (fulfillRequest s user id env).1 id =
          some { request with status := "fulfilled" })) := by
  constructor
  · have hsaved : ∀ (medication : Medication), 0 < medication.quantity →
        ∀ m ∈ (Medication.save s medication.id (medication.quantity - 1)).medications,
          0 ≤ m.quantity := by
      intro medication hpos m hm
      simp only [Medication.save, List.mem_map] at hm
      obtain ⟨m0, hm0, rfl⟩ := hm
      split
      · show 0 ≤ medication.quantity - 1
        omega
      · exact hnonneg m0 hm0
    unfold fulfillRequest
    split
    · exact hnonneg
    · split
      · exact hnonneg
      · split
        · exact hnonneg
        · rename_i medication _
          split
          · exact hnonneg
          · rename_i hq
            have hpos : 0 < medication.quantity := not_le.mp hq
            split
            · exact hnonneg
            · split
              · exact hsaved medication hpos
              · exact hsaved medication hpos
  · intro request medication hrole hreq hmed
    constructor
    · intro hq
      have hguard : ¬ (user.role ≠ "ngo" ∧ user.role ≠ "admin") := by
        rcases hrole with h | h <;> simp [h]
      unfold fulfillRequest
      rw [if_neg hguard, hreq]
      simp only [hmed, hq, if_true]
    · intro hpos h1 h2
      rw [fulfil_done s user id env request medication hrole hreq hmed hpos h1 h2]
      exact ⟨rfl, fulfil_done_reads s id request medication hreq hmed⟩

/-- C26 at the pharmacy with three units of insulin. -/
theorem fulfil_keeps_stock_nonnegative_witness :
    (∀ m ∈ pharmacy.medications, 0 ≤ m.quantity) ∧
    (∀ m ∈ (fulfillRequest pharmacy ngo6 1 steady).1.medications, 0 ≤ m.quantity) ∧
    (fulfillRequest pharmacy ngo6 1 steady).2.status = 200 ∧
    Medication.findByPk (fulfillRequest pharmacy ngo6 1 steady).1 1 =
      some { insulin with quantity := 2 } :=
  ⟨by decide,
    (fulfil_keeps_stock_nonnegative pharmacy ngo6 1 steady (by decide)).1,
    (((fulfil_keeps_stock_nonnegative pharmacy ngo6 1 steady (by decide)).2
      filledRequest insulin (Or.inl rfl) (by decide!) (by decide!)).2
      (by decide) rfl rfl).1,
    (((fulfil_keeps_stock_nonnegative pharmacy ngo6 1 steady (by decide)).2
      filledRequest insulin (Or.inl rfl) (by decide!) (by decide!)).2
      (by decide) rfl rfl).2.1⟩

/-- C27: `fulfillRequest` does not look at the request's status. For a request of any
status (fulfilled and cancelled included) whose medication has at least `k` units, `k`
calls by an NGO or admin, the store accepting the updates, all answer 200 and leave the
medication's quantity decreased by `k`. -/
theorem fulfil_again_and_again (k : Nat) (s : Pharmacy) (user : User) (id : Int)
    (request : MedicationRequest) (medication : Medication)
    (hrole : user.role = "ngo" ∨ user.role = "admin")
    (hreq : MedicationRequest.findByPk s id = some request)
    (hmed : Medication.findByPk s request.medication_id = some medication)
    (hstock : (k : Int) ≤ medication.quantity) :
    fulfillAnswers s user id steady k = List.replicate k 200 ∧
    Medication.findByPk (fulfillTimes s user id steady k) request.medication_id =
      some { medication with quantity := medication.quantity - k } := by
  induction k generalizing s request medication with
  | zero => exact ⟨rfl, by simpa using hmed⟩
  | succ k ih =>
    have hpos : 0 < medication.quantity := by push_cast at hstock; omega
    have hstep := fulfil_done s user id steady request medication hrole hreq hmed hpos
      rfl rfl
    obtain ⟨r1, -, r3⟩ := fulfil_done_reads s id request medication hreq hmed
    have hs1 := congrArg Prod.fst hstep
    simp only at hs1
    rw [← hs1] at r1 r3
    obtain ⟨a1, a2⟩ := ih (fulfillRequest s user id steady).1
      { request with status := "fulfilled" }
      { medication with quantity := medication.quantity - 1 } r3 r1
      (by push_cast at hstock; show (k : Int) ≤ medication.quantity - 1; omega)
    refine ⟨?_, ?_⟩
    · simp only [fulfillAnswers, List.replicate_succ]
      rw [a1, hstep]
    · simp only [fulfillTimes]
      rw [a2]
      simp only [Option.some.injEq, Medication.mk.injEq, true_and, and_true]
      push_cast
      ring

/-- C27 at a request that is already fulfilled: three more calls take the three units. -/
theorem fulfil_again_and_again_witness :
    filledRequest.status = "fulfilled" ∧
    fulfillAnswers pharmacy ngo6 1 steady 3 = List.replicate 3 200 ∧
    Medication.findByPk (fulfillTimes pharmacy ngo6 1 steady 3) filledRequest.medication_id =
      some { insulin with quantity := insulin.quantity - (3 : Nat) } :=
  ⟨rfl, fulfil_again_and_again 3 pharmacy ngo6 1 filledRequest insulin (Or.inl rfl)
    (by decide!) (by decide!) (by decide)⟩

/-- C28: `donate` never checks the treatment's current status. For a treatment of any
status, a valid `donate` whose writes the store accepts answers 201 and credits the
amount (the new funded_amount is the double nearest to the previous one plus the
amount), setting the status to funded when the new funded_amount is at least
goal_amount and leaving it otherwise; so a completed treatment whose new funded_amount
reaches its goal is set back to funded, and a treatment already at its goal is credited
all the same and stays at or above its goal. -/
theorem donate_ignores_status (s : Store) (user : User) (body : DonateBody) (env : Env)
    (tid : Int) (a : JsNumber) (t : Treatment)
    (htid : body.treatment_id = some tid) (hamt : body.amount = some a)
    (hnz : tid ≠ 0) (hpos : 0 < a) (hfind : Treatment.findByPk s tid = some t)
    (hcreate : env.createFails = false) (hsave : env.saveFails = false) :
    (donate s user body env).2.status = 201 ∧
    Treatment.findByPk (donate s user body env).1 tid =
      some { t with
        funded_amount := JsNumber.ofRat (t.funded_amount.val + a.val),
        status := if JsNumber.ofRat (t.funded_amount.val + a.val) ≥ t.goal_amount
                  then Status.funded else t.status } ∧
    (t.status = Status.completed →
      t.goal_amount ≤ JsNumber.ofRat (t.funded_amount.val + a.val) →
      (Treatment.findByPk (donate s user body env).1 tid).map (fun x => x.status) =
        some Status.funded) ∧
    (t.goal_amount ≤ t.funded_amount →
      ∃ x, Treatment.findByPk (donate s user body env).1 tid = some x ∧
        x.funded_amount = JsNumber.ofRat (t.funded_amount.val + a.val) ∧
        t.funded_amount ≤ x.funded_amount ∧ x.goal_amount ≤ x.funded_amount) := by
  obtain ⟨h1, h2, -⟩ := donate_done s user body env tid a t htid hamt hnz hpos hfind
    hcreate hsave
  have hup : t.funded_amount ≤ t.funded_amount + a :=
    JsNumber.le_add _ (JsNumber.le_of_lt hpos)
  refine ⟨h1, h2, ?_, ?_⟩
  · intro _ hreach
    rw [h2]
    have hreach1 : t.goal_amount ≤ t.funded_amount + a := hreach
    simp [credited, hreach1]
  · intro hfull
    exact ⟨credited t a, h2, rfl, hup, JsNumber.le_trans hfull hup⟩

/-- C28 at a completed treatment funded to its goal of 100: a donation of 10 is accepted,
the status becomes funded and funded_amount 110, above the goal. -/
theorem donate_ignores_status_witness :
    Treatment.findByPk completedStore 1 =
      some { knee with funded_amount := 100, status := Status.completed } ∧
    (donate completedStore donor7 (give 1 10) calm).2.status = 201 ∧
    (Treatment.findByPk (donate completedStore donor7 (give 1 10) calm).1 1).map
      (fun x => (x.status, x.funded_amount, x.goal_amount)) =
        some (Status.funded, 110, 100) ∧
    (100 : JsNumber) < 110 :=
  ⟨by decide!,
    (donate_ignores_status completedStore donor7 (give 1 10) calm 1 10
      { knee with funded_amount := 100, status := Status.completed } rfl rfl (by decide)
      (by decide!) (by decide!) rfl rfl).1,
    by decide!, by decide!⟩

/-- C29, the claim as stated fails: a `login` request with a non-empty email and, as
password, a truthy value that is not a string (the number 12345, say) is answered 500
when the email is registered and 401 when it is not, so the answer tells whether the
email is registered. -/
theorem login_tells_registered_email :
    truthyPassword (Password.other true) = true ∧
    User.findOne accounts "ahmad@example.com" = some ahmad ∧
    User.findOne accounts "nobody@example.com" = none ∧
    login toyLibrary accounts ⟨some "ahmad@example.com", Password.other true⟩ =
      (accounts, ⟨500, [("error", Json.str "Server error during login")]⟩) ∧
    login toyLibrary accounts ⟨some "nobody@example.com", Password.other true⟩ =
      (accounts, ⟨401, [("error", Json.str "Invalid credentials")]⟩) := by
  decide!

/-- C29 (amended): for every `login` request with a non-empty email and a password that
is a non-empty string, the answer when no user has that email and the answer when the
user exists but the password does not match are the same, 401 with the error 'Invalid
credentials', and the store is unchanged; with a password that is a truthy value but not
a string, `login` answers that 401 for an unknown email and 500 for a registered one; a
successful `login` answers the message, the user's id, name, email, role and language,
and the token signed for its id and role; a successful `register` answers the same
three keys for the new user, and its answer is the same for every non-empty string
password. -/
theorem login_answers (lib : Library) (s : Accounts) (email : String) (he : email ≠ "") :
    (∀ password : String, password ≠ "" →
      (User.findOne s email = none →
        login lib s ⟨some email, Password.text password⟩ =
          (s, ⟨401, [("error", Json.str "Invalid credentials")]⟩)) ∧
      (∀ u, User.findOne s email = some u → lib.compare password u.password = false →
        login lib s ⟨some email, Password.text password⟩ =
          (s, ⟨401, [("error", Json.str "Invalid credentials")]⟩)) ∧
      (∀ u, User.findOne s email = some u → lib.compare password u.password = true →
        login lib s ⟨some email, Password.text password⟩ =
          (s, ⟨200, [("message", Json.str "Login successful"),
                     ("user", Json.account
                       { id := u.id, name := u.name, email := u.email, role := u.role,
                         language := u.language }),
                     ("token", Json.str (lib.sign u.id u.role))]⟩))) ∧
    (User.findOne s email = none →
      login lib s ⟨some email, Password.other true⟩ =
        (s, ⟨401, [("error", Json.str "Invalid credentials")]⟩)) ∧
    (∀ u, User.findOne s email = some u →
      login lib s ⟨some email, Password.other true⟩ =
        (s, ⟨500, [("error", Json.str "Server error during login")]⟩)) ∧
    (∀ (r : RegisterBody) (env : Env), (register lib s r env).2.status = 201 →
      ∃ u : User, (register lib s r env).2.body =
        [("message", Json.str "User registered successfully"),
         ("user", Json.account
           { id := u.id, name := u.name, email := u.email, role := u.role,
             language := u.language }),
         ("token", Json.str (lib.sign u.id u.role))]) ∧
    (∀ (r : RegisterBody) (env : Env) (p q : String), p ≠ "" → q ≠ "" →
      (register lib s { r with password := Password.text p } env).2 =
        (register lib s { r with password := Password.text q } env).2) := by
  refine ⟨?_, ?_, ?_, ?_, ?_⟩
  · intro password hp
    refine ⟨?_, ?_, ?_⟩
    · intro h
      simp [login, truthyStr, truthyPassword, he, hp, h]
    · intro u h hc
      simp [login, truthyStr, truthyPassword, he, hp, h, hc]
    · intro u h hc
      simp [login, truthyStr, truthyPassword, he, hp, h, hc, accountView]
  · intro h
    simp [login, truthyStr, truthyPassword, he, h]
  · intro u h
    simp [login, truthyStr, truthyPassword, he, h]
  · intro r env hok
    obtain ⟨u, -, hbody⟩ := register_answer lib s r env hok
    exact ⟨u, hbody⟩
  · intro r env p q hp1 hq1
    exact register_answer_ignores_password lib s r env p q hp1 hq1

/-- C29 (amended) at one registered account: with a string password an unknown email and
a wrong password are answered alike, and two registrations that differ in the password
are answered alike. -/
theorem login_answers_witness :
    login toyLibrary accounts ⟨some "nobody@example.com", Password.text "secure123"⟩ =
      (accounts, ⟨401, [("error", Json.str "Invalid credentials")]⟩) ∧
    login toyLibrary accounts ⟨some "ahmad@example.com", Password.text "guess"⟩ =
      (accounts, ⟨401, [("error", Json.str "Invalid credentials")]⟩) ∧
    (register toyLibrary accounts (signUp "one") calm).2.status = 201 ∧
    (register toyLibrary accounts (signUp "one") calm).2 =
      (register toyLibrary accounts (signUp "another") calm).2 :=
  ⟨((login_answers toyLibrary accounts "nobody@example.com" (by decide)).1
      "secure123" (by decide)).1 (by decide!),
    ((login_answers toyLibrary accounts "ahmad@example.com" (by decide)).1
      "guess" (by decide)).2.1 ahmad (by decide!) (by decide!),
    by decide!,
    (login_answers toyLibrary accounts "ahmad@example.com" (by decide)).2.2.2.2
      (signUp "x") calm "one" "another" (by decide) (by decide)⟩

end HealthPal
